import Mathlib

/-! The Windows TCP server of gRPC (`src/core/lib/iomgr/tcp_server_windows.cc`).

A shallow embedding of the listener engine: the server and listener records,
the accept cycle (`start_accept_locked`, `on_accept`), port registration
(`prepare_socket`, `add_socket_to_server`, `tcp_server_add_port`), start-up and
the reference-counted shutdown (`tcp_server_unref`, `tcp_server_destroy`,
`finish_shutdown_locked`).

Conventions of the embedding.

* Pointers are natural numbers, `0` is `NULL`.
* C `int` fields are `Int`; the `unsigned` port index is a `Nat` reduced
  modulo `2 ^ 32`.
* Every call into the operating system or into another module has its result
  supplied by an explicit record of outcomes (`ArmOS`, `AcceptOS`, `AddPortOS`),
  so a theorem quantified over these records covers every behaviour of the
  environment.
* Observable effects (closing a socket, invoking the connection callback,
  handing a closure to the `ExecCtx`, logging) are appended to a trace of
  `Event`s; a failed `GPR_ASSERT` ends the computation with no value.
* All functions run with the server mutex held, so the model is sequential.
-/

namespace TcpServerWindows

/-! ## Handles, errors, addresses -/

abbrev SOCKET := Nat

def INVALID_SOCKET : SOCKET := 2 ^ 64 - 1

def SOCKET_ERROR : Int := -1

def ERROR_IO_PENDING : Int := 997

/-- Modelled from the spec: the error type `grpc_error` is declared in
`error.h`, which is not part of the sources at hand. The spec speaks of "a
structured error (with target address and a platform error code)" that wraps
its cause. An error is a description with string and integer attributes, and
for errors built with `GRPC_ERROR_CREATE_REFERENCING_FROM_STATIC_STRING` the one
referenced child error. -/
inductive grpc_error where
  | leaf (desc : String) (strs : List (String × String)) (ints : List (String × Int))
  | referencing (desc : String) (strs : List (String × String))
      (ints : List (String × Int)) (child : grpc_error)
  deriving DecidableEq, Repr

/-- A `grpc_error_handle`; `none` is `GRPC_ERROR_NONE`. -/
abbrev grpc_error_handle := Option grpc_error

def GRPC_ERROR_NONE : grpc_error_handle := none

/-- Modelled from the spec: the error made by `GRPC_WSA_ERROR(err, call_name)`,
carrying "a platform error code" and the name of the failed call. -/
def GRPC_WSA_ERROR (err : Int) (call_name : String) : grpc_error :=
  .leaf "OS Error" [("syscall", call_name)] [("wsa_error", err)]

/-- Modelled from the spec: the error made by
`GRPC_ERROR_CREATE_REFERENCING_FROM_STATIC_STRING(desc, &err, 1)`, which
references the one error `err`. -/
def GRPC_ERROR_CREATE_REFERENCING_FROM_STATIC_STRING (desc : String)
    (err : grpc_error) : grpc_error :=
  .referencing desc [] [] err

/-- Modelled from the spec: `grpc_error_set_str` returns the error with one more
string attribute. -/
def grpc_error_set_str (e : grpc_error) (key value : String) : grpc_error :=
  match e with
  | .leaf d strs ints => .leaf d (strs ++ [(key, value)]) ints
  | .referencing d strs ints c => .referencing d (strs ++ [(key, value)]) ints c

/-- Modelled from the spec: `grpc_error_set_int` returns the error with one more
integer attribute. -/
def grpc_error_set_int (e : grpc_error) (key : String) (value : Int) : grpc_error :=
  match e with
  | .leaf d strs ints => .leaf d strs (ints ++ [(key, value)])
  | .referencing d strs ints c => .referencing d strs (ints ++ [(key, value)]) c

def GRPC_ERROR_STR_TARGET_ADDRESS : String := "target_address"

def GRPC_ERROR_INT_FD : String := "fd"

/-- Modelled from the spec: the address type `grpc_resolved_address` and its
helpers live in `sockaddr_utils`, which is not part of the sources at hand. The
spec asks for "a variable-length binary address plus length" supporting
"is wildcard", "get port", "set port", "to displayable string" and "convert
IPv4 to IPv4-mapped-IPv6". An address is an IPv4 or an IPv6 socket address:
the host as a number and the port as a number (no 16-bit truncation is
modelled). -/
inductive grpc_resolved_address where
  | in4 (s_addr : Nat) (sin_port : Nat)
  | in6 (s6_addr : Nat) (sin6_port : Nat)
  deriving DecidableEq, Repr

/-- Modelled from the spec: "get port" of an address. -/
def grpc_sockaddr_get_port (a : grpc_resolved_address) : Int :=
  match a with
  | .in4 _ p => (p : Int)
  | .in6 _ p => (p : Int)

/-- Modelled from the spec: "set port" of an address. -/
def grpc_sockaddr_set_port (a : grpc_resolved_address) (port : Int) :
    grpc_resolved_address :=
  match a with
  | .in4 h _ => .in4 h port.toNat
  | .in6 h _ => .in6 h port.toNat

/-- Modelled from the spec: "convert IPv4 to IPv4-mapped-IPv6"; `none` when the
address is not IPv4 (the C function returns 0 and leaves the output alone). -/
def grpc_sockaddr_to_v4mapped (a : grpc_resolved_address) :
    Option grpc_resolved_address :=
  match a with
  | .in4 h p => some (.in6 (0xffff00000000 + h) p)
  | .in6 _ _ => none

/-- Modelled from the spec: "is wildcard": `some port` when the address is
`0.0.0.0`, its IPv4-mapped form, or `::`. -/
def grpc_sockaddr_is_wildcard (a : grpc_resolved_address) : Option Int :=
  match a with
  | .in4 h p => if h = 0 then some (p : Int) else none
  | .in6 h p => if h = 0 ∨ h = 0xffff00000000 then some (p : Int) else none

/-- Modelled from the spec: the canonical IPv6 wildcard carrying a port. -/
def grpc_sockaddr_make_wildcard6 (port : Int) : grpc_resolved_address :=
  .in6 0 port.toNat

/-- Modelled from the spec: "to displayable string" of an address. -/
def grpc_sockaddr_to_uri (a : grpc_resolved_address) : String :=
  match a with
  | .in4 h p => "ipv4:" ++ toString h ++ ":" ++ toString p
  | .in6 h p => "ipv6:[" ++ toString h ++ "]:" ++ toString p

/-! ## Records -/

/-- Modelled from the spec: the wrapper `grpc_winsocket` around an OS socket
(`socket_windows.h` is not part of the sources at hand), recorded by the
arguments of `grpc_winsocket_create(socket, name)`. -/
structure grpc_winsocket where
  socket : SOCKET
  name : String
  deriving DecidableEq, Repr

def grpc_winsocket_create (socket : SOCKET) (name : String) : grpc_winsocket :=
  { socket := socket, name := name }

/-- Modelled from the spec: the endpoint returned by `grpc_tcp_create`, "an
endpoint constructor taking an owned connected socket, a peer-address string,
and a buffer-allocation strategy, returning an opaque transport endpoint
object"; it is recorded by its arguments. -/
structure grpc_endpoint where
  socket : grpc_winsocket
  channel_args : Nat
  peer_string : String
  slice_allocator : Nat × String
  deriving DecidableEq, Repr

def grpc_tcp_create (socket : grpc_winsocket) (channel_args : Nat)
    (peer_string : String) (slice_allocator : Nat × String) : grpc_endpoint :=
  { socket := socket, channel_args := channel_args, peer_string := peer_string,
    slice_allocator := slice_allocator }

/-- Modelled from the spec: the "buffer-allocation strategy" made by
`grpc_slice_allocator_factory_create_slice_allocator(factory, peer)`, recorded
by its arguments. -/
def grpc_slice_allocator_factory_create_slice_allocator (factory : Nat)
    (peer : String) : Nat × String := (factory, peer)

structure grpc_tcp_server_acceptor where
  from_server : Nat
  port_index : Nat
  fd_index : Nat
  external_connection : Bool
  deriving DecidableEq, Repr

/-- One listening port (`struct grpc_tcp_listener`). The `next` pointer is the
position in the list of listeners of the server; `server` is the address of the
owning server. -/
structure grpc_tcp_listener where
  new_socket : SOCKET
  socket : grpc_winsocket
  port : Int
  port_index : Nat
  server : Nat
  AcceptEx : Nat
  shutting_down : Int
  outstanding_calls : Int
  deriving DecidableEq, Repr

/-- The overall server (`struct grpc_tcp_server`). `listeners` is the linked list
from `head` to `tail`; `self` is the address of the record. -/
structure grpc_tcp_server where
  self : Nat
  refs : Int
  on_accept_cb : Nat
  on_accept_cb_arg : Nat
  active_ports : Int
  listeners : List grpc_tcp_listener
  shutdown_starting : List Nat
  shutdown_complete : Nat
  channel_args : Nat
  slice_allocator_factory : Nat
  deriving DecidableEq, Repr

/-! ## Effects -/

inductive Event where
  | closesocket (sock : SOCKET)
  | gpr_log (severity : String) (message : String)
  | grpc_socket_notify_on_read (socket : grpc_winsocket)
  | grpc_winsocket_shutdown (socket : grpc_winsocket)
  | grpc_winsocket_destroy (socket : grpc_winsocket)
  | grpc_slice_allocator_factory_destroy (factory : Nat)
  | grpc_channel_args_destroy (args : Nat)
  | gpr_mu_destroy (s : Nat)
  /-- The call `gpr_free(sp)` on a listener record. -/
  | gpr_free_listener (sp : grpc_tcp_listener)
  /-- The call `gpr_free(s)` on the server record. -/
  | gpr_free_server (s : Nat)
  /-- The call `on_accept_cb(arg, ep, NULL, acceptor)`; `third` is the third
  argument. -/
  | on_accept_cb (cb : Nat) (arg : Nat) (ep : grpc_endpoint) (third : Nat)
      (acceptor : grpc_tcp_server_acceptor)
  /-- The call `ExecCtx::Run(closure, GRPC_ERROR_NONE)` on a caller-supplied closure. -/
  | ExecCtx_Run (closure : Nat)
  /-- The call `ExecCtx::Run` on `GRPC_CLOSURE_CREATE(destroy_server, s, ...)`. -/
  | ExecCtx_Run_destroy_server (s : Nat)
  /-- The call `ExecCtx::RunList(list)`. -/
  | ExecCtx_RunList (closures : List Nat)
  deriving DecidableEq, Repr

/-- A computation: the effects it performed, and its value unless a `GPR_ASSERT`
failed (`none`). -/
structure Run (α : Type) where
  trace : List Event
  value : Option α
  deriving DecidableEq, Repr

namespace Run

def pure {α : Type} (a : α) : Run α := ⟨[], some a⟩

def bind {α β : Type} (m : Run α) (f : α → Run β) : Run β :=
  match m.value with
  | none => ⟨m.trace, none⟩
  | some a => ⟨m.trace ++ (f a).trace, (f a).value⟩

end Run

instance : Monad Run where
  pure := Run.pure
  bind := Run.bind

def emit (e : Event) : Run Unit := ⟨[e], some ()⟩

/-- The macro `GPR_ASSERT(cond)`: the process is aborted when `cond` is false. -/
def GPR_ASSERT (cond : Bool) : Run Unit := ⟨[], if cond then some () else none⟩

/-- The macro `GRPC_LOG_IF_ERROR(what, error)`: true when there is no error,
otherwise the error is logged and the result is false. -/
def GRPC_LOG_IF_ERROR (what : String) (error : grpc_error_handle) : Run Bool :=
  match error with
  | none => ⟨[], some true⟩
  | some _ => ⟨[.gpr_log "ERROR" what], some false⟩

/-! ## Outcomes of the environment -/

/-- What the environment answers during one `start_accept_locked`. -/
structure ArmOS where
  /-- The socket returned by `WSASocket`, `INVALID_SOCKET` on failure. -/
  WSASocket : SOCKET
  /-- The result of `grpc_tcp_prepare_socket` on that socket. -/
  grpc_tcp_prepare_socket : grpc_error_handle
  /-- The result of the `AcceptEx` call. -/
  AcceptEx : Bool
  /-- The value of `WSAGetLastError()` after a failed call. -/
  WSAGetLastError : Int
  deriving DecidableEq, Repr

/-- What the environment answers during one `on_accept`. -/
structure AcceptOS where
  /-- The result of `WSAGetOverlappedResult`. -/
  WSAGetOverlappedResult : Bool
  /-- The result of `setsockopt(SO_UPDATE_ACCEPT_CONTEXT)`. -/
  setsockopt : Int
  /-- The peer address written by `getpeername`, `none` when it returns an error. -/
  getpeername : Option grpc_resolved_address
  /-- The answers to the re-arming `start_accept_locked`. -/
  rearm : ArmOS
  deriving DecidableEq, Repr

/-- What the environment answers during one `tcp_server_add_port`. -/
structure AddPortOS where
  /-- The local address `getsockname` reports for a socket, `none` when it fails. -/
  getsockname : SOCKET → Option grpc_resolved_address
  /-- The socket returned by `WSASocket`, `INVALID_SOCKET` on failure. -/
  WSASocket : SOCKET
  /-- The status of `WSAIoctl(SIO_GET_EXTENSION_FUNCTION_POINTER)`. -/
  WSAIoctl : Int
  /-- The `AcceptEx` pointer written by `WSAIoctl`. -/
  AcceptEx : Nat
  /-- The result of `grpc_tcp_prepare_socket` on the new socket. -/
  grpc_tcp_prepare_socket : grpc_error_handle
  /-- The result of `bind`. -/
  bind : Int
  /-- The result of `listen`. -/
  listen : Int
  /-- The value of `WSAGetLastError()` after a failed call. -/
  WSAGetLastError : Int

/-! ## Creation, reference counting, shutdown -/

/-- The function `tcp_server_create`; `self` is the address returned by
`gpr_malloc`. -/
def tcp_server_create (shutdown_complete : Nat) (args : Nat)
    (slice_allocator_factory : Nat) (self : Nat) : grpc_tcp_server :=
  { self := self
    channel_args := args
    refs := 1
    active_ports := 0
    on_accept_cb := 0
    on_accept_cb_arg := 0
    listeners := []
    shutdown_starting := []
    shutdown_complete := shutdown_complete
    slice_allocator_factory := slice_allocator_factory }

/-- The `while (s->head)` loop of `destroy_server`: each listener is unlinked,
its socket destroyed and its record freed. -/
def destroy_server_loop : List grpc_tcp_listener → List Event
  | [] => []
  | sp :: rest =>
    Event.grpc_winsocket_destroy sp.socket :: Event.gpr_free_listener sp
      :: destroy_server_loop rest

/-- The function `destroy_server`, run from the `ExecCtx` after
`finish_shutdown_locked` scheduled it: every listener socket is destroyed and
the records are freed. -/
def destroy_server (s : grpc_tcp_server) : Run Unit :=
  ⟨destroy_server_loop s.listeners
    ++ [Event.grpc_channel_args_destroy s.channel_args, Event.gpr_mu_destroy s.self,
        Event.gpr_free_server s.self], some ()⟩

def finish_shutdown_locked (s : grpc_tcp_server) : Run Unit := do
  if s.shutdown_complete ≠ 0 then
    emit (.ExecCtx_Run s.shutdown_complete)
  emit (.ExecCtx_Run_destroy_server s.self)

def tcp_server_ref (s : grpc_tcp_server) : grpc_tcp_server :=
  { s with refs := s.refs + 1 }

def tcp_server_shutdown_starting_add (s : grpc_tcp_server) (shutdown_starting : Nat) :
    grpc_tcp_server :=
  { s with shutdown_starting := s.shutdown_starting ++ [shutdown_starting] }

def tcp_server_destroy (s : grpc_tcp_server) : Run grpc_tcp_server := do
  emit (.grpc_slice_allocator_factory_destroy s.slice_allocator_factory)
  if s.active_ports = 0 then
    finish_shutdown_locked s
    pure s
  else
    Run.mk (s.listeners.map (fun sp => Event.grpc_winsocket_shutdown sp.socket))
      (some { s with listeners := s.listeners.map (fun sp => { sp with shutting_down := 1 }) })

/-- The function `tcp_server_shutdown_listeners`: its body is empty. -/
def tcp_server_shutdown_listeners (s : grpc_tcp_server) : Run grpc_tcp_server :=
  pure s

/-- The function `tcp_server_unref`. The callees `gpr_unref` and
`ExecCtx::RunList` are not part of the sources at hand and follow the spec:
"decrements refcount; on reaching zero, begins shutdown sequence" and the list
is "read-then-cleared exactly once". So `gpr_unref` decrements the count and
reports whether it was 1, and `ExecCtx::RunList` hands over the closures and
empties the list. -/
def tcp_server_unref (s : grpc_tcp_server) : Run grpc_tcp_server :=
  let prior := s.refs
  let s := { s with refs := s.refs - 1 }
  if prior = 1 then do
    let s ← tcp_server_shutdown_listeners s
    emit (.ExecCtx_RunList s.shutdown_starting)
    let s := { s with shutdown_starting := [] }
    tcp_server_destroy s
  else
    pure s

/-! ## The accept cycle -/

def decrement_active_ports_and_notify_locked (s : grpc_tcp_server)
    (sp : grpc_tcp_listener) : Run (grpc_tcp_server × grpc_tcp_listener) := do
  let sp := { sp with shutting_down := 0 }
  GPR_ASSERT (s.active_ports > 0)
  let s := { s with active_ports := s.active_ports - 1 }
  if s.active_ports = 0 then
    finish_shutdown_locked s
  pure (s, sp)

/-- The `failure:` exit of `start_accept_locked`. -/
def start_accept_locked_failure (sock : SOCKET) (error : grpc_error)
    (port : grpc_tcp_listener) : Run (grpc_error_handle × grpc_tcp_listener) := do
  GPR_ASSERT (some error != GRPC_ERROR_NONE)
  if sock ≠ INVALID_SOCKET then
    emit (.closesocket sock)
  pure (some error, port)

def start_accept_locked (port : grpc_tcp_listener) (os : ArmOS) :
    Run (grpc_error_handle × grpc_tcp_listener) :=
  if port.shutting_down ≠ 0 then
    pure (GRPC_ERROR_NONE, port)
  else
    let sock := os.WSASocket
    if sock = INVALID_SOCKET then
      start_accept_locked_failure sock (GRPC_WSA_ERROR os.WSAGetLastError "WSASocket") port
    else
      match os.grpc_tcp_prepare_socket with
      | some error => start_accept_locked_failure sock error port
      | none =>
        if !os.AcceptEx && os.WSAGetLastError != ERROR_IO_PENDING then
          start_accept_locked_failure sock (GRPC_WSA_ERROR os.WSAGetLastError "AcceptEx") port
        else do
          let port := { port with new_socket := sock }
          emit (.grpc_socket_notify_on_read port.socket)
          let port := { port with outstanding_calls := port.outstanding_calls + 1 }
          pure (GRPC_ERROR_NONE, port)

/-- The function `on_accept`, the completion handler of listener `sp` of server
`s`; `error` is the error the completion is delivered with. -/
def on_accept (s : grpc_tcp_server) (sp : grpc_tcp_listener) (error : grpc_error_handle)
    (os : AcceptOS) : Run (grpc_tcp_server × grpc_tcp_listener) :=
  let sock := sp.new_socket
  match error with
  | some _ => do
    emit (.gpr_log "INFO" "Skipping on_accept due to error")
    pure (s, sp)
  | none => do
    let ep : Option grpc_endpoint ←
      if !os.WSAGetOverlappedResult then do
        if sp.shutting_down = 0 then
          emit (.gpr_log "ERROR" "on_accept error")
        emit (.closesocket sock)
        pure none
      else if sp.shutting_down = 0 then do
        if os.setsockopt ≠ 0 then
          emit (.gpr_log "ERROR" "setsockopt error")
        let peer_name_string ←
          match os.getpeername with
          | some peer_name => (pure (grpc_sockaddr_to_uri peer_name) : Run String)
          | none => do
            emit (.gpr_log "ERROR" "getpeername error")
            pure ""
        let fd_name := "tcp_server:" ++ peer_name_string
        pure (some (grpc_tcp_create (grpc_winsocket_create sock fd_name) s.channel_args
          peer_name_string
          (grpc_slice_allocator_factory_create_slice_allocator s.slice_allocator_factory
            peer_name_string)))
      else do
        emit (.closesocket sock)
        pure none
    match ep with
    | some ep =>
      emit (.on_accept_cb s.on_accept_cb s.on_accept_cb_arg ep 0
        { from_server := sp.server, port_index := sp.port_index, fd_index := 0,
          external_connection := false })
    | none => pure ()
    let (err, sp) ← start_accept_locked sp os.rearm
    let ok ← GRPC_LOG_IF_ERROR "start_accept" err
    GPR_ASSERT ok
    let sp := { sp with outstanding_calls := sp.outstanding_calls - 1 }
    if sp.outstanding_calls = 0 then
      decrement_active_ports_and_notify_locked s sp
    else
      pure (s, sp)

/-! ## Port registration -/

/-- The function `prepare_socket`: the returned error and the value written to
`*port` (`port` is the value it held before). At the `failure:` label the
wrapping error is built and its value is dropped; the function returns `error`. -/
def prepare_socket (sock : SOCKET) (addr : grpc_resolved_address) (port : Int)
    (os : AddPortOS) : Run (grpc_error_handle × Int) :=
  let failure (error : grpc_error) : Run (grpc_error_handle × Int) := do
    GPR_ASSERT (some error != GRPC_ERROR_NONE)
    let _dropped :=
      grpc_error_set_int
        (grpc_error_set_str
          (GRPC_ERROR_CREATE_REFERENCING_FROM_STATIC_STRING
            "Failed to prepare server socket" error)
          GRPC_ERROR_STR_TARGET_ADDRESS (grpc_sockaddr_to_uri addr))
        GRPC_ERROR_INT_FD (sock : Int)
    if sock ≠ INVALID_SOCKET then
      emit (.closesocket sock)
    pure (some error, port)
  match os.grpc_tcp_prepare_socket with
  | some error => failure error
  | none =>
    if os.bind = SOCKET_ERROR then
      failure (GRPC_WSA_ERROR os.WSAGetLastError "bind")
    else if os.listen = SOCKET_ERROR then
      failure (GRPC_WSA_ERROR os.WSAGetLastError "listen")
    else
      match os.getsockname sock with
      | none => failure (GRPC_WSA_ERROR os.WSAGetLastError "getsockname")
      | some sockname_temp => pure (GRPC_ERROR_NONE, grpc_sockaddr_get_port sockname_temp)

/-- The function `add_socket_to_server`. `listener` is the value of `*listener`
on entry; the result carries the error, the value of `*listener` on exit and the
server. -/
def add_socket_to_server (s : grpc_tcp_server) (sock : SOCKET)
    (addr : grpc_resolved_address) (port_index : Nat)
    (listener : Option grpc_tcp_listener) (os : AddPortOS) :
    Run (grpc_error_handle × Option grpc_tcp_listener × grpc_tcp_server) :=
  let port : Int := -1
  if os.WSAIoctl ≠ 0 then do
    emit (.gpr_log "ERROR" "on_connect error")
    emit (.closesocket sock)
    pure (GRPC_ERROR_NONE, listener, s)
  else do
    let (error, port) ← prepare_socket sock addr port os
    match error with
    | some e => pure (some e, listener, s)
    | none =>
      GPR_ASSERT (port ≥ 0)
      GPR_ASSERT (s.on_accept_cb = 0)
      let sp : grpc_tcp_listener :=
        { server := s.self
          socket := grpc_winsocket_create sock "listener"
          shutting_down := 0
          outstanding_calls := 0
          AcceptEx := os.AcceptEx
          new_socket := INVALID_SOCKET
          port := port
          port_index := port_index }
      let s := { s with listeners := s.listeners ++ [sp] }
      pure (GRPC_ERROR_NONE, some sp, s)

/-- The loop of `tcp_server_add_port` over the listeners (taken when the
requested port is 0): the listener `sp` at which it stops with the port it
found, or `none` when it runs to the end of the list. -/
def add_port_search (os : AddPortOS) :
    List grpc_tcp_listener → Option (grpc_tcp_listener × Int)
  | [] => none
  | sp :: rest =>
    match os.getsockname sp.socket.socket with
    | some sockname_temp =>
      if grpc_sockaddr_get_port sockname_temp > 0 then
        some (sp, grpc_sockaddr_get_port sockname_temp)
      else add_port_search os rest
    | none => add_port_search os rest

/-- The first part of `tcp_server_add_port`: the value of `sp` after the loop and
the address that is handed to `add_socket_to_server`, after port reuse,
IPv4-mapping and wildcard normalisation. -/
def add_port_target (s : grpc_tcp_server) (addr : grpc_resolved_address)
    (os : AddPortOS) : Option grpc_tcp_listener × grpc_resolved_address :=
  let found :=
    if grpc_sockaddr_get_port addr = 0 then add_port_search os s.listeners else none
  let sp := found.map Prod.fst
  let addr :=
    match found with
    | some (_, port) => grpc_sockaddr_set_port addr port
    | none => addr
  let addr :=
    match grpc_sockaddr_to_v4mapped addr with
    | some addr6_v4mapped => addr6_v4mapped
    | none => addr
  let addr :=
    match grpc_sockaddr_is_wildcard addr with
    | some port => grpc_sockaddr_make_wildcard6 port
    | none => addr
  (sp, addr)

/-- The function `tcp_server_add_port`: the returned error, the value of `*port`
on return, and the server. -/
def tcp_server_add_port (s : grpc_tcp_server) (addr : grpc_resolved_address)
    (os : AddPortOS) : Run (grpc_error_handle × Int × grpc_tcp_server) :=
  let port_index : Nat :=
    match s.listeners.getLast? with
    | some tail => (tail.port_index + 1) % 2 ^ 32
    | none => 0
  let (sp, addr) := add_port_target s addr os
  let sock := os.WSASocket
  do
    let (error, sp, s) ←
      if sock = INVALID_SOCKET then
        (pure (some (GRPC_WSA_ERROR os.WSAGetLastError "WSASocket"), sp, s) :
          Run (grpc_error_handle × Option grpc_tcp_listener × grpc_tcp_server))
      else
        add_socket_to_server s sock addr port_index sp os
    match error with
    | some e =>
      pure (some (GRPC_ERROR_CREATE_REFERENCING_FROM_STATIC_STRING
        "Failed to add port to server" e), -1, s)
    | none => do
      GPR_ASSERT sp.isSome
      match sp with
      | some sp => pure (GRPC_ERROR_NONE, sp.port, s)
      | none => Run.mk [] none

/-! ## Start -/

/-- The loop of `tcp_server_start`: each listener is armed and counted; `os n`
answers the arming of the listener at position `n`. -/
def tcp_server_start_loop (os : Nat → ArmOS) :
    Nat → List grpc_tcp_listener → Int → Run (List grpc_tcp_listener × Int)
  | _, [], active_ports => pure ([], active_ports)
  | n, sp :: rest, active_ports => do
    let (err, sp) ← start_accept_locked sp (os n)
    let ok ← GRPC_LOG_IF_ERROR "start_accept" err
    GPR_ASSERT ok
    let (rest, active_ports) ← tcp_server_start_loop os (n + 1) rest (active_ports + 1)
    pure (sp :: rest, active_ports)

def tcp_server_start (s : grpc_tcp_server) (on_accept_cb : Nat) (on_accept_cb_arg : Nat)
    (os : Nat → ArmOS) : Run grpc_tcp_server := do
  GPR_ASSERT (on_accept_cb ≠ 0)
  GPR_ASSERT (s.on_accept_cb = 0)
  GPR_ASSERT (s.active_ports = 0)
  let s := { s with on_accept_cb := on_accept_cb, on_accept_cb_arg := on_accept_cb_arg }
  let (listeners, active_ports) ← tcp_server_start_loop os 0 s.listeners s.active_ports
  pure { s with listeners := listeners, active_ports := active_ports }

/-! ## Executions of one server -/

/-- The operations on a server: the public functions and the delivery of a
completion to `on_accept` for the listener at position `i`. -/
inductive Op where
  | add_port (addr : grpc_resolved_address) (os : AddPortOS)
  | start (on_accept_cb : Nat) (on_accept_cb_arg : Nat) (os : Nat → ArmOS)
  | on_accept (i : Nat) (error : grpc_error_handle) (os : AcceptOS)
  | ref
  | unref
  | shutdown_starting_add (closure : Nat)
  | shutdown_listeners

/-- One operation on the server. `on_accept` works on the listener record at
position `i`, which is written back to the list. -/
def step (s : grpc_tcp_server) : Op → Run grpc_tcp_server
  | .add_port addr os => do
    let (_, _, s) ← tcp_server_add_port s addr os
    pure s
  | .start cb arg os => tcp_server_start s cb arg os
  | .on_accept i error os =>
    match s.listeners[i]? with
    | some sp => do
      let (s, sp) ← on_accept s sp error os
      pure { s with listeners := s.listeners.set i sp }
    | none => pure s
  | .ref => pure (tcp_server_ref s)
  | .unref => tcp_server_unref s
  | .shutdown_starting_add closure => pure (tcp_server_shutdown_starting_add s closure)
  | .shutdown_listeners => tcp_server_shutdown_listeners s

/-- When an operation may happen: a completion is delivered only to a listener
with an accept outstanding; the public functions are called by a holder of a
reference. -/
def Op.enabled (s : grpc_tcp_server) : Op → Prop
  | .on_accept i _ _ => ∃ sp, s.listeners[i]? = some sp ∧ 0 < sp.outstanding_calls
  | _ => 0 < s.refs

/-- The executions of one server: the operations performed, the trace of their
effects and the state reached, starting from `tcp_server_create`; an operation
whose assertion fails ends the execution. -/
inductive Execution : List Op → List Event → grpc_tcp_server → Prop where
  | create (shutdown_complete args slice_allocator_factory self : Nat) :
      Execution [] [] (tcp_server_create shutdown_complete args slice_allocator_factory self)
  | step {ops : List Op} {tr : List Event} {s : grpc_tcp_server} (op : Op)
      (tr1 : List Event) (s1 : grpc_tcp_server) :
      Execution ops tr s → op.enabled s → step s op = ⟨tr1, some s1⟩ →
      Execution (ops ++ [op]) (tr ++ tr1) s1

/-- The closures registered by the operations of an execution, in order. -/
def registered_closures : List Op → List Nat
  | [] => []
  | .shutdown_starting_add closure :: ops => closure :: registered_closures ops
  | _ :: ops => registered_closures ops

/-! ## Observations on traces -/

def Event.is_on_accept_cb : Event → Bool
  | .on_accept_cb _ _ _ _ _ => true
  | _ => false

/-- The events of a re-arm: the registration of the read notification. -/
def Event.is_grpc_socket_notify_on_read : Event → Bool
  | .grpc_socket_notify_on_read _ => true
  | _ => false

def Event.is_closesocket : Event → Bool
  | .closesocket _ => true
  | _ => false

def Event.is_ExecCtx_Run : Event → Bool
  | .ExecCtx_Run _ => true
  | _ => false

def Event.is_ExecCtx_Run_destroy_server : Event → Bool
  | .ExecCtx_Run_destroy_server _ => true
  | _ => false

/-! ## Notions used in the statements -/

/-- The endpoint `on_accept` builds for listener `sp` from a peer string. -/
def accepted_endpoint (s : grpc_tcp_server) (sp : grpc_tcp_listener)
    (peer_name_string : String) : grpc_endpoint :=
  grpc_tcp_create (grpc_winsocket_create sp.new_socket ("tcp_server:" ++ peer_name_string))
    s.channel_args peer_name_string
    (grpc_slice_allocator_factory_create_slice_allocator s.slice_allocator_factory
      peer_name_string)

/-- The acceptor descriptor `on_accept` builds for listener `sp`. -/
def accepted_acceptor (sp : grpc_tcp_listener) : grpc_tcp_server_acceptor :=
  { from_server := sp.server, port_index := sp.port_index, fd_index := 0,
    external_connection := false }

/-- The port index `tcp_server_add_port` gives to the next listener. -/
def next_port_index (s : grpc_tcp_server) : Nat :=
  match s.listeners.getLast? with
  | some tail => (tail.port_index + 1) % 2 ^ 32
  | none => 0

/-- The listener record `add_socket_to_server` appends for socket `sock` bound
to `port`. -/
def added_listener (s : grpc_tcp_server) (os : AddPortOS) (port : Int) : grpc_tcp_listener :=
  { server := s.self
    socket := grpc_winsocket_create os.WSASocket "listener"
    shutting_down := 0
    outstanding_calls := 0
    AcceptEx := os.AcceptEx
    new_socket := INVALID_SOCKET
    port := port
    port_index := next_port_index s }

/-- The OS binds the socket of a registration to the port requested of it: when
the address handed to `bind` carries a port other than 0, `getsockname` on the
new socket reports that port. -/
def binds_requested_port (s : grpc_tcp_server) (addr : grpc_resolved_address)
    (os : AddPortOS) : Prop :=
  ∀ a, os.getsockname os.WSASocket = some a →
    grpc_sockaddr_get_port (add_port_target s addr os).2 ≠ 0 →
    grpc_sockaddr_get_port a = grpc_sockaddr_get_port (add_port_target s addr os).2

/-- How often a trace hands the shutdown-complete closure to the `ExecCtx` (the
one `ExecCtx::Run` on a caller-supplied closure is in `finish_shutdown_locked`). -/
def shutdown_complete_runs (tr : List Event) : Nat :=
  tr.countP Event.is_ExecCtx_Run

/-- How often a trace schedules `destroy_server`, once per
`finish_shutdown_locked`. -/
def finish_shutdowns (tr : List Event) : Nat :=
  tr.countP Event.is_ExecCtx_Run_destroy_server

/-- The events that hand something to the `ExecCtx`. -/
def Event.is_ExecCtx : Event → Bool
  | .ExecCtx_Run _ => true
  | .ExecCtx_Run_destroy_server _ => true
  | .ExecCtx_RunList _ => true
  | _ => false

def Event.is_ExecCtx_RunList : Event → Bool
  | .ExecCtx_RunList _ => true
  | _ => false

/-- How often a trace hands a closure list to the `ExecCtx`. -/
def run_lists (tr : List Event) : Nat :=
  tr.countP Event.is_ExecCtx_RunList

/-- A trace that hands nothing to the `ExecCtx`. -/
def quiet (tr : List Event) : Prop :=
  tr.countP Event.is_ExecCtx = 0

/-- The number of listeners with an accept outstanding. -/
def armed_listeners (s : grpc_tcp_server) : Nat :=
  s.listeners.countP (fun sp => decide (sp.outstanding_calls = 1))

/-- The arming of a listener fails: the listener is not shutting down and
`WSASocket`, `grpc_tcp_prepare_socket` or `AcceptEx` (other than with
`ERROR_IO_PENDING`) fails. -/
def arm_fails (sp : grpc_tcp_listener) (os : ArmOS) : Prop :=
  sp.shutting_down = 0 ∧
    (os.WSASocket = INVALID_SOCKET ∨ os.grpc_tcp_prepare_socket ≠ none ∨
      (os.AcceptEx = false ∧ os.WSAGetLastError ≠ ERROR_IO_PENDING))

/-- A listener after a successful `start_accept_locked`. -/
def armed (sp : grpc_tcp_listener) (os : ArmOS) : grpc_tcp_listener :=
  if sp.shutting_down ≠ 0 then sp
  else { sp with new_socket := os.WSASocket, outstanding_calls := sp.outstanding_calls + 1 }

/-- The listeners after the loop of `tcp_server_start` armed each of them. -/
def armed_list (os : Nat → ArmOS) : Nat → List grpc_tcp_listener → List grpc_tcp_listener
  | _, [] => []
  | n, sp :: rest => armed sp (os n) :: armed_list os (n + 1) rest

/-- Some listener of the server cannot be armed with the answers `os`. -/
def some_arm_fails (s : grpc_tcp_server) (os : Nat → ArmOS) : Prop :=
  ∃ i sp, s.listeners[i]? = some sp ∧ arm_fails sp (os i)

/-- The effects of the first part of `on_accept` (no infrastructure error), up to
and including the connection callback. -/
def on_accept_delivery (s : grpc_tcp_server) (sp : grpc_tcp_listener) (os : AcceptOS) :
    List Event :=
  if os.WSAGetOverlappedResult = false then
    (if sp.shutting_down = 0 then [Event.gpr_log "ERROR" "on_accept error"] else [])
      ++ [Event.closesocket sp.new_socket]
  else if sp.shutting_down = 0 then
    (if os.setsockopt ≠ 0 then [Event.gpr_log "ERROR" "setsockopt error"] else [])
      ++ (match os.getpeername with
          | some _ => []
          | none => [Event.gpr_log "ERROR" "getpeername error"])
      ++ [Event.on_accept_cb s.on_accept_cb s.on_accept_cb_arg
            (accepted_endpoint s sp
              (match os.getpeername with
               | some peer_name => grpc_sockaddr_to_uri peer_name
               | none => ""))
            0 (accepted_acceptor sp)]
  else [Event.closesocket sp.new_socket]

/-- The second part of `on_accept`: the re-arming and the count-down. -/
def on_accept_finish (s : grpc_tcp_server) (sp : grpc_tcp_listener) (os : AcceptOS) :
    Run (grpc_tcp_server × grpc_tcp_listener) := do
  let (err, sp) ← start_accept_locked sp os.rearm
  let ok ← GRPC_LOG_IF_ERROR "start_accept" err
  GPR_ASSERT ok
  let sp := { sp with outstanding_calls := sp.outstanding_calls - 1 }
  if sp.outstanding_calls = 0 then
    decrement_active_ports_and_notify_locked s sp
  else
    pure (s, sp)

/-- The invariant of the executions of one server. -/
structure ServerInv (ops : List Op) (tr : List Event) (s : grpc_tcp_server) : Prop where
  /-- The reference count is not negative. -/
  refs_nonneg : 0 ≤ s.refs
  /-- Every listener has at most one accept outstanding. -/
  outstanding : ∀ sp ∈ s.listeners, sp.outstanding_calls = 0 ∨ sp.outstanding_calls = 1
  /-- The counter `active_ports` counts the listeners with an accept outstanding. -/
  active_ports : s.active_ports = armed_listeners s
  /-- While a reference is held, nothing was handed to the `ExecCtx`, no listener
  is shutting down, the closure list holds the registered closures, and the
  listeners are all idle before start and all armed after it. -/
  live : 0 < s.refs →
    quiet tr ∧ (∀ sp ∈ s.listeners, sp.shutting_down = 0) ∧
    s.shutdown_starting = registered_closures ops ∧
    (s.on_accept_cb = 0 → ∀ sp ∈ s.listeners, sp.outstanding_calls = 0) ∧
    (s.on_accept_cb ≠ 0 → ∀ sp ∈ s.listeners, sp.outstanding_calls = 1)
  /-- After the last release, the armed listeners are shutting down, the closure
  list was handed over once, and `finish_shutdown_locked` has run exactly when
  `active_ports` is zero. -/
  released : s.refs = 0 →
    (∀ sp ∈ s.listeners, sp.outstanding_calls = 1 → sp.shutting_down ≠ 0) ∧
    finish_shutdowns tr = (if s.active_ports = 0 then 1 else 0) ∧ run_lists tr = 1
  /-- The shutdown-complete closure, when there is one, ran once per
  `finish_shutdown_locked`. -/
  runs : shutdown_complete_runs tr
    = if s.shutdown_complete ≠ 0 then finish_shutdowns tr else 0

/-! ## Sample inputs -/

/-- A listener with an accept outstanding, not shutting down. -/
def ex_listener : grpc_tcp_listener :=
  { new_socket := 7, socket := grpc_winsocket_create 3 "listener", port := 5000,
    port_index := 0, server := 100, AcceptEx := 9, shutting_down := 0,
    outstanding_calls := 1 }

/-- The same listener after `tcp_server_destroy` marked it. -/
def ex_listener_shutting_down : grpc_tcp_listener :=
  { ex_listener with shutting_down := 1 }

/-- A started server with the one listener `ex_listener`. -/
def ex_server_started : grpc_tcp_server :=
  { tcp_server_create 55 1 2 100 with
    listeners := [ex_listener], active_ports := 1, on_accept_cb := 77,
    on_accept_cb_arg := 78 }

/-- An arming that succeeds with the fresh socket 8. -/
def ex_arm_ok : ArmOS :=
  { WSASocket := 8, grpc_tcp_prepare_socket := none, AcceptEx := true, WSAGetLastError := 0 }

/-- A successful completion whose peer is `10.0.0.1:4242`. -/
def ex_accept_ok : AcceptOS :=
  { WSAGetOverlappedResult := true, setsockopt := 0,
    getpeername := some (.in4 167772161 4242), rearm := ex_arm_ok }

/-- A successful completion for which `getpeername` fails. -/
def ex_accept_no_peer : AcceptOS :=
  { ex_accept_ok with getpeername := none }

/-- A server just created, with a shutdown-complete closure. -/
def ex_server_fresh : grpc_tcp_server := tcp_server_create 55 1 2 100

/-- A listener as `add_socket_to_server` leaves it, bound to port 5000. -/
def ex_listener_added : grpc_tcp_listener :=
  { new_socket := INVALID_SOCKET, socket := grpc_winsocket_create 3 "listener", port := 5000,
    port_index := 0, server := 100, AcceptEx := 9, shutting_down := 0,
    outstanding_calls := 0 }

/-- A server with one registered port, not started. -/
def ex_server_one_port : grpc_tcp_server :=
  { ex_server_fresh with listeners := [ex_listener_added] }

/-- A registration in which every call succeeds; socket 5 is created and the OS
reports port 5000 for the sockets 3 and 5. -/
def ex_add_port_ok : AddPortOS :=
  { getsockname := fun sock => if sock = 3 ∨ sock = 5 then some (.in6 0 5000) else none
    WSASocket := 5, WSAIoctl := 0, AcceptEx := 9, grpc_tcp_prepare_socket := none,
    bind := 0, listen := 0, WSAGetLastError := 0 }

/-- A registration in which `bind` fails with `WSAEADDRINUSE`. -/
def ex_add_port_bind_fails : AddPortOS :=
  { ex_add_port_ok with bind := SOCKET_ERROR, WSAGetLastError := 10048 }

/-- A registration in which the `WSAIoctl` lookup of `AcceptEx` fails. -/
def ex_add_port_ioctl_fails : AddPortOS :=
  { ex_add_port_ok with WSAIoctl := SOCKET_ERROR, WSAGetLastError := 10022 }

/-- A first registration on a fresh server: socket 3 is created and the OS
reports port 5000 for it. -/
def ex_add_port_first : AddPortOS :=
  { ex_add_port_ok with WSASocket := 3 }

/-- An arming in which `WSASocket` fails. -/
def ex_arm_no_socket : ArmOS :=
  { WSASocket := INVALID_SOCKET, grpc_tcp_prepare_socket := none, AcceptEx := false,
    WSAGetLastError := 10024 }

/-- The server `ex_server_one_port` after `tcp_server_start` armed its listener. -/
def ex_server_armed : grpc_tcp_server :=
  { ex_server_one_port with
    on_accept_cb := 77, on_accept_cb_arg := 78, active_ports := 1,
    listeners := [{ ex_listener_added with new_socket := 8, outstanding_calls := 1 }] }

/-- The server `ex_server_armed` after its only reference was released. -/
def ex_server_released : grpc_tcp_server :=
  { ex_server_armed with
    refs := 0,
    listeners := [{ ex_listener_added with new_socket := 8, outstanding_calls := 1,
                                           shutting_down := 1 }] }

/-- The server `ex_server_released` after the completion of its armed accept. -/
def ex_server_drained : grpc_tcp_server :=
  { ex_server_released with
    active_ports := 0,
    listeners := [{ ex_listener_added with new_socket := 8 }] }

/-- An infrastructure error delivered with a completion. -/
def ex_infrastructure_error : grpc_error :=
  .leaf "IOCP socket has been shutdown" [] []

/-- The operations up to the release of the only reference: one port, start,
release. -/
def ex_ops_release : List Op :=
  [.add_port (.in4 0 0) ex_add_port_first, .start 77 78 (fun _ => ex_arm_ok), .unref]

/-- The trace of `ex_ops_release`. -/
def ex_trace_release : List Event :=
  [.grpc_socket_notify_on_read (grpc_winsocket_create 3 "listener"),
   .ExecCtx_RunList [], .grpc_slice_allocator_factory_destroy 2,
   .grpc_winsocket_shutdown (grpc_winsocket_create 3 "listener")]

/-- A completion whose re-arm fails at `WSASocket`. -/
def ex_accept_rearm_fails : AcceptOS :=
  { ex_accept_ok with rearm := ex_arm_no_socket }

/-! ## Theorems -/

theorem Run.bind_eq {α β : Type} (m : Run α) (f : α → Run β) :
    (m >>= f) = Run.bind m f := rfl

theorem Run.pure_eq {α : Type} (a : α) : (Pure.pure a : Run α) = ⟨[], some a⟩ := rfl

/-- C1. A completion without infrastructure error on a listener that is shutting
down never reaches the connection callback, and the trace closes exactly one
socket, the pending `new_socket`, once; this holds for every answer of the
environment and every server state. -/
theorem on_accept_shutting_down_discards (s : grpc_tcp_server) (sp : grpc_tcp_listener)
    (os : AcceptOS) (h : sp.shutting_down ≠ 0) :
    (on_accept s sp GRPC_ERROR_NONE os).trace.filter Event.is_on_accept_cb = [] ∧
    (on_accept s sp GRPC_ERROR_NONE os).trace.filter Event.is_closesocket
      = [Event.closesocket sp.new_socket] := by
  cases hw : os.WSAGetOverlappedResult <;>
  simp [on_accept, GRPC_ERROR_NONE, hw, h, start_accept_locked, Run.bind, Run.bind_eq,
    Run.pure_eq, emit, GRPC_LOG_IF_ERROR,
    GPR_ASSERT, decrement_active_ports_and_notify_locked, finish_shutdown_locked] <;>
  split_ifs <;> simp [Event.is_on_accept_cb, Event.is_closesocket]

theorem on_accept_shutting_down_discards_witness :
    (on_accept ex_server_started ex_listener_shutting_down GRPC_ERROR_NONE
        ex_accept_ok).trace.filter Event.is_on_accept_cb = [] ∧
    (on_accept ex_server_started ex_listener_shutting_down GRPC_ERROR_NONE
        ex_accept_ok).trace.filter Event.is_closesocket
      = [Event.closesocket ex_listener_shutting_down.new_socket] :=
  on_accept_shutting_down_discards ex_server_started ex_listener_shutting_down ex_accept_ok
    (by decide)


/-- The `failure:` exit closes the socket when there is one and returns the error. -/
theorem start_accept_locked_failure_eq (sock : SOCKET) (error : grpc_error)
    (port : grpc_tcp_listener) :
    start_accept_locked_failure sock error port
      = ⟨if sock ≠ INVALID_SOCKET then [Event.closesocket sock] else [],
         some (some error, port)⟩ := by
  unfold start_accept_locked_failure
  by_cases h : sock = INVALID_SOCKET <;>
  simp [Run.bind_eq, Run.bind, Run.pure_eq, emit, GPR_ASSERT, GRPC_ERROR_NONE, h]

/-- The answer of `start_accept_locked` never aborts, and its trace holds no
callback invocation. -/
theorem start_accept_locked_total (sp : grpc_tcp_listener) (os : ArmOS) :
    ∃ tr err sp1, start_accept_locked sp os = ⟨tr, some (err, sp1)⟩ ∧
      tr.filter Event.is_on_accept_cb = [] := by
  unfold start_accept_locked
  simp only [start_accept_locked_failure_eq]
  by_cases h1 : sp.shutting_down ≠ 0
  · rw [if_pos h1]; exact ⟨_, _, _, rfl, rfl⟩
  rw [if_neg h1]
  by_cases h2 : os.WSASocket = INVALID_SOCKET
  · simp only [h2, if_true]; exact ⟨_, _, _, rfl, by simp [Event.is_on_accept_cb]⟩
  simp only [h2, if_false]
  cases os.grpc_tcp_prepare_socket with
  | some e => exact ⟨_, _, _, rfl, by simp [Event.is_on_accept_cb]⟩
  | none =>
    by_cases h3 : (!os.AcceptEx && os.WSAGetLastError != ERROR_IO_PENDING) = true
    · simp only [h3, if_true]; exact ⟨_, _, _, rfl, by simp [Event.is_on_accept_cb]⟩
    · simp only [h3]
      exact ⟨_, _, _, rfl, by simp [Event.is_on_accept_cb, emit, Run.pure_eq]⟩

/-- The answer of `start_accept_locked` never aborts, and it writes no log
line. -/
theorem start_accept_locked_no_log (sp : grpc_tcp_listener) (os : ArmOS) :
    ∃ tr err sp1, start_accept_locked sp os = ⟨tr, some (err, sp1)⟩ ∧
      ∀ level message, Event.gpr_log level message ∉ tr := by
  unfold start_accept_locked
  simp only [start_accept_locked_failure_eq]
  by_cases h1 : sp.shutting_down ≠ 0
  · rw [if_pos h1]; exact ⟨_, _, _, rfl, by simp⟩
  rw [if_neg h1]
  by_cases h2 : os.WSASocket = INVALID_SOCKET
  · simp only [h2, if_true]; exact ⟨_, _, _, rfl, by simp⟩
  simp only [h2, if_false]
  cases os.grpc_tcp_prepare_socket with
  | some e => exact ⟨_, _, _, rfl, by simp⟩
  | none =>
    by_cases h3 : (!os.AcceptEx && os.WSAGetLastError != ERROR_IO_PENDING) = true
    · simp only [h3, if_true]; exact ⟨_, _, _, rfl, by simp⟩
    · simp only [h3]
      exact ⟨_, _, _, rfl, by simp [emit, Run.pure_eq, Run.bind_eq, Run.bind]⟩

/-- The function `on_accept` without infrastructure error is its first part
followed by its second part. -/
theorem on_accept_eq (s : grpc_tcp_server) (sp : grpc_tcp_listener) (os : AcceptOS) :
    on_accept s sp GRPC_ERROR_NONE os
      = ⟨on_accept_delivery s sp os ++ (on_accept_finish s sp os).trace,
         (on_accept_finish s sp os).value⟩ := by
  unfold on_accept on_accept_delivery on_accept_finish
  cases hw : os.WSAGetOverlappedResult <;> cases hp : os.getpeername <;>
  by_cases hso : os.setsockopt = 0 <;> by_cases hsd : sp.shutting_down = 0 <;>
  simp [GRPC_ERROR_NONE, hso, hsd, Run.bind, Run.bind_eq, Run.pure_eq, emit,
    accepted_endpoint, accepted_acceptor]

/-- C3, amended. A successful completion without infrastructure error on a
listener that is not shutting down invokes the connection callback exactly
once, with the endpoint built from the accepted socket and the peer string,
`NULL` as third argument and the acceptor of the listener. The peer string is
the URI of the address `getpeername` reported, and the empty string when
`getpeername` failed. The effects of `on_accept` begin with the log line of a
failed `setsockopt`, when it failed, then the log line of a failed
`getpeername`, when it failed, and then the callback: a failure of
`getpeername` is logged and the connection is still delivered, and when
`getpeername` succeeds nothing is logged for it. -/
theorem on_accept_delivers_once (s : grpc_tcp_server) (sp : grpc_tcp_listener)
    (os : AcceptOS) (hok : os.WSAGetOverlappedResult = true) (h : sp.shutting_down = 0) :
    (on_accept s sp GRPC_ERROR_NONE os).trace.filter Event.is_on_accept_cb
      = [Event.on_accept_cb s.on_accept_cb s.on_accept_cb_arg
          (accepted_endpoint s sp
            (match os.getpeername with
             | some peer_name => grpc_sockaddr_to_uri peer_name
             | none => ""))
          0 (accepted_acceptor sp)] ∧
    (∃ rest, (on_accept s sp GRPC_ERROR_NONE os).trace
      = (if os.setsockopt ≠ 0 then [Event.gpr_log "ERROR" "setsockopt error"] else [])
        ++ (match os.getpeername with
            | some _ => []
            | none => [Event.gpr_log "ERROR" "getpeername error"])
        ++ [Event.on_accept_cb s.on_accept_cb s.on_accept_cb_arg
              (accepted_endpoint s sp
                (match os.getpeername with
                 | some peer_name => grpc_sockaddr_to_uri peer_name
                 | none => ""))
              0 (accepted_acceptor sp)]
        ++ rest ∧
      Event.gpr_log "ERROR" "getpeername error" ∉ rest) := by
  constructor
  · obtain ⟨tr, err, sp1, hst, hcb⟩ := start_accept_locked_total sp os.rearm
    cases hp : os.getpeername <;> cases err <;>
    simp [on_accept, GRPC_ERROR_NONE, hok, h, hp, hst, hcb,
      Run.bind, Run.bind_eq,
      Run.pure_eq, emit, GRPC_LOG_IF_ERROR, accepted_endpoint, accepted_acceptor,
      GPR_ASSERT, decrement_active_ports_and_notify_locked, finish_shutdown_locked] <;>
    split_ifs <;> simp [Event.is_on_accept_cb, hcb]
  · refine ⟨(on_accept_finish s sp os).trace, ?_, ?_⟩
    · rw [on_accept_eq]
      simp only [on_accept_delivery, hok, h, Bool.true_eq_false, if_false, if_true]
    · obtain ⟨tr, err, sp1, hst, hlog⟩ := start_accept_locked_no_log sp os.rearm
      cases err with
      | some e =>
        simp [on_accept_finish, hst, Run.bind, Run.bind_eq, GRPC_LOG_IF_ERROR, GPR_ASSERT, hlog]
      | none =>
        simp [on_accept_finish, hst, Run.bind, Run.bind_eq, Run.pure_eq, GRPC_LOG_IF_ERROR,
          GPR_ASSERT, decrement_active_ports_and_notify_locked, finish_shutdown_locked,
          emit, hlog]
        split_ifs <;> simp [hlog]

theorem on_accept_delivers_once_witness :
    (on_accept ex_server_started ex_listener GRPC_ERROR_NONE
        ex_accept_ok).trace.filter Event.is_on_accept_cb
      = [Event.on_accept_cb 77 78
          (accepted_endpoint ex_server_started ex_listener
            (grpc_sockaddr_to_uri (.in4 167772161 4242)))
          0 (accepted_acceptor ex_listener)] ∧
    (∃ rest, (on_accept ex_server_started ex_listener GRPC_ERROR_NONE
        { ex_accept_no_peer with setsockopt := -1 }).trace
      = [Event.gpr_log "ERROR" "setsockopt error",
         Event.gpr_log "ERROR" "getpeername error",
         Event.on_accept_cb 77 78 (accepted_endpoint ex_server_started ex_listener "")
           0 (accepted_acceptor ex_listener)]
        ++ rest ∧
      Event.gpr_log "ERROR" "getpeername error" ∉ rest) :=
  ⟨(on_accept_delivers_once ex_server_started ex_listener ex_accept_ok rfl rfl).1,
   (on_accept_delivers_once ex_server_started ex_listener
     { ex_accept_no_peer with setsockopt := -1 } rfl rfl).2⟩

/-- The URI of an address is never the empty string. -/
theorem grpc_sockaddr_to_uri_ne_empty (a : grpc_resolved_address) :
    grpc_sockaddr_to_uri a ≠ "" := by
  cases a <;> simp [grpc_sockaddr_to_uri, String.ext_iff]

/-- C3, as stated, fails when `getpeername` fails on a successful completion for
a listener that is not shutting down: the OS reports no peer address, the
failure is logged, and the callback is invoked with the endpoint built from the
empty peer string, which is the endpoint built from the URI of no address. -/
theorem on_accept_delivers_once_counterexample :
    ex_accept_no_peer.WSAGetOverlappedResult = true ∧ ex_listener.shutting_down = 0 ∧
    ex_accept_no_peer.getpeername = none ∧
    (on_accept ex_server_started ex_listener GRPC_ERROR_NONE ex_accept_no_peer).trace
      = [Event.gpr_log "ERROR" "getpeername error",
         Event.on_accept_cb 77 78 (accepted_endpoint ex_server_started ex_listener "")
           0 (accepted_acceptor ex_listener),
         Event.grpc_socket_notify_on_read ex_listener.socket] ∧
    (on_accept ex_server_started ex_listener GRPC_ERROR_NONE
        ex_accept_no_peer).trace.filter Event.is_on_accept_cb
      = [Event.on_accept_cb 77 78 (accepted_endpoint ex_server_started ex_listener "")
          0 (accepted_acceptor ex_listener)] ∧
    ¬ ∃ peer_name : grpc_resolved_address,
      (on_accept ex_server_started ex_listener GRPC_ERROR_NONE
          ex_accept_no_peer).trace.filter Event.is_on_accept_cb
        = [Event.on_accept_cb 77 78
            (accepted_endpoint ex_server_started ex_listener
              (grpc_sockaddr_to_uri peer_name))
            0 (accepted_acceptor ex_listener)] := by
  have h2 : (on_accept ex_server_started ex_listener GRPC_ERROR_NONE
          ex_accept_no_peer).trace.filter Event.is_on_accept_cb
        = [Event.on_accept_cb 77 78 (accepted_endpoint ex_server_started ex_listener "")
            0 (accepted_acceptor ex_listener)] := by decide
  refine ⟨rfl, rfl, rfl, by decide, h2, ?_⟩
  rintro ⟨peer_name, h⟩
  rw [h2] at h
  simp [accepted_endpoint, grpc_tcp_create] at h
  exact grpc_sockaddr_to_uri_ne_empty peer_name h.2.1.symm

/-- C6. At a failing `bind`, `prepare_socket` closes the socket and returns the
underlying `bind` error itself: the "Failed to prepare server socket" error that
carries the target address and the socket handle is built and dropped. -/
theorem prepare_socket_bind_failure_returns_cause :
    prepare_socket 5 (.in6 0 5000) (-1) ex_add_port_bind_fails
      = ⟨[Event.closesocket 5], some (some (GRPC_WSA_ERROR 10048 "bind"), -1)⟩ ∧
    ∀ strs ints child, GRPC_WSA_ERROR 10048 "bind"
      ≠ grpc_error.referencing "Failed to prepare server socket" strs ints child := by
  refine ⟨by decide, ?_⟩
  intro strs ints child h
  simp [GRPC_WSA_ERROR] at h

/-- C4. When the `WSAIoctl` lookup fails, `add_socket_to_server` reports no error
without creating a listener. On a server without listeners `tcp_server_add_port`
then stops at `GPR_ASSERT(sp != NULL)`; on a server whose port-reuse search
stopped at an earlier listener it returns no error with the port of that
earlier listener, while the new socket was closed and never bound. -/
theorem tcp_server_add_port_ioctl_failure :
    tcp_server_add_port ex_server_fresh (.in4 2130706433 0) ex_add_port_ioctl_fails
      = ⟨[Event.gpr_log "ERROR" "on_connect error", Event.closesocket 5], none⟩ ∧
    tcp_server_add_port ex_server_one_port (.in4 2130706433 0) ex_add_port_ioctl_fails
      = ⟨[Event.gpr_log "ERROR" "on_connect error", Event.closesocket 5],
         some (GRPC_ERROR_NONE, 5000, ex_server_one_port)⟩ := by
  constructor <;> decide

/-- The two exits of `prepare_socket`: success with the port `getsockname`
reports, or the `failure:` exit, which closes the socket and returns an error,
leaving `*port` alone. -/
theorem prepare_socket_cases (sock : SOCKET) (addr : grpc_resolved_address) (port : Int)
    (os : AddPortOS) :
    (∃ a, os.grpc_tcp_prepare_socket = none ∧ os.bind ≠ SOCKET_ERROR ∧
        os.listen ≠ SOCKET_ERROR ∧ os.getsockname sock = some a ∧
        prepare_socket sock addr port os = ⟨[], some (GRPC_ERROR_NONE, grpc_sockaddr_get_port a)⟩) ∨
    (∃ e, (os.grpc_tcp_prepare_socket ≠ none ∨ os.bind = SOCKET_ERROR ∨
          os.listen = SOCKET_ERROR ∨ os.getsockname sock = none) ∧
        prepare_socket sock addr port os
          = ⟨if sock ≠ INVALID_SOCKET then [Event.closesocket sock] else [],
             some (some e, port)⟩) := by
  have hf : ∀ e : grpc_error,
      (do
        GPR_ASSERT (some e != GRPC_ERROR_NONE)
        if sock ≠ INVALID_SOCKET then
          emit (.closesocket sock)
        pure (some e, port) : Run (grpc_error_handle × Int))
      = ⟨if sock ≠ INVALID_SOCKET then [Event.closesocket sock] else [],
         some (some e, port)⟩ := by
    intro e
    by_cases h : sock = INVALID_SOCKET <;>
    simp [Run.bind_eq, Run.bind, Run.pure_eq, emit, GPR_ASSERT, GRPC_ERROR_NONE, h]
  unfold prepare_socket
  simp only [hf]
  cases h1 : os.grpc_tcp_prepare_socket with
  | some e => exact Or.inr ⟨e, Or.inl (by simp), rfl⟩
  | none =>
    by_cases h2 : os.bind = SOCKET_ERROR
    · exact Or.inr ⟨GRPC_WSA_ERROR os.WSAGetLastError "bind", Or.inr (Or.inl h2), by simp [h2]⟩
    by_cases h3 : os.listen = SOCKET_ERROR
    · exact Or.inr ⟨GRPC_WSA_ERROR os.WSAGetLastError "listen", Or.inr (Or.inr (Or.inl h3)),
        by simp [h2, h3]⟩
    cases h4 : os.getsockname sock with
    | none => exact Or.inr ⟨GRPC_WSA_ERROR os.WSAGetLastError "getsockname",
        Or.inr (Or.inr (Or.inr rfl)), by simp [h2, h3]⟩
    | some a => exact Or.inl ⟨a, rfl, h2, h3, rfl, by simp [h2, h3, Run.pure_eq]⟩

/-- When `WSASocket` fails, `tcp_server_add_port` returns an error and port -1. -/
theorem tcp_server_add_port_no_socket (s : grpc_tcp_server) (addr : grpc_resolved_address)
    (os : AddPortOS) (h : os.WSASocket = INVALID_SOCKET) :
    tcp_server_add_port s addr os
      = ⟨[], some (some (GRPC_ERROR_CREATE_REFERENCING_FROM_STATIC_STRING
          "Failed to add port to server" (GRPC_WSA_ERROR os.WSAGetLastError "WSASocket")),
          -1, s)⟩ := by
  simp [tcp_server_add_port, h, Run.bind_eq, Run.bind, Run.pure_eq]

/-- When the `WSAIoctl` lookup fails, no error is reported and no listener is
created: the call aborts or reports the port of the listener the search found. -/
theorem tcp_server_add_port_no_AcceptEx (s : grpc_tcp_server) (addr : grpc_resolved_address)
    (os : AddPortOS) (h1 : os.WSASocket ≠ INVALID_SOCKET) (h2 : os.WSAIoctl ≠ 0) :
    tcp_server_add_port s addr os
      = ⟨[Event.gpr_log "ERROR" "on_connect error", Event.closesocket os.WSASocket],
         match (add_port_target s addr os).1 with
         | none => none
         | some sp => some (GRPC_ERROR_NONE, sp.port, s)⟩ := by
  cases h : (add_port_target s addr os).1 <;>
  simp [tcp_server_add_port, add_socket_to_server, h, h1, h2, Run.bind_eq, Run.bind,
    Run.pure_eq, emit, GPR_ASSERT, GRPC_ERROR_NONE]

/-- When preparing the socket fails, `tcp_server_add_port` returns an error and
port -1, and the server is unchanged. -/
theorem tcp_server_add_port_prepare_failure (s : grpc_tcp_server)
    (addr : grpc_resolved_address) (os : AddPortOS) (h1 : os.WSASocket ≠ INVALID_SOCKET)
    (h2 : os.WSAIoctl = 0) (tr : List Event) (e : grpc_error) (p : Int)
    (hp : prepare_socket os.WSASocket (add_port_target s addr os).2 (-1) os
      = ⟨tr, some (some e, p)⟩) :
    tcp_server_add_port s addr os
      = ⟨tr, some (some (GRPC_ERROR_CREATE_REFERENCING_FROM_STATIC_STRING
          "Failed to add port to server" e), -1, s)⟩ := by
  simp [tcp_server_add_port, add_socket_to_server, h1, h2, hp, Run.bind_eq, Run.bind,
    Run.pure_eq]

/-- When preparing the socket succeeds, `tcp_server_add_port` appends the new
listener and returns its port on a server that was not started, and aborts on
a started one. -/
theorem tcp_server_add_port_prepared (s : grpc_tcp_server)
    (addr : grpc_resolved_address) (os : AddPortOS) (h1 : os.WSASocket ≠ INVALID_SOCKET)
    (h2 : os.WSAIoctl = 0) (a : grpc_resolved_address)
    (hp : prepare_socket os.WSASocket (add_port_target s addr os).2 (-1) os
      = ⟨[], some (GRPC_ERROR_NONE, grpc_sockaddr_get_port a)⟩) :
    tcp_server_add_port s addr os
      = if s.on_accept_cb = 0 then
          ⟨[], some (GRPC_ERROR_NONE, grpc_sockaddr_get_port a,
            { s with listeners :=
                s.listeners ++ [added_listener s os (grpc_sockaddr_get_port a)] })⟩
        else ⟨[], none⟩ := by
  have hport : (0 : Int) ≤ grpc_sockaddr_get_port a := by
    cases a <;> simp [grpc_sockaddr_get_port]
  by_cases hcb : s.on_accept_cb = 0 <;>
  simp [tcp_server_add_port, add_socket_to_server, h1, h2, hp, Run.bind_eq, Run.bind,
    Run.pure_eq, GPR_ASSERT, GRPC_ERROR_NONE, hport, hcb, added_listener, next_port_index]

/-- Whatever `tcp_server_add_port` returns, the server is unchanged or it is the
not-started server with one listener appended, in which case no error is
returned and the reported port is the port of the appended listener. -/
theorem tcp_server_add_port_state (s : grpc_tcp_server) (addr : grpc_resolved_address)
    (os : AddPortOS) (err : grpc_error_handle) (port : Int) (s1 : grpc_tcp_server)
    (h : (tcp_server_add_port s addr os).value = some (err, port, s1)) :
    s1 = s ∨ (s.on_accept_cb = 0 ∧ err = GRPC_ERROR_NONE ∧ os.WSAIoctl = 0 ∧
      s1 = { s with listeners := s.listeners ++ [added_listener s os port] } ∧
      ∃ a, os.getsockname os.WSASocket = some a ∧ port = grpc_sockaddr_get_port a) := by
  by_cases h1 : os.WSASocket = INVALID_SOCKET
  · rw [tcp_server_add_port_no_socket s addr os h1] at h
    simp at h; exact Or.inl h.2.2.symm
  by_cases h2 : os.WSAIoctl = 0
  · rcases prepare_socket_cases os.WSASocket (add_port_target s addr os).2 (-1) os with
      ⟨a, _, _, _, ha, hp⟩ | ⟨e, _, hp⟩
    · rw [tcp_server_add_port_prepared s addr os h1 h2 a hp] at h
      by_cases hcb : s.on_accept_cb = 0
      · rw [if_pos hcb] at h
        simp at h
        obtain ⟨he, hport, hs⟩ := h
        exact Or.inr ⟨hcb, he.symm, h2, by rw [← hs, hport], a, ha, hport.symm⟩
      · simp [hcb] at h
    · rw [tcp_server_add_port_prepare_failure s addr os h1 h2 _ e _ hp] at h
      simp at h; exact Or.inl h.2.2.symm
  · rw [tcp_server_add_port_no_AcceptEx s addr os h1 h2] at h
    cases hsp : (add_port_target s addr os).1 with
    | none => simp [hsp] at h
    | some sp => simp [hsp] at h; exact Or.inl h.2.2.symm

/-- C10, amended. On a started server no call of `tcp_server_add_port` appends a
listener: whatever it returns, the server is unchanged. The call ends in the
assertion failure when socket creation, the `AcceptEx` lookup and the socket
preparation all succeed; when `WSASocket` fails, or the lookup succeeds and the
preparation fails, it returns an error with port -1 instead. -/
theorem tcp_server_add_port_after_start (s : grpc_tcp_server)
    (addr : grpc_resolved_address) (os : AddPortOS) (hstarted : s.on_accept_cb ≠ 0) :
    (∀ err port s1, (tcp_server_add_port s addr os).value = some (err, port, s1) → s1 = s) ∧
    (os.WSASocket ≠ INVALID_SOCKET → os.WSAIoctl = 0 → os.grpc_tcp_prepare_socket = none →
      os.bind ≠ SOCKET_ERROR → os.listen ≠ SOCKET_ERROR →
      os.getsockname os.WSASocket ≠ none →
      (tcp_server_add_port s addr os).value = none) ∧
    (os.WSASocket = INVALID_SOCKET ∨
      (os.WSAIoctl = 0 ∧ (os.grpc_tcp_prepare_socket ≠ none ∨ os.bind = SOCKET_ERROR ∨
        os.listen = SOCKET_ERROR ∨ os.getsockname os.WSASocket = none)) →
      ∃ e, (tcp_server_add_port s addr os).value = some (some e, -1, s)) := by
  refine ⟨?_, ?_, ?_⟩
  · intro err port s1 h
    rcases tcp_server_add_port_state s addr os err port s1 h with h1 | ⟨h1, _⟩
    · exact h1
    · exact absurd h1 hstarted
  · intro h1 h2 h3 h4 h5 h6
    rcases prepare_socket_cases os.WSASocket (add_port_target s addr os).2 (-1) os with
      ⟨a, _, _, _, _, hp⟩ | ⟨e, hc, _⟩
    · rw [tcp_server_add_port_prepared s addr os h1 h2 a hp]
      simp [hstarted]
    · rcases hc with hc | hc | hc | hc
      · exact absurd h3 hc
      · exact absurd hc h4
      · exact absurd hc h5
      · exact absurd hc h6
  · rintro (h1 | ⟨h2, hfail⟩)
    · exact ⟨_, by rw [tcp_server_add_port_no_socket s addr os h1]⟩
    · by_cases h1 : os.WSASocket = INVALID_SOCKET
      · exact ⟨_, by rw [tcp_server_add_port_no_socket s addr os h1]⟩
      rcases prepare_socket_cases os.WSASocket (add_port_target s addr os).2 (-1) os with
        ⟨a, c1, c2, c3, c4, _⟩ | ⟨e, _, hp⟩
      · rcases hfail with hc | hc | hc | hc
        · exact absurd c1 hc
        · exact absurd hc c2
        · exact absurd hc c3
        · rw [c4] at hc; simp at hc
      · exact ⟨_, by rw [tcp_server_add_port_prepare_failure s addr os h1 h2 _ e _ hp]⟩

theorem tcp_server_add_port_after_start_witness :
    ex_server_started.on_accept_cb ≠ 0 ∧
    (∀ err port s1,
      (tcp_server_add_port ex_server_started (.in4 0 0) ex_add_port_ok).value
        = some (err, port, s1) → s1 = ex_server_started) ∧
    (tcp_server_add_port ex_server_started (.in4 0 0) ex_add_port_ok).value = none ∧
    ∃ e, (tcp_server_add_port ex_server_started (.in4 0 0) ex_add_port_bind_fails).value
      = some (some e, -1, ex_server_started) :=
  ⟨by decide,
   (tcp_server_add_port_after_start ex_server_started (.in4 0 0) ex_add_port_ok
      (by decide)).1,
   (tcp_server_add_port_after_start ex_server_started (.in4 0 0) ex_add_port_ok
      (by decide)).2.1 (by decide) (by decide) (by decide) (by decide) (by decide)
      (by decide),
   (tcp_server_add_port_after_start ex_server_started (.in4 0 0) ex_add_port_bind_fails
      (by decide)).2.2 (Or.inr ⟨by decide, Or.inr (Or.inl (by decide))⟩)⟩

/-- C10, as stated, fails: on a started server a registration whose `bind` fails
returns an error normally, without any assertion failure. -/
theorem tcp_server_add_port_after_start_counterexample :
    ex_server_started.on_accept_cb ≠ 0 ∧
    (tcp_server_add_port ex_server_started (.in4 0 0) ex_add_port_bind_fails).value
      = some (some (GRPC_ERROR_CREATE_REFERENCING_FROM_STATIC_STRING
          "Failed to add port to server" (GRPC_WSA_ERROR 10048 "bind")), -1,
          ex_server_started) ∧
    (tcp_server_add_port ex_server_started (.in4 0 0) ex_add_port_bind_fails).value ≠ none := by
  decide

/-- The effects of `finish_shutdown_locked`. -/
theorem finish_shutdown_locked_eq (s : grpc_tcp_server) :
    finish_shutdown_locked s
      = ⟨(if s.shutdown_complete ≠ 0 then [Event.ExecCtx_Run s.shutdown_complete] else [])
          ++ [Event.ExecCtx_Run_destroy_server s.self], some ()⟩ := by
  by_cases h : s.shutdown_complete = 0 <;>
  simp [finish_shutdown_locked, h, Run.bind_eq, Run.bind, Run.pure_eq, emit]

/-- The release that brings the reference count to zero. -/
theorem tcp_server_unref_last (s : grpc_tcp_server) (h : s.refs = 1) :
    tcp_server_unref s
      = if s.active_ports = 0 then
          ⟨[Event.ExecCtx_RunList s.shutdown_starting,
              Event.grpc_slice_allocator_factory_destroy s.slice_allocator_factory]
            ++ ((if s.shutdown_complete ≠ 0 then [Event.ExecCtx_Run s.shutdown_complete]
                else []) ++ [Event.ExecCtx_Run_destroy_server s.self]),
           some { s with refs := 0, shutdown_starting := [] }⟩
        else
          ⟨[Event.ExecCtx_RunList s.shutdown_starting,
              Event.grpc_slice_allocator_factory_destroy s.slice_allocator_factory]
            ++ s.listeners.map (fun sp => Event.grpc_winsocket_shutdown sp.socket),
           some { s with
             refs := 0, shutdown_starting := [],
             listeners := s.listeners.map (fun sp => { sp with shutting_down := 1 }) }⟩ := by
  by_cases h0 : s.active_ports = 0 <;>
  simp [tcp_server_unref, tcp_server_shutdown_listeners, tcp_server_destroy,
    finish_shutdown_locked_eq, h, h0, Run.bind_eq, Run.bind, Run.pure_eq, emit]

/-- A release that leaves references behind only decrements the count. -/
theorem tcp_server_unref_not_last (s : grpc_tcp_server) (h : s.refs ≠ 1) :
    tcp_server_unref s = ⟨[], some { s with refs := s.refs - 1 }⟩ := by
  simp [tcp_server_unref, h, Run.pure_eq]

/-- C7, amended. The explicit shutdown request `tcp_server_shutdown_listeners`
has no effect and changes nothing, so no listener is marked and requesting it
twice is the same as requesting it once. The listeners are marked shutting down
by the release that brings the reference count to zero while `active_ports` is
not zero. -/
theorem tcp_server_shutdown_listeners_no_effect (s : grpc_tcp_server) :
    tcp_server_shutdown_listeners s = ⟨[], some s⟩ ∧
    (tcp_server_shutdown_listeners s >>= tcp_server_shutdown_listeners)
      = tcp_server_shutdown_listeners s ∧
    (s.refs = 1 → s.active_ports ≠ 0 →
      ∃ s1, (tcp_server_unref s).value = some s1 ∧
        ∀ sp ∈ s1.listeners, sp.shutting_down = 1) := by
  refine ⟨rfl, rfl, ?_⟩
  intro h1 h2
  rw [tcp_server_unref_last s h1, if_neg h2]
  exact ⟨_, rfl, by simp⟩

theorem tcp_server_shutdown_listeners_no_effect_witness :
    ex_server_started.refs = 1 ∧ ex_server_started.active_ports ≠ 0 ∧
    ∃ s1, (tcp_server_unref ex_server_started).value = some s1 ∧
      ∀ sp ∈ s1.listeners, sp.shutting_down = 1 :=
  ⟨by decide, by decide,
   (tcp_server_shutdown_listeners_no_effect ex_server_started).2.2 (by decide) (by decide)⟩

/-- C7, as stated, fails: after the explicit shutdown request on a started
server its listener is still not marked shutting down. -/
theorem tcp_server_shutdown_listeners_counterexample :
    ¬ ∀ s1, (tcp_server_shutdown_listeners ex_server_started).value = some s1 →
        ∀ sp ∈ s1.listeners, sp.shutting_down ≠ 0 := by
  intro h
  exact h ex_server_started rfl ex_listener (by decide) (by decide)

/-- What the port-reuse search returns: a listener of the list for which the OS
reports a positive port, and that port. -/
theorem add_port_search_some (os : AddPortOS) (l : List grpc_tcp_listener)
    (sp : grpc_tcp_listener) (p : Int) (h : add_port_search os l = some (sp, p)) :
    0 < p ∧ sp ∈ l ∧
      ∃ a, os.getsockname sp.socket.socket = some a ∧ p = grpc_sockaddr_get_port a := by
  induction l with
  | nil => simp [add_port_search] at h
  | cons x rest ih =>
    unfold add_port_search at h
    cases hx : os.getsockname x.socket.socket with
    | none =>
      rw [hx] at h
      obtain ⟨h1, h2, h3⟩ := ih h
      exact ⟨h1, List.mem_cons_of_mem _ h2, h3⟩
    | some a =>
      rw [hx] at h
      by_cases hpos : grpc_sockaddr_get_port a > 0
      · simp [hpos] at h
        obtain ⟨rfl, rfl⟩ := h
        exact ⟨hpos, List.mem_cons_self _ _, a, hx, rfl⟩
      · simp [hpos] at h
        obtain ⟨h1, h2, h3⟩ := ih h
        exact ⟨h1, List.mem_cons_of_mem _ h2, h3⟩

/-- The search over a list with one more listener at the end. -/
theorem add_port_search_append (os : AddPortOS) (l : List grpc_tcp_listener)
    (x : grpc_tcp_listener) :
    add_port_search os (l ++ [x])
      = match add_port_search os l with
        | some r => some r
        | none => add_port_search os [x] := by
  induction l with
  | nil => simp [add_port_search]
  | cons y rest ih =>
    simp only [List.cons_append, add_port_search]
    cases hy : os.getsockname y.socket.socket with
    | none => simpa using ih
    | some a =>
      by_cases hpos : grpc_sockaddr_get_port a > 0
      · simp [hpos]
      · simpa [hpos] using ih

/-- The search depends only on what the OS reports for the sockets of the list. -/
theorem add_port_search_congr (os1 os2 : AddPortOS) (l : List grpc_tcp_listener)
    (h : ∀ sp ∈ l, os2.getsockname sp.socket.socket = os1.getsockname sp.socket.socket) :
    add_port_search os2 l = add_port_search os1 l := by
  induction l with
  | nil => rfl
  | cons y rest ih =>
    have hy := h y (List.mem_cons_self _ _)
    have hrest := ih (fun sp hsp => h sp (List.mem_cons_of_mem _ hsp))
    simp only [add_port_search, hy, hrest]

/-- The port carried by the address handed to `bind` when port 0 was requested:
the port found by the search, or 0. -/
theorem add_port_target_port (s : grpc_tcp_server) (addr : grpc_resolved_address)
    (os : AddPortOS) (h0 : grpc_sockaddr_get_port addr = 0) :
    grpc_sockaddr_get_port (add_port_target s addr os).2
      = match add_port_search os s.listeners with
        | some (_, p) => p
        | none => 0 := by
  have hnorm : ∀ a : grpc_resolved_address,
      grpc_sockaddr_get_port
        (match grpc_sockaddr_is_wildcard
            (match grpc_sockaddr_to_v4mapped a with
             | some addr6_v4mapped => addr6_v4mapped
             | none => a) with
         | some port => grpc_sockaddr_make_wildcard6 port
         | none =>
           (match grpc_sockaddr_to_v4mapped a with
            | some addr6_v4mapped => addr6_v4mapped
            | none => a))
        = grpc_sockaddr_get_port a := by
    intro a
    cases a with
    | in4 h p =>
      simp only [grpc_sockaddr_to_v4mapped, grpc_sockaddr_is_wildcard]
      split_ifs <;> simp [grpc_sockaddr_make_wildcard6, grpc_sockaddr_get_port]
    | in6 h p =>
      simp only [grpc_sockaddr_to_v4mapped, grpc_sockaddr_is_wildcard]
      split_ifs <;> simp [grpc_sockaddr_make_wildcard6, grpc_sockaddr_get_port]
  unfold add_port_target
  simp only [h0, if_true]
  rw [hnorm]
  cases hs : add_port_search os s.listeners with
  | none => simpa using h0
  | some r =>
    obtain ⟨sp, p⟩ := r
    have hp := (add_port_search_some os s.listeners sp p hs).1
    cases addr <;> simp [grpc_sockaddr_set_port, grpc_sockaddr_get_port] <;> omega

/-- A registration that reports no error after a successful `AcceptEx` lookup
was made on a server that is not started, with a valid socket; it appended the
new listener and reports the port `getsockname` gave for the new socket. -/
theorem tcp_server_add_port_success (s : grpc_tcp_server) (addr : grpc_resolved_address)
    (os : AddPortOS) (port : Int) (s1 : grpc_tcp_server)
    (h : (tcp_server_add_port s addr os).value = some (GRPC_ERROR_NONE, port, s1))
    (hio : os.WSAIoctl = 0) :
    s.on_accept_cb = 0 ∧ os.WSASocket ≠ INVALID_SOCKET ∧
    s1 = { s with listeners := s.listeners ++ [added_listener s os port] } ∧
    ∃ a, os.getsockname os.WSASocket = some a ∧ port = grpc_sockaddr_get_port a := by
  by_cases h1 : os.WSASocket = INVALID_SOCKET
  · rw [tcp_server_add_port_no_socket s addr os h1] at h
    simp [GRPC_ERROR_NONE] at h
  rcases prepare_socket_cases os.WSASocket (add_port_target s addr os).2 (-1) os with
    ⟨a, _, _, _, ha, hp⟩ | ⟨e, _, hp⟩
  · rw [tcp_server_add_port_prepared s addr os h1 hio a hp] at h
    by_cases hcb : s.on_accept_cb = 0
    · rw [if_pos hcb] at h
      simp at h
      obtain ⟨hport, hs⟩ := h
      exact ⟨hcb, h1, by rw [← hs, hport], a, ha, hport.symm⟩
    · simp [hcb] at h
  · rw [tcp_server_add_port_prepare_failure s addr os h1 hio _ e _ hp] at h
    simp [GRPC_ERROR_NONE] at h

/-- C5. Two successive registrations that both request port 0 and both succeed
(no error, `AcceptEx` found) return the same port, provided the first port is
positive, the OS reports during the second call the same local addresses for
the listener sockets as during the first, and the OS binds a socket to the
port requested of it. On a server without earlier listeners the last
assumption says nothing about the first call, whose requested port is 0. -/
theorem tcp_server_add_port_reuses_port (s s1 s2 : grpc_tcp_server)
    (addr1 addr2 : grpc_resolved_address) (os1 os2 : AddPortOS) (port1 port2 : Int)
    (hreq1 : grpc_sockaddr_get_port addr1 = 0) (hreq2 : grpc_sockaddr_get_port addr2 = 0)
    (hcall1 : (tcp_server_add_port s addr1 os1).value = some (GRPC_ERROR_NONE, port1, s1))
    (hcall2 : (tcp_server_add_port s1 addr2 os2).value = some (GRPC_ERROR_NONE, port2, s2))
    (hio1 : os1.WSAIoctl = 0) (hio2 : os2.WSAIoctl = 0)
    (hpos : 0 < port1)
    (hsame : ∀ sp ∈ s1.listeners,
      os2.getsockname sp.socket.socket = os1.getsockname sp.socket.socket)
    (hbind1 : binds_requested_port s addr1 os1)
    (hbind2 : binds_requested_port s1 addr2 os2) :
    port1 = port2 := by
  obtain ⟨_, _, hs1, a1, ha1, hp1⟩ := tcp_server_add_port_success s addr1 os1 port1 s1 hcall1 hio1
  obtain ⟨_, _, _, a2, ha2, hp2⟩ := tcp_server_add_port_success s1 addr2 os2 port2 s2 hcall2 hio2
  have hl1 : s1.listeners = s.listeners ++ [added_listener s os1 port1] := by rw [hs1]
  have hnew : os2.getsockname os1.WSASocket = some a1 := by
    have := hsame (added_listener s os1 port1) (by rw [hl1]; simp)
    simpa [added_listener, grpc_winsocket_create, ha1] using this
  have hold : add_port_search os2 s.listeners = add_port_search os1 s.listeners :=
    add_port_search_congr os1 os2 s.listeners
      (fun sp hsp => hsame sp (by rw [hl1]; exact List.mem_append_left _ hsp))
  have ht1 := add_port_target_port s addr1 os1 hreq1
  have ht2 := add_port_target_port s1 addr2 os2 hreq2
  rw [hl1, add_port_search_append, hold] at ht2
  have hlast : add_port_search os2 [added_listener s os1 port1]
      = some (added_listener s os1 port1, port1) := by
    simp [add_port_search, added_listener, grpc_winsocket_create, hnew, ← hp1, hpos]
  cases hs : add_port_search os1 s.listeners with
  | some r =>
    obtain ⟨sp, q⟩ := r
    have hq := (add_port_search_some os1 s.listeners sp q hs).1
    rw [hs] at ht1 ht2
    simp only at ht1 ht2
    have e1 := hbind1 a1 ha1 (by rw [ht1]; omega)
    have e2 := hbind2 a2 ha2 (by rw [ht2]; omega)
    rw [hp1, hp2, e1, e2, ht1, ht2]
  | none =>
    rw [hs, hlast] at ht2
    simp only at ht2
    have e2 := hbind2 a2 ha2 (by rw [ht2]; omega)
    rw [hp2, e2, ht2]

theorem tcp_server_add_port_reuses_port_witness :
    (tcp_server_add_port ex_server_fresh (.in4 0 0) ex_add_port_first).value
      = some (GRPC_ERROR_NONE, 5000, ex_server_one_port) ∧
    (tcp_server_add_port ex_server_one_port (.in6 0 0) ex_add_port_ok).value
      = some (GRPC_ERROR_NONE, 5000,
          { ex_server_one_port with
            listeners := [ex_listener_added,
              { ex_listener_added with socket := grpc_winsocket_create 5 "listener",
                                       port_index := 1 }] }) ∧
    (5000 : Int) = 5000 :=
  ⟨by decide, by decide,
   tcp_server_add_port_reuses_port ex_server_fresh ex_server_one_port
    { ex_server_one_port with
      listeners := [ex_listener_added,
        { ex_listener_added with socket := grpc_winsocket_create 5 "listener",
                                 port_index := 1 }] }
    (.in4 0 0) (.in6 0 0) ex_add_port_first ex_add_port_ok 5000 5000
    (by decide) (by decide) (by decide) (by decide) (by decide) (by decide) (by decide)
    (by decide)
    (by intro a _ h; exact absurd (by decide) h)
    (by
      intro a ha _
      have h5 : ex_add_port_ok.getsockname ex_add_port_ok.WSASocket
          = some (.in6 0 5000) := by decide
      rw [h5] at ha
      cases ha
      decide)⟩

/-- A completion delivered with an infrastructure error changes nothing. -/
theorem on_accept_error (s : grpc_tcp_server) (sp : grpc_tcp_listener) (e : grpc_error)
    (os : AcceptOS) :
    on_accept s sp (some e) os
      = ⟨[Event.gpr_log "INFO" "Skipping on_accept due to error"], some (s, sp)⟩ := by
  simp [on_accept, Run.bind_eq, Run.bind, Run.pure_eq, emit]

/-- A completion on an armed listener that is not shutting down: when `on_accept`
returns, the server is unchanged, the listener only has a new pending socket,
and nothing was handed to the `ExecCtx`. -/
theorem on_accept_rearm (s s1 : grpc_tcp_server) (sp sp1 : grpc_tcp_listener)
    (os : AcceptOS) (tr : List Event) (hsd : sp.shutting_down = 0)
    (hout : 0 < sp.outstanding_calls)
    (h : on_accept s sp GRPC_ERROR_NONE os = ⟨tr, some (s1, sp1)⟩) :
    s1 = s ∧ sp1 = { sp with new_socket := os.rearm.WSASocket } ∧ quiet tr := by
  have hne : sp.outstanding_calls ≠ 0 := by omega
  have hst : (∃ tr0 e, start_accept_locked sp os.rearm = ⟨tr0, some (some e, sp)⟩) ∨
      (start_accept_locked sp os.rearm
        = ⟨[Event.grpc_socket_notify_on_read sp.socket],
           some (GRPC_ERROR_NONE, { sp with new_socket := os.rearm.WSASocket,
                                            outstanding_calls := sp.outstanding_calls + 1 })⟩) := by
    unfold start_accept_locked
    simp only [start_accept_locked_failure_eq, hsd, ne_eq, not_true_eq_false, if_false]
    by_cases h2 : os.rearm.WSASocket = INVALID_SOCKET
    · simp only [h2, if_true]; exact Or.inl ⟨_, _, rfl⟩
    simp only [h2, if_false]
    cases os.rearm.grpc_tcp_prepare_socket with
    | some e => exact Or.inl ⟨_, _, rfl⟩
    | none =>
      by_cases h3 : (!os.rearm.AcceptEx && os.rearm.WSAGetLastError != ERROR_IO_PENDING) = true
      · simp only [h3, if_true]; exact Or.inl ⟨_, _, rfl⟩
      · simp only [h3]
        exact Or.inr (by simp [Run.bind_eq, Run.bind, Run.pure_eq, emit])
  rcases hst with ⟨tr0, e, hst⟩ | hst
  · exfalso
    cases hw : os.WSAGetOverlappedResult <;> cases hp : os.getpeername <;>
    by_cases hso : os.setsockopt = 0 <;>
    simp [on_accept, GRPC_ERROR_NONE, hw, hp, hso, hsd, hst, Run.bind, Run.bind_eq,
      Run.pure_eq, emit, GRPC_LOG_IF_ERROR, GPR_ASSERT] at h
  · cases hw : os.WSAGetOverlappedResult <;> cases hp : os.getpeername <;>
    by_cases hso : os.setsockopt = 0 <;>
    simp [on_accept, GRPC_ERROR_NONE, hw, hp, hso, hsd, hst, hne, Run.bind, Run.bind_eq,
      Run.pure_eq, emit, GRPC_LOG_IF_ERROR, GPR_ASSERT] at h <;>
    obtain ⟨htr, hs, hsp⟩ := h <;>
    subst htr hs hsp <;>
    simp [quiet, Event.is_ExecCtx, hsd]

/-- A completion on a listener that is shutting down and has one accept
outstanding: the pending socket is closed, the listener is drained, and
`active_ports` is counted down, with `finish_shutdown_locked` when it reaches
zero; the assertion fails when `active_ports` is not positive. -/
theorem on_accept_drain (s : grpc_tcp_server) (sp : grpc_tcp_listener) (os : AcceptOS)
    (hsd : sp.shutting_down ≠ 0) (hout : sp.outstanding_calls = 1) :
    on_accept s sp GRPC_ERROR_NONE os
      = if 0 < s.active_ports then
          ⟨[Event.closesocket sp.new_socket]
            ++ (if s.active_ports - 1 = 0 then
                 (if s.shutdown_complete ≠ 0 then [Event.ExecCtx_Run s.shutdown_complete]
                  else []) ++ [Event.ExecCtx_Run_destroy_server s.self]
               else []),
           some ({ s with active_ports := s.active_ports - 1 },
                 { sp with shutting_down := 0, outstanding_calls := 0 })⟩
        else ⟨[Event.closesocket sp.new_socket], none⟩ := by
  by_cases hap : 0 < s.active_ports <;> by_cases hz : s.active_ports - 1 = 0 <;>
  cases hw : os.WSAGetOverlappedResult <;>
  simp [on_accept, GRPC_ERROR_NONE, hw, hsd, hout, hap, hz, start_accept_locked, Run.bind,
    Run.bind_eq, Run.pure_eq, emit, GRPC_LOG_IF_ERROR, GPR_ASSERT,
    decrement_active_ports_and_notify_locked, finish_shutdown_locked_eq]

/-- The two outcomes of `start_accept_locked`: an error that leaves the listener
alone when the arming fails, and otherwise no error and the armed listener;
nothing is handed to the `ExecCtx`. -/
theorem start_accept_locked_cases (sp : grpc_tcp_listener) (os : ArmOS) :
    (arm_fails sp os ∧ ∃ tr e, start_accept_locked sp os = ⟨tr, some (some e, sp)⟩ ∧
        quiet tr) ∨
    (¬ arm_fails sp os ∧ ∃ tr, start_accept_locked sp os
        = ⟨tr, some (GRPC_ERROR_NONE, armed sp os)⟩ ∧ quiet tr) := by
  have hcount : ∀ sock : SOCKET,
      quiet (if sock ≠ INVALID_SOCKET then [Event.closesocket sock] else []) := by
    intro sock
    by_cases h : sock = INVALID_SOCKET <;> simp [h, quiet, Event.is_ExecCtx]
  unfold start_accept_locked
  simp only [start_accept_locked_failure_eq]
  by_cases h1 : sp.shutting_down ≠ 0
  · rw [if_pos h1]
    exact Or.inr ⟨fun hf => h1 hf.1, [], by simp [armed, h1, Run.pure_eq], rfl⟩
  rw [if_neg h1]
  have h1' : sp.shutting_down = 0 := by simpa using h1
  by_cases h2 : os.WSASocket = INVALID_SOCKET
  · simp only [h2, if_true]
    exact Or.inl ⟨⟨h1', Or.inl h2⟩, _, _, rfl, hcount _⟩
  simp only [h2, if_false]
  cases h3 : os.grpc_tcp_prepare_socket with
  | some e =>
    exact Or.inl ⟨⟨h1', Or.inr (Or.inl (by simp [h3]))⟩, _, _, rfl, hcount _⟩
  | none =>
    by_cases h4 : (!os.AcceptEx && os.WSAGetLastError != ERROR_IO_PENDING) = true
    · simp only [h4, if_true]
      refine Or.inl ⟨⟨h1', Or.inr (Or.inr ?_)⟩, _, _, rfl, hcount _⟩
      simpa using h4
    · simp only [h4]
      refine Or.inr ⟨?_, [Event.grpc_socket_notify_on_read sp.socket], ?_, ?_⟩
      · rintro ⟨_, hf | hf | hf⟩
        · exact h2 hf
        · exact hf h3
        · apply h4; simpa using hf
      · simp [armed, h1', Run.bind_eq, Run.bind, Run.pure_eq, emit]
      · simp [quiet, Event.is_ExecCtx]

/-- The loop of `tcp_server_start` aborts exactly when the arming of some
listener fails; otherwise it arms every listener, counts each of them, and
hands nothing to the `ExecCtx`. -/
theorem tcp_server_start_loop_cases (os : Nat → ArmOS) (ls : List grpc_tcp_listener)
    (n : Nat) (ap : Int) :
    ((∃ i sp, ls[i]? = some sp ∧ arm_fails sp (os (n + i))) ∧
        (tcp_server_start_loop os n ls ap).value = none) ∨
    ((¬ ∃ i sp, ls[i]? = some sp ∧ arm_fails sp (os (n + i))) ∧
      ∃ tr, tcp_server_start_loop os n ls ap
          = ⟨tr, some (armed_list os n ls, ap + ls.length)⟩ ∧ quiet tr) := by
  induction ls generalizing n ap with
  | nil =>
    exact Or.inr ⟨by simp, [], by simp [tcp_server_start_loop, armed_list, Run.pure_eq], rfl⟩
  | cons sp rest ih =>
    rcases start_accept_locked_cases sp (os n) with ⟨hf, tr0, e, hst, _⟩ | ⟨hf, tr0, hst, hq0⟩
    · refine Or.inl ⟨⟨0, sp, by simp, by simpa using hf⟩, ?_⟩
      simp [tcp_server_start_loop, hst, Run.bind_eq, Run.bind, GRPC_LOG_IF_ERROR, GPR_ASSERT]
    · rcases ih (n + 1) (ap + 1) with ⟨⟨i, x, hx, hxf⟩, hv⟩ | ⟨hno, tr1, hl, hq1⟩
      · refine Or.inl ⟨⟨i + 1, x, by simpa using hx, ?_⟩, ?_⟩
        · have : n + (i + 1) = n + 1 + i := by omega
          rw [this]; exact hxf
        · simp [tcp_server_start_loop, hst, hv, Run.bind_eq, Run.bind, GRPC_LOG_IF_ERROR,
            GPR_ASSERT, GRPC_ERROR_NONE]
      · refine Or.inr ⟨?_, tr0 ++ tr1, ?_, ?_⟩
        · rintro ⟨i, x, hx, hxf⟩
          cases i with
          | zero =>
            simp at hx; subst hx
            exact hf (by simpa using hxf)
          | succ j =>
            apply hno
            refine ⟨j, x, by simpa using hx, ?_⟩
            have : n + 1 + j = n + (j + 1) := by omega
            rw [this]; exact hxf
        · simp [tcp_server_start_loop, hst, hl, Run.bind_eq, Run.bind, GRPC_LOG_IF_ERROR,
            GPR_ASSERT, GRPC_ERROR_NONE, Run.pure_eq, armed_list]
          ring
        · simp only [quiet, List.countP_append] at *; omega

/-- The outcome of `tcp_server_start`: an assertion failure when the callback is
null, a callback is already stored, `active_ports` is not zero, or the arming
of some listener fails; otherwise the callback and its argument are stored,
every listener is armed and counted, and nothing is handed to the `ExecCtx`. -/
theorem tcp_server_start_cases (s : grpc_tcp_server) (cb arg : Nat) (os : Nat → ArmOS) :
    ((cb = 0 ∨ s.on_accept_cb ≠ 0 ∨ s.active_ports ≠ 0 ∨ some_arm_fails s os) ∧
        (tcp_server_start s cb arg os).value = none) ∨
    (¬ (cb = 0 ∨ s.on_accept_cb ≠ 0 ∨ s.active_ports ≠ 0 ∨ some_arm_fails s os) ∧
      ∃ tr, tcp_server_start s cb arg os
          = ⟨tr, some { s with on_accept_cb := cb, on_accept_cb_arg := arg,
                               listeners := armed_list os 0 s.listeners,
                               active_ports := s.listeners.length }⟩ ∧ quiet tr) := by
  by_cases h1 : cb = 0
  · exact Or.inl ⟨Or.inl h1, by simp [tcp_server_start, h1, Run.bind_eq, Run.bind, GPR_ASSERT]⟩
  by_cases h2 : s.on_accept_cb = 0
  swap
  · exact Or.inl ⟨Or.inr (Or.inl h2),
      by simp [tcp_server_start, h1, h2, Run.bind_eq, Run.bind, GPR_ASSERT]⟩
  by_cases h3 : s.active_ports = 0
  swap
  · exact Or.inl ⟨Or.inr (Or.inr (Or.inl h3)),
      by simp [tcp_server_start, h1, h2, h3, Run.bind_eq, Run.bind, GPR_ASSERT]⟩
  rcases tcp_server_start_loop_cases os s.listeners 0 s.active_ports with
    ⟨hf, hv⟩ | ⟨hno, tr, hl, hq⟩
  · refine Or.inl ⟨Or.inr (Or.inr (Or.inr ?_)), ?_⟩
    · simpa [some_arm_fails] using hf
    · simp [tcp_server_start, h1, h2, h3, Run.bind_eq, Run.bind, GPR_ASSERT] at hv ⊢
      simp [hv]
  · refine Or.inr ⟨?_, tr, ?_, hq⟩
    · rintro (h | h | h | h)
      · exact h1 h
      · exact h h2
      · exact h h3
      · apply hno; simpa [some_arm_fails] using h
    · simp [h3] at hl
      simp [tcp_server_start, h1, h2, h3, hl, Run.bind_eq, Run.bind, GPR_ASSERT, Run.pure_eq]

/-- The function `decrement_active_ports_and_notify_locked` in closed form. -/
theorem decrement_active_ports_and_notify_locked_eq (s : grpc_tcp_server)
    (sp : grpc_tcp_listener) :
    decrement_active_ports_and_notify_locked s sp
      = if 0 < s.active_ports then
          ⟨if s.active_ports - 1 = 0 then
             (if s.shutdown_complete ≠ 0 then [Event.ExecCtx_Run s.shutdown_complete]
              else []) ++ [Event.ExecCtx_Run_destroy_server s.self]
           else [],
           some ({ s with active_ports := s.active_ports - 1 },
                 { sp with shutting_down := 0 })⟩
        else ⟨[], none⟩ := by
  by_cases hap : 0 < s.active_ports <;> by_cases hz : s.active_ports - 1 = 0 <;>
  simp [decrement_active_ports_and_notify_locked, hap, hz, Run.bind_eq, Run.bind,
    Run.pure_eq, GPR_ASSERT, finish_shutdown_locked_eq]

/-- The second part of `on_accept` aborts when the re-arming fails; otherwise it
continues with the armed listener, whose count is decremented. -/
theorem on_accept_finish_cases (s : grpc_tcp_server) (sp : grpc_tcp_listener)
    (os : AcceptOS) :
    (arm_fails sp os.rearm ∧ (on_accept_finish s sp os).value = none) ∨
    (¬ arm_fails sp os.rearm ∧ ∃ tr0,
      quiet tr0 ∧
      on_accept_finish s sp os
        = if (armed sp os.rearm).outstanding_calls - 1 = 0 then
            ⟨tr0 ++ (decrement_active_ports_and_notify_locked s
                { armed sp os.rearm with outstanding_calls := 0 }).trace,
              (decrement_active_ports_and_notify_locked s
                { armed sp os.rearm with outstanding_calls := 0 }).value⟩
          else
            ⟨tr0, some (s, { armed sp os.rearm with
              outstanding_calls := (armed sp os.rearm).outstanding_calls - 1 })⟩) := by
  rcases start_accept_locked_cases sp os.rearm with
    ⟨hf, tr0, e, hst, _⟩ | ⟨hf, tr0, hst, hq0⟩
  · exact Or.inl ⟨hf, by
      simp [on_accept_finish, hst, Run.bind, Run.bind_eq, GRPC_LOG_IF_ERROR, GPR_ASSERT]⟩
  · refine Or.inr ⟨hf, tr0, hq0, ?_⟩
    by_cases hz : (armed sp os.rearm).outstanding_calls - 1 = 0
    · simp [on_accept_finish, hst, hz, Run.bind, Run.bind_eq, GRPC_LOG_IF_ERROR, GPR_ASSERT,
        GRPC_ERROR_NONE]
    · simp [on_accept_finish, hst, hz, Run.bind, Run.bind_eq, GRPC_LOG_IF_ERROR, GPR_ASSERT,
        GRPC_ERROR_NONE, Run.pure_eq]

/-- Whatever `on_accept` returns, the server differs from the one it was given at
most in `active_ports`, and the listener at most in its pending socket, its
`shutting_down` flag and its `outstanding_calls`. -/
theorem on_accept_frame (s s1 : grpc_tcp_server) (sp sp1 : grpc_tcp_listener)
    (error : grpc_error_handle) (os : AcceptOS) (tr : List Event)
    (h : on_accept s sp error os = ⟨tr, some (s1, sp1)⟩) :
    s1 = { s with active_ports := s1.active_ports } ∧
    sp1 = { sp with new_socket := sp1.new_socket, shutting_down := sp1.shutting_down,
                    outstanding_calls := sp1.outstanding_calls } := by
  cases error with
  | some e =>
    rw [on_accept_error] at h
    simp at h
    obtain ⟨_, rfl, rfl⟩ := h
    exact ⟨rfl, rfl⟩
  | none =>
    have h' : on_accept s sp GRPC_ERROR_NONE os = ⟨tr, some (s1, sp1)⟩ := h
    rw [on_accept_eq] at h'
    have hv : (on_accept_finish s sp os).value = some (s1, sp1) := by
      simpa using (congrArg Run.value h')
    rcases on_accept_finish_cases s sp os with ⟨_, hn⟩ | ⟨_, tr0, _, hfin⟩
    · rw [hn] at hv; simp at hv
    · rw [hfin, decrement_active_ports_and_notify_locked_eq] at hv
      have harm : ∀ x : grpc_tcp_listener, x = armed sp os.rearm →
          x = { sp with new_socket := x.new_socket, outstanding_calls := x.outstanding_calls } := by
        intro x hx; subst hx; unfold armed; split_ifs <;> rfl
      have ha := harm _ rfl
      by_cases hz : (armed sp os.rearm).outstanding_calls - 1 = 0
      · by_cases hap : 0 < s.active_ports
        · simp [hz, hap] at hv
          obtain ⟨hs, hsp⟩ := hv
          subst hs hsp
          refine ⟨rfl, ?_⟩
          simp only
          rw [ha]
        · simp [hz, hap] at hv
      · simp [hz] at hv
        obtain ⟨hs, hsp⟩ := hv
        subst hs hsp
        refine ⟨rfl, ?_⟩
        simp only
        rw [ha]

/-- A sequence returns a value only when both parts do. -/
theorem Run.bind_some {α β : Type} (m : Run α) (f : α → Run β) (tr : List Event) (b : β)
    (h : (m >>= f) = ⟨tr, some b⟩) :
    ∃ t1 a t2, m = ⟨t1, some a⟩ ∧ f a = ⟨t2, some b⟩ ∧ tr = t1 ++ t2 := by
  obtain ⟨t1, v⟩ := m
  cases v with
  | none => simp [Run.bind_eq, Run.bind] at h
  | some a =>
    simp only [Run.bind_eq, Run.bind, Run.mk.injEq] at h
    obtain ⟨h1, h2⟩ := h
    refine ⟨t1, a, (f a).trace, rfl, ?_, h1.symm⟩
    cases hfa : f a with
    | mk t v => rw [hfa] at h2; simp only at h2; rw [h2]

/-- The step `add_port` returns what `tcp_server_add_port` returns. -/
theorem step_add_port (s s1 : grpc_tcp_server) (addr : grpc_resolved_address)
    (os : AddPortOS) (tr : List Event) (h : step s (.add_port addr os) = ⟨tr, some s1⟩) :
    ∃ err port, tcp_server_add_port s addr os = ⟨tr, some (err, port, s1)⟩ := by
  obtain ⟨t1, ⟨err, port, s2⟩, t2, h1, h2, h3⟩ := Run.bind_some _ _ tr s1 h
  simp [Run.pure_eq] at h2
  obtain ⟨rfl, rfl⟩ := h2
  exact ⟨err, port, by rw [h1, h3]; simp⟩

/-- The step `on_accept` on an existing listener returns what `on_accept`
returns, with the listener written back. -/
theorem step_on_accept (s s1 : grpc_tcp_server) (i : Nat) (sp : grpc_tcp_listener)
    (error : grpc_error_handle) (os : AcceptOS) (tr : List Event)
    (hi : s.listeners[i]? = some sp)
    (h : step s (.on_accept i error os) = ⟨tr, some s1⟩) :
    ∃ s2 sp1, on_accept s sp error os = ⟨tr, some (s2, sp1)⟩ ∧
      s1 = { s2 with listeners := s2.listeners.set i sp1 } := by
  simp only [step, hi] at h
  obtain ⟨t1, ⟨s2, sp1⟩, t2, h1, h2, h3⟩ := Run.bind_some _ _ tr s1 h
  simp [Run.pure_eq] at h2
  obtain ⟨rfl, rfl⟩ := h2
  exact ⟨s2, sp1, by rw [h1, h3]; simp, rfl⟩

/-- No operation changes a stored connection callback or its argument. -/
theorem step_keeps_callback (s s1 : grpc_tcp_server) (op : Op) (tr : List Event)
    (h : step s op = ⟨tr, some s1⟩) (hcb : s.on_accept_cb ≠ 0) :
    s1.on_accept_cb = s.on_accept_cb ∧ s1.on_accept_cb_arg = s.on_accept_cb_arg := by
  cases op with
  | add_port addr os =>
    obtain ⟨err, port, h1⟩ := step_add_port s s1 addr os tr h
    rcases tcp_server_add_port_state s addr os err port s1 (by rw [h1]) with h2 | ⟨h2, _⟩
    · rw [h2]; exact ⟨rfl, rfl⟩
    · exact absurd h2 hcb
  | start cb arg os =>
    rcases tcp_server_start_cases s cb arg os with ⟨_, hv⟩ | ⟨hno, _⟩
    · simp only [step] at h; rw [h] at hv; simp at hv
    · exact absurd (Or.inr (Or.inl hcb)) hno
  | on_accept i error os =>
    cases hi : s.listeners[i]? with
    | none =>
      simp [step, hi, Run.pure_eq] at h
      rw [← h.2]; exact ⟨rfl, rfl⟩
    | some sp =>
      obtain ⟨s2, sp1, h1, h2⟩ := step_on_accept s s1 i sp error os tr hi h
      have hfr := (on_accept_frame s s2 sp sp1 error os tr h1).1
      rw [h2, hfr]; exact ⟨rfl, rfl⟩
  | ref =>
    simp [step, Run.pure_eq, tcp_server_ref] at h
    rw [← h.2]; exact ⟨rfl, rfl⟩
  | unref =>
    simp only [step] at h
    by_cases hr : s.refs = 1
    · rw [tcp_server_unref_last s hr] at h
      by_cases h0 : s.active_ports = 0
      · simp [h0] at h; rw [← h.2]; exact ⟨rfl, rfl⟩
      · simp [h0] at h; rw [← h.2]; exact ⟨rfl, rfl⟩
    · rw [tcp_server_unref_not_last s hr] at h
      simp at h; rw [← h.2]; exact ⟨rfl, rfl⟩
  | shutdown_starting_add c =>
    simp [step, Run.pure_eq, tcp_server_shutdown_starting_add] at h
    rw [← h.2]; exact ⟨rfl, rfl⟩
  | shutdown_listeners =>
    simp [step, Run.pure_eq, tcp_server_shutdown_listeners] at h
    rw [← h.2]; exact ⟨rfl, rfl⟩

/-- C9, amended. The function `tcp_server_start` fails with a fatal assertion
exactly when the supplied callback is null, or a callback is already stored, or
`active_ports` is not zero, or the arming of some listener fails
(`GPR_ASSERT(GRPC_LOG_IF_ERROR("start_accept", ...))`); otherwise it stores the
callback and its argument. No operation changes a stored callback. -/
theorem tcp_server_start_assertions (s : grpc_tcp_server) (cb arg : Nat)
    (os : Nat → ArmOS) :
    ((tcp_server_start s cb arg os).value = none ↔
      (cb = 0 ∨ s.on_accept_cb ≠ 0 ∨ s.active_ports ≠ 0 ∨ some_arm_fails s os)) ∧
    (∀ s1, (tcp_server_start s cb arg os).value = some s1 →
      s1.on_accept_cb = cb ∧ s1.on_accept_cb_arg = arg) ∧
    (∀ (op : Op) (tr : List Event) (s1 : grpc_tcp_server),
      s.on_accept_cb ≠ 0 → step s op = ⟨tr, some s1⟩ →
      s1.on_accept_cb = s.on_accept_cb ∧ s1.on_accept_cb_arg = s.on_accept_cb_arg) := by
  refine ⟨?_, ?_, ?_⟩
  · rcases tcp_server_start_cases s cb arg os with ⟨hbad, hv⟩ | ⟨hno, tr, hst, _⟩
    · exact ⟨fun _ => hbad, fun _ => hv⟩
    · constructor
      · intro hv; rw [hst] at hv; simp at hv
      · intro hbad; exact absurd hbad hno
  · intro s1 hv
    rcases tcp_server_start_cases s cb arg os with ⟨_, hn⟩ | ⟨_, tr, hst, _⟩
    · rw [hn] at hv; simp at hv
    · rw [hst] at hv
      simp at hv
      rw [← hv]; exact ⟨rfl, rfl⟩
  · intro op tr s1 hcb h
    exact step_keeps_callback s s1 op tr h hcb

theorem tcp_server_start_assertions_witness :
    (∃ s1, (tcp_server_start ex_server_one_port 77 78 (fun _ => ex_arm_ok)).value = some s1 ∧
      s1.on_accept_cb = 77 ∧ s1.on_accept_cb_arg = 78) ∧
    ex_server_started.on_accept_cb ≠ 0 ∧
    (tcp_server_ref ex_server_started).on_accept_cb = ex_server_started.on_accept_cb ∧
    (tcp_server_ref ex_server_started).on_accept_cb_arg = ex_server_started.on_accept_cb_arg :=
  ⟨⟨{ ex_server_one_port with
        on_accept_cb := 77, on_accept_cb_arg := 78, active_ports := 1,
        listeners := [{ ex_listener_added with new_socket := 8, outstanding_calls := 1 }] },
      by decide,
      (tcp_server_start_assertions ex_server_one_port 77 78 (fun _ => ex_arm_ok)).2.1 _
        (by decide)⟩,
   by decide,
   (tcp_server_start_assertions ex_server_started 0 0 (fun _ => ex_arm_ok)).2.2
      Op.ref [] (tcp_server_ref ex_server_started) (by decide) rfl⟩

/-- C9, as stated, fails: with a callback, no callback stored and `active_ports`
zero, `tcp_server_start` still ends in an assertion failure when `WSASocket`
fails while the one listener is armed. -/
theorem tcp_server_start_assertions_counterexample :
    ¬ ((tcp_server_start ex_server_one_port 77 78 (fun _ => ex_arm_no_socket)).value = none ↔
        ((77 : Nat) = 0 ∨ ex_server_one_port.on_accept_cb ≠ 0 ∨
          ex_server_one_port.active_ports ≠ 0)) := by
  decide

/-- A quiet trace counts for nothing. -/
theorem quiet_counts (tr : List Event) (h : quiet tr) :
    shutdown_complete_runs tr = 0 ∧ finish_shutdowns tr = 0 ∧ run_lists tr = 0 := by
  unfold quiet at h
  have h1 : tr.countP Event.is_ExecCtx_Run ≤ tr.countP Event.is_ExecCtx :=
    List.countP_mono_left (fun e _ he => by cases e <;> simp_all [Event.is_ExecCtx_Run, Event.is_ExecCtx])
  have h2 : tr.countP Event.is_ExecCtx_Run_destroy_server ≤ tr.countP Event.is_ExecCtx :=
    List.countP_mono_left (fun e _ he => by
      cases e <;> simp_all [Event.is_ExecCtx_Run_destroy_server, Event.is_ExecCtx])
  have h3 : tr.countP Event.is_ExecCtx_RunList ≤ tr.countP Event.is_ExecCtx :=
    List.countP_mono_left (fun e _ he => by
      cases e <;> simp_all [Event.is_ExecCtx_RunList, Event.is_ExecCtx])
  simp only [shutdown_complete_runs, finish_shutdowns, run_lists]
  omega

/-- Appending a quiet trace changes no count. -/
theorem quiet_append (tr tr1 : List Event) (h : quiet tr1) :
    shutdown_complete_runs (tr ++ tr1) = shutdown_complete_runs tr ∧
    finish_shutdowns (tr ++ tr1) = finish_shutdowns tr ∧
    run_lists (tr ++ tr1) = run_lists tr ∧
    (quiet tr → quiet (tr ++ tr1)) := by
  obtain ⟨h1, h2, h3⟩ := quiet_counts tr1 h
  simp only [shutdown_complete_runs, finish_shutdowns, run_lists, quiet,
    List.countP_append] at *
  omega

/-- The registered closures of an execution extended by one operation. -/
theorem registered_closures_append (ops : List Op) (op : Op) :
    registered_closures (ops ++ [op])
      = registered_closures ops ++
        (match op with
         | .shutdown_starting_add closure => [closure]
         | _ => []) := by
  induction ops with
  | nil => cases op <;> simp [registered_closures]
  | cons o rest ih =>
    cases o <;> simp [registered_closures, ih]

/-- The traces of `tcp_server_add_port` are quiet. -/
theorem tcp_server_add_port_quiet (s : grpc_tcp_server) (addr : grpc_resolved_address)
    (os : AddPortOS) : quiet (tcp_server_add_port s addr os).trace := by
  by_cases h1 : os.WSASocket = INVALID_SOCKET
  · rw [tcp_server_add_port_no_socket s addr os h1]; simp [quiet]
  by_cases h2 : os.WSAIoctl = 0
  · rcases prepare_socket_cases os.WSASocket (add_port_target s addr os).2 (-1) os with
      ⟨a, _, _, _, ha, hp⟩ | ⟨e, _, hp⟩
    · rw [tcp_server_add_port_prepared s addr os h1 h2 a hp]
      split_ifs <;> simp [quiet]
    · rw [tcp_server_add_port_prepare_failure s addr os h1 h2 _ e _ hp]
      simp [quiet, h1, Event.is_ExecCtx]
  · rw [tcp_server_add_port_no_AcceptEx s addr os h1 h2]
    simp [quiet, Event.is_ExecCtx]

/-- Membership in the list of armed listeners. -/
theorem armed_list_mem (os : Nat → ArmOS) (ls : List grpc_tcp_listener) (n : Nat)
    (x : grpc_tcp_listener) (h : x ∈ armed_list os n ls) :
    ∃ sp ∈ ls, ∃ k, x = armed sp (os k) := by
  induction ls generalizing n with
  | nil => simp [armed_list] at h
  | cons sp rest ih =>
    simp only [armed_list, List.mem_cons] at h
    rcases h with h | h
    · exact ⟨sp, List.mem_cons_self _ _, n, h⟩
    · obtain ⟨y, hy, k, hk⟩ := ih (n + 1) h
      exact ⟨y, List.mem_cons_of_mem _ hy, k, hk⟩

theorem armed_list_length (os : Nat → ArmOS) (ls : List grpc_tcp_listener) (n : Nat) :
    (armed_list os n ls).length = ls.length := by
  induction ls generalizing n with
  | nil => rfl
  | cons sp rest ih => simp [armed_list, ih]

/-- The invariant holds after `tcp_server_create`. -/
theorem ServerInv.create (shutdown_complete args factory self : Nat) :
    ServerInv [] [] (tcp_server_create shutdown_complete args factory self) where
  refs_nonneg := by simp [tcp_server_create]
  outstanding := by simp [tcp_server_create]
  active_ports := by simp [tcp_server_create, armed_listeners]
  live := fun _ => ⟨rfl, by simp [tcp_server_create], rfl, by simp [tcp_server_create],
    by simp [tcp_server_create]⟩
  released := fun h => by simp [tcp_server_create] at h
  runs := by simp [shutdown_complete_runs, finish_shutdowns]

/-- A step that keeps the state, up to the closure list, and has a quiet trace
keeps the invariant. -/
theorem ServerInv.quiet_step {ops : List Op} {tr : List Event} {s : grpc_tcp_server}
    (inv : ServerInv ops tr s) (op : Op) (tr1 : List Event) (s1 : grpc_tcp_server)
    (hq : quiet tr1) (hrefs : 0 < s.refs) (hrefs1 : 0 < s1.refs)
    (hl : s1.listeners = s.listeners) (hap : s1.active_ports = s.active_ports)
    (hcb : s1.on_accept_cb = s.on_accept_cb)
    (hsc : s1.shutdown_complete = s.shutdown_complete)
    (hss : s1.shutdown_starting = registered_closures (ops ++ [op])) :
    ServerInv (ops ++ [op]) (tr ++ tr1) s1 := by
  obtain ⟨c1, c2, c3, c4⟩ := quiet_append tr tr1 hq
  obtain ⟨l1, l2, _, l4, l5⟩ := inv.live hrefs
  exact {
    refs_nonneg := le_of_lt hrefs1
    outstanding := by rw [hl]; exact inv.outstanding
    active_ports := by rw [hap, inv.active_ports]; simp [armed_listeners, hl]
    live := fun _ => ⟨c4 l1, by rw [hl]; exact l2, hss, by rw [hl, hcb]; exact l4,
      by rw [hl, hcb]; exact l5⟩
    released := fun h => by omega
    runs := by rw [c1, c2, hsc]; exact inv.runs }

theorem ServerInv.ref {ops : List Op} {tr : List Event} {s : grpc_tcp_server}
    (inv : ServerInv ops tr s) (hrefs : 0 < s.refs) :
    ServerInv (ops ++ [Op.ref]) (tr ++ []) (tcp_server_ref s) := by
  refine inv.quiet_step Op.ref [] _ rfl hrefs ?_ rfl rfl rfl rfl ?_
  · simp [tcp_server_ref]; omega
  · rw [registered_closures_append]; simpa [tcp_server_ref] using (inv.live hrefs).2.2.1

theorem ServerInv.shutdown_starting_add {ops : List Op} {tr : List Event}
    {s : grpc_tcp_server} (inv : ServerInv ops tr s) (hrefs : 0 < s.refs) (c : Nat) :
    ServerInv (ops ++ [Op.shutdown_starting_add c]) (tr ++ [])
      (tcp_server_shutdown_starting_add s c) := by
  refine inv.quiet_step (Op.shutdown_starting_add c) [] _ rfl hrefs ?_ rfl rfl rfl rfl ?_
  · simpa [tcp_server_shutdown_starting_add] using hrefs
  · rw [registered_closures_append]
    simp [tcp_server_shutdown_starting_add, (inv.live hrefs).2.2.1]

theorem ServerInv.shutdown_listeners {ops : List Op} {tr : List Event}
    {s : grpc_tcp_server} (inv : ServerInv ops tr s) (hrefs : 0 < s.refs) :
    ServerInv (ops ++ [Op.shutdown_listeners]) (tr ++ []) s := by
  refine inv.quiet_step Op.shutdown_listeners [] _ rfl hrefs hrefs rfl rfl rfl rfl ?_
  rw [registered_closures_append]; simpa using (inv.live hrefs).2.2.1

theorem ServerInv.add_port {ops : List Op} {tr : List Event} {s : grpc_tcp_server}
    (inv : ServerInv ops tr s) (hrefs : 0 < s.refs) (addr : grpc_resolved_address)
    (os : AddPortOS) (tr1 : List Event) (s1 : grpc_tcp_server)
    (h : step s (.add_port addr os) = ⟨tr1, some s1⟩) :
    ServerInv (ops ++ [Op.add_port addr os]) (tr ++ tr1) s1 := by
  obtain ⟨err, port, h1⟩ := step_add_port s s1 addr os tr1 h
  have hq : quiet tr1 := by
    have := tcp_server_add_port_quiet s addr os
    rw [h1] at this; exact this
  have hreg : registered_closures (ops ++ [Op.add_port addr os]) = registered_closures ops := by
    rw [registered_closures_append]; simp
  rcases tcp_server_add_port_state s addr os err port s1 (by rw [h1]) with h2 | ⟨hcb, _, _, h2, _⟩
  · subst h2
    exact inv.quiet_step _ tr1 _ hq hrefs hrefs rfl rfl rfl rfl
      (by rw [hreg]; exact (inv.live hrefs).2.2.1)
  · obtain ⟨c1, c2, c3, c4⟩ := quiet_append tr tr1 hq
    obtain ⟨l1, l2, l3, l4, l5⟩ := inv.live hrefs
    have hmem : ∀ sp ∈ s1.listeners, sp ∈ s.listeners ∨ sp = added_listener s os port := by
      intro sp hsp; rw [h2] at hsp; simpa using hsp
    exact {
      refs_nonneg := by rw [h2]; exact inv.refs_nonneg
      outstanding := fun sp hsp => by
        rcases hmem sp hsp with h | h
        · exact inv.outstanding sp h
        · left; rw [h]; rfl
      active_ports := by
        rw [h2]; simp [armed_listeners, added_listener]
        simpa [armed_listeners] using inv.active_ports
      live := fun _ => ⟨c4 l1, fun sp hsp => by
          rcases hmem sp hsp with h | h
          · exact l2 sp h
          · rw [h]; rfl,
        by rw [hreg, h2]; exact l3,
        fun _ sp hsp => by
          rcases hmem sp hsp with h | h
          · exact l4 hcb sp h
          · rw [h]; rfl,
        fun hne => by rw [h2] at hne; exact absurd hcb hne⟩
      released := fun h => by rw [h2] at h; simp at h; omega
      runs := by rw [c1, c2, h2]; exact inv.runs }

theorem ServerInv.start {ops : List Op} {tr : List Event} {s : grpc_tcp_server}
    (inv : ServerInv ops tr s) (hrefs : 0 < s.refs) (cb arg : Nat) (os : Nat → ArmOS)
    (tr1 : List Event) (s1 : grpc_tcp_server)
    (h : step s (.start cb arg os) = ⟨tr1, some s1⟩) :
    ServerInv (ops ++ [Op.start cb arg os]) (tr ++ tr1) s1 := by
  simp only [step] at h
  rcases tcp_server_start_cases s cb arg os with ⟨_, hv⟩ | ⟨hno, tr2, hst, hq⟩
  · rw [h] at hv; simp at hv
  rw [hst] at h
  simp only [Run.mk.injEq, Option.some.injEq] at h
  obtain ⟨htr, hs1⟩ := h
  subst htr
  have hcb0 : s.on_accept_cb = 0 := by
    by_contra hc; exact hno (Or.inr (Or.inl hc))
  have hcb : cb ≠ 0 := fun hc => hno (Or.inl hc)
  obtain ⟨c1, c2, c3, c4⟩ := quiet_append tr tr2 hq
  obtain ⟨l1, l2, l3, l4, _⟩ := inv.live hrefs
  have hmem : ∀ x ∈ s1.listeners, x.outstanding_calls = 1 ∧ x.shutting_down = 0 := by
    intro x hx
    rw [← hs1] at hx
    obtain ⟨sp, hsp, k, hk⟩ := armed_list_mem os s.listeners 0 x hx
    have h0 := l4 hcb0 sp hsp
    have hsd := l2 sp hsp
    rw [hk]; simp [armed, hsd, h0]
  have hreg : registered_closures (ops ++ [Op.start cb arg os]) = registered_closures ops := by
    rw [registered_closures_append]; simp
  exact {
    refs_nonneg := by rw [← hs1]; exact inv.refs_nonneg
    outstanding := fun x hx => Or.inr (hmem x hx).1
    active_ports := by
      have hall : armed_listeners s1 = s1.listeners.length := by
        unfold armed_listeners
        rw [List.countP_eq_length]
        intro x hx; simpa using (hmem x hx).1
      rw [hall, ← hs1]; simp [armed_list_length]
    live := fun _ => ⟨c4 l1, fun x hx => (hmem x hx).2, by rw [hreg, ← hs1]; exact l3,
      fun h0 => by rw [← hs1] at h0; exact absurd h0 hcb, fun _ x hx => (hmem x hx).1⟩
    released := fun h0 => by rw [← hs1] at h0; simp at h0; omega
    runs := by rw [c1, c2, ← hs1]; exact inv.runs }

theorem ServerInv.unref {ops : List Op} {tr : List Event} {s : grpc_tcp_server}
    (inv : ServerInv ops tr s) (hrefs : 0 < s.refs)
    (tr1 : List Event) (s1 : grpc_tcp_server)
    (h : step s .unref = ⟨tr1, some s1⟩) :
    ServerInv (ops ++ [Op.unref]) (tr ++ tr1) s1 := by
  simp only [step] at h
  obtain ⟨l1, l2, l3, l4, l5⟩ := inv.live hrefs
  obtain ⟨q1, q2, q3⟩ := quiet_counts tr l1
  have hreg : registered_closures (ops ++ [Op.unref]) = registered_closures ops := by
    rw [registered_closures_append]; simp
  by_cases hr : s.refs = 1
  · rw [tcp_server_unref_last s hr] at h
    by_cases h0 : s.active_ports = 0
    · rw [if_pos h0] at h
      simp only [Run.mk.injEq, Option.some.injEq] at h
      obtain ⟨htr, hs1⟩ := h
      subst htr hs1
      have hnone : ∀ sp ∈ s.listeners, ¬ sp.outstanding_calls = 1 := by
        have := inv.active_ports
        rw [h0] at this
        have h' : armed_listeners s = 0 := by omega
        simpa [armed_listeners] using h'
      have e1 : finish_shutdowns (tr ++ ([Event.ExecCtx_RunList s.shutdown_starting,
          Event.grpc_slice_allocator_factory_destroy s.slice_allocator_factory] ++
          ((if s.shutdown_complete ≠ 0 then [Event.ExecCtx_Run s.shutdown_complete] else [])
            ++ [Event.ExecCtx_Run_destroy_server s.self]))) = 1 := by
        unfold finish_shutdowns at q2 ⊢
        by_cases hsc : s.shutdown_complete = 0 <;>
        simp [-List.countP_eq_zero, hsc, Event.is_ExecCtx_Run_destroy_server, q2]
      have e2 : run_lists (tr ++ ([Event.ExecCtx_RunList s.shutdown_starting,
          Event.grpc_slice_allocator_factory_destroy s.slice_allocator_factory] ++
          ((if s.shutdown_complete ≠ 0 then [Event.ExecCtx_Run s.shutdown_complete] else [])
            ++ [Event.ExecCtx_Run_destroy_server s.self]))) = 1 := by
        unfold run_lists at q3 ⊢
        by_cases hsc : s.shutdown_complete = 0 <;>
        simp [-List.countP_eq_zero, hsc, Event.is_ExecCtx_RunList, q3]
      have e3 : shutdown_complete_runs (tr ++ ([Event.ExecCtx_RunList s.shutdown_starting,
          Event.grpc_slice_allocator_factory_destroy s.slice_allocator_factory] ++
          ((if s.shutdown_complete ≠ 0 then [Event.ExecCtx_Run s.shutdown_complete] else [])
            ++ [Event.ExecCtx_Run_destroy_server s.self])))
          = if s.shutdown_complete ≠ 0 then 1 else 0 := by
        unfold shutdown_complete_runs at q1 ⊢
        by_cases hsc : s.shutdown_complete = 0 <;>
        simp [-List.countP_eq_zero, hsc, Event.is_ExecCtx_Run, q1]
      exact {
        refs_nonneg := le_refl _
        outstanding := inv.outstanding
        active_ports := inv.active_ports
        live := fun hl => by simp at hl
        released := fun _ => ⟨fun sp hsp h1 => absurd h1 (hnone sp hsp), by
            rw [e1]; simp [h0], e2⟩
        runs := by rw [e1, e3] }
    · rw [if_neg h0] at h
      simp only [Run.mk.injEq, Option.some.injEq] at h
      obtain ⟨htr, hs1⟩ := h
      subst htr hs1
      have hq : quiet (List.map (fun sp : grpc_tcp_listener =>
          Event.grpc_winsocket_shutdown sp.socket) s.listeners) := by
        simp [quiet, List.countP_map, Function.comp_def, Event.is_ExecCtx]
      obtain ⟨m1, m2, m3⟩ := quiet_counts _ hq
      have e1 : finish_shutdowns (tr ++ ([Event.ExecCtx_RunList s.shutdown_starting,
          Event.grpc_slice_allocator_factory_destroy s.slice_allocator_factory] ++
          List.map (fun sp : grpc_tcp_listener => Event.grpc_winsocket_shutdown sp.socket)
            s.listeners)) = 0 := by
        simp only [finish_shutdowns, List.countP_append] at q2 m2 ⊢
        simp [-List.countP_eq_zero, q2, m2, Event.is_ExecCtx_Run_destroy_server]
      have e2 : run_lists (tr ++ ([Event.ExecCtx_RunList s.shutdown_starting,
          Event.grpc_slice_allocator_factory_destroy s.slice_allocator_factory] ++
          List.map (fun sp : grpc_tcp_listener => Event.grpc_winsocket_shutdown sp.socket)
            s.listeners)) = 1 := by
        simp only [run_lists, List.countP_append] at q3 m3 ⊢
        simp [-List.countP_eq_zero, q3, m3, Event.is_ExecCtx_RunList]
      have e3 : shutdown_complete_runs (tr ++ ([Event.ExecCtx_RunList s.shutdown_starting,
          Event.grpc_slice_allocator_factory_destroy s.slice_allocator_factory] ++
          List.map (fun sp : grpc_tcp_listener => Event.grpc_winsocket_shutdown sp.socket)
            s.listeners)) = 0 := by
        simp only [shutdown_complete_runs, List.countP_append] at q1 m1 ⊢
        simp [-List.countP_eq_zero, q1, m1, Event.is_ExecCtx_Run]
      exact {
        refs_nonneg := le_refl _
        outstanding := fun sp hsp => by
          simp only [List.mem_map] at hsp
          obtain ⟨x, hx, rfl⟩ := hsp
          exact inv.outstanding x hx
        active_ports := by
          simp only [armed_listeners, List.countP_map]
          simpa [armed_listeners, Function.comp_def] using inv.active_ports
        live := fun hl => by simp at hl
        released := fun _ => ⟨fun sp hsp _ => by
            simp only [List.mem_map] at hsp
            obtain ⟨x, hx, rfl⟩ := hsp
            simp, by rw [e1]; simp [h0], e2⟩
        runs := by rw [e1, e3]; simp }
  · rw [tcp_server_unref_not_last s hr] at h
    simp only [Run.mk.injEq, Option.some.injEq] at h
    obtain ⟨htr, hs1⟩ := h
    subst htr hs1
    refine inv.quiet_step Op.unref [] _ rfl hrefs ?_ rfl rfl rfl rfl ?_
    · simp; omega
    · rw [hreg]; exact l3

/-- Replacing a listener by one with the same `outstanding_calls` keeps the number
of armed listeners. -/
theorem armed_listeners_set (ls : List grpc_tcp_listener) (i : Nat)
    (sp sp1 : grpc_tcp_listener) (hi : ls[i]? = some sp) :
    ((ls.set i sp1).countP (fun x => decide (x.outstanding_calls = 1)) : Int)
      = (ls.countP (fun x => decide (x.outstanding_calls = 1)) : Int)
        - (if sp.outstanding_calls = 1 then 1 else 0)
        + (if sp1.outstanding_calls = 1 then 1 else 0) := by
  obtain ⟨hlt, hget⟩ := List.getElem?_eq_some_iff.mp hi
  rw [List.countP_set _ _ _ _ hlt, hget]
  have hpos : sp.outstanding_calls = 1 →
      0 < ls.countP (fun x => decide (x.outstanding_calls = 1)) := by
    intro h1
    exact List.countP_pos_iff.mpr ⟨sp, List.getElem?_mem hi, by simpa using h1⟩
  by_cases h1 : sp.outstanding_calls = 1 <;> by_cases h2 : sp1.outstanding_calls = 1 <;>
  simp [h1, h2] <;> have := hpos <;> omega

/-- A step with a quiet trace that replaces one listener by a listener with the
same `outstanding_calls` and `shutting_down` keeps the invariant. -/
theorem ServerInv.listener_update {ops : List Op} {tr : List Event} {s : grpc_tcp_server}
    (inv : ServerInv ops tr s) (op : Op) (tr1 : List Event) (i : Nat)
    (sp sp1 : grpc_tcp_listener) (hq : quiet tr1) (hi : s.listeners[i]? = some sp)
    (hout : sp1.outstanding_calls = sp.outstanding_calls)
    (hsd : sp1.shutting_down = sp.shutting_down)
    (hreg : registered_closures (ops ++ [op]) = registered_closures ops) :
    ServerInv (ops ++ [op]) (tr ++ tr1) { s with listeners := s.listeners.set i sp1 } := by
  obtain ⟨c1, c2, c3, c4⟩ := quiet_append tr tr1 hq
  have hsp : sp ∈ s.listeners := List.getElem?_mem hi
  have hmem : ∀ x ∈ s.listeners.set i sp1, x ∈ s.listeners ∨ x = sp1 :=
    fun x hx => List.mem_or_eq_of_mem_set hx
  have hkeep : ∀ (P : grpc_tcp_listener → Prop),
      (∀ x, x.outstanding_calls = sp.outstanding_calls → x.shutting_down = sp.shutting_down →
        P sp → P x) →
      (∀ x ∈ s.listeners, P x) → ∀ x ∈ s.listeners.set i sp1, P x := by
    intro P hP hall x hx
    rcases hmem x hx with h | h
    · exact hall x h
    · rw [h]; exact hP sp1 hout hsd (hall sp hsp)
  exact {
    refs_nonneg := inv.refs_nonneg
    outstanding := hkeep _ (fun x h1 _ h => by rw [h1]; exact h) inv.outstanding
    active_ports := by
      have := armed_listeners_set s.listeners i sp sp1 hi
      simp only [armed_listeners]
      rw [this, hout]
      have := inv.active_ports
      simp only [armed_listeners] at this
      omega
    live := fun hr => by
      obtain ⟨l1, l2, l3, l4, l5⟩ := inv.live hr
      exact ⟨c4 l1, hkeep _ (fun x _ h2 h => by rw [h2]; exact h) l2, by rw [hreg]; exact l3,
        fun h0 => hkeep _ (fun x h1 _ h => by rw [h1]; exact h) (l4 h0),
        fun h0 => hkeep _ (fun x h1 _ h => by rw [h1]; exact h) (l5 h0)⟩
    released := fun hr => by
      obtain ⟨r1, r2, r3⟩ := inv.released hr
      exact ⟨hkeep _ (fun x h1 h2 h => by rw [h1, h2]; exact h) r1, by rw [c2]; exact r2,
        by rw [c3]; exact r3⟩
    runs := by rw [c1, c2]; exact inv.runs }

theorem ServerInv.on_accept {ops : List Op} {tr : List Event} {s : grpc_tcp_server}
    (inv : ServerInv ops tr s) (i : Nat) (error : grpc_error_handle) (os : AcceptOS)
    (hen : (Op.on_accept i error os).enabled s)
    (tr1 : List Event) (s1 : grpc_tcp_server)
    (h : step s (.on_accept i error os) = ⟨tr1, some s1⟩) :
    ServerInv (ops ++ [Op.on_accept i error os]) (tr ++ tr1) s1 := by
  obtain ⟨sp, hi, hpos⟩ := hen
  obtain ⟨s2, sp1, hacc, hs1⟩ := step_on_accept s s1 i sp error os tr1 hi h
  have hsp : sp ∈ s.listeners := List.getElem?_mem hi
  have hone : sp.outstanding_calls = 1 := by
    rcases inv.outstanding sp hsp with h0 | h1
    · omega
    · exact h1
  have hreg : registered_closures (ops ++ [Op.on_accept i error os])
      = registered_closures ops := by
    rw [registered_closures_append]; simp
  cases error with
  | some e =>
    rw [on_accept_error] at hacc
    simp only [Run.mk.injEq, Option.some.injEq, Prod.mk.injEq] at hacc
    obtain ⟨htr, hs2, hsp1⟩ := hacc
    subst htr hs2 hsp1 hs1
    exact inv.listener_update _ _ i sp sp (by simp [quiet, Event.is_ExecCtx]) hi rfl rfl hreg
  | none =>
    by_cases hrefs : 0 < s.refs
    · have hsd := (inv.live hrefs).2.1 sp hsp
      obtain ⟨hs2, hsp1, hq⟩ := on_accept_rearm s s2 sp sp1 os tr1 hsd hpos hacc
      subst hs2 hsp1 hs1
      exact inv.listener_update _ _ i sp _ hq hi rfl rfl hreg
    · have hr0 : s.refs = 0 := by have := inv.refs_nonneg; omega
      obtain ⟨r1, r2, r3⟩ := inv.released hr0
      have hsd := r1 sp hsp hone
      have hacc' : TcpServerWindows.on_accept s sp GRPC_ERROR_NONE os = ⟨tr1, some (s2, sp1)⟩ := hacc
      rw [on_accept_drain s sp os hsd hone] at hacc'
      have hap : 0 < s.active_ports := by
        rw [inv.active_ports]
        have : 0 < armed_listeners s :=
          List.countP_pos_iff.mpr ⟨sp, hsp, by simpa using hone⟩
        omega
      rw [if_pos hap] at hacc'
      simp only [Run.mk.injEq, Option.some.injEq, Prod.mk.injEq] at hacc'
      obtain ⟨htr, hs2, hsp1⟩ := hacc'
      subst hs2 hsp1 hs1
      have hcount := armed_listeners_set s.listeners i sp
        { sp with shutting_down := 0, outstanding_calls := 0 } hi
      have hfin0 : finish_shutdowns tr = 0 := by
        rw [r2, if_neg (by omega)]
      have hruns0 : shutdown_complete_runs tr = 0 := by
        rw [inv.runs, hfin0]; simp
      have e1 : finish_shutdowns (tr ++ tr1) = if s.active_ports - 1 = 0 then 1 else 0 := by
        rw [← htr]
        unfold finish_shutdowns at hfin0 ⊢
        by_cases hz : s.active_ports - 1 = 0 <;>
        by_cases hsc : s.shutdown_complete = 0 <;>
        simp [-List.countP_eq_zero, hz, hsc, Event.is_ExecCtx_Run_destroy_server, hfin0]
      have e2 : run_lists (tr ++ tr1) = 1 := by
        rw [← htr]
        unfold run_lists at r3 ⊢
        by_cases hz : s.active_ports - 1 = 0 <;>
        by_cases hsc : s.shutdown_complete = 0 <;>
        simp [-List.countP_eq_zero, hz, hsc, Event.is_ExecCtx_RunList, r3]
      have e3 : shutdown_complete_runs (tr ++ tr1)
          = if s.shutdown_complete ≠ 0 then (if s.active_ports - 1 = 0 then 1 else 0)
            else 0 := by
        rw [← htr]
        unfold shutdown_complete_runs at hruns0 ⊢
        by_cases hz : s.active_ports - 1 = 0 <;>
        by_cases hsc : s.shutdown_complete = 0 <;>
        simp [-List.countP_eq_zero, hz, hsc, Event.is_ExecCtx_Run, hruns0]
      have hmem : ∀ x ∈ s.listeners.set i { sp with shutting_down := 0, outstanding_calls := 0 },
          x ∈ s.listeners ∨ x = { sp with shutting_down := 0, outstanding_calls := 0 } :=
        fun x hx => List.mem_or_eq_of_mem_set hx
      exact {
        refs_nonneg := inv.refs_nonneg
        outstanding := fun x hx => by
          rcases hmem x hx with hx1 | hx1
          · exact inv.outstanding x hx1
          · left; rw [hx1]
        active_ports := by
          have := inv.active_ports
          simp only [armed_listeners] at this hcount ⊢
          rw [hcount]
          simp [hone]
          omega
        live := fun hl => absurd hl hrefs
        released := fun _ => ⟨fun x hx hx1 => by
            rcases hmem x hx with hx2 | hx2
            · exact r1 x hx2 hx1
            · rw [hx2] at hx1; simp at hx1,
          e1, e2⟩
        runs := by rw [e1, e3] }

/-- Every execution satisfies the invariant. -/
theorem Execution.inv {ops : List Op} {tr : List Event} {s : grpc_tcp_server}
    (hex : Execution ops tr s) : ServerInv ops tr s := by
  induction hex with
  | create sc args factory self => exact ServerInv.create sc args factory self
  | step op tr1 s1 _ hen hstep ih =>
    cases op with
    | add_port addr os => exact ih.add_port hen addr os tr1 s1 hstep
    | start cb arg os => exact ih.start hen cb arg os tr1 s1 hstep
    | on_accept i error os => exact ih.on_accept i error os hen tr1 s1 hstep
    | ref =>
      simp only [TcpServerWindows.step, Run.pure_eq, Run.mk.injEq, Option.some.injEq] at hstep
      obtain ⟨h1, h2⟩ := hstep
      subst h1 h2
      exact ih.ref hen
    | unref => exact ih.unref hen tr1 s1 hstep
    | shutdown_starting_add c =>
      simp only [TcpServerWindows.step, Run.pure_eq, Run.mk.injEq, Option.some.injEq] at hstep
      obtain ⟨h1, h2⟩ := hstep
      subst h1 h2
      exact ih.shutdown_starting_add hen c
    | shutdown_listeners =>
      simp only [TcpServerWindows.step, tcp_server_shutdown_listeners, Run.pure_eq, Run.mk.injEq,
        Option.some.injEq] at hstep
      obtain ⟨h1, h2⟩ := hstep
      subst h1 h2
      exact ih.shutdown_listeners hen

/-- A quiet trace holds no `ExecCtx::Run`. -/
theorem quiet_no_run (tr : List Event) (h : quiet tr) (c : Nat) :
    Event.ExecCtx_Run c ∉ tr := by
  intro hc
  unfold quiet at h
  rw [List.countP_eq_zero] at h
  exact h _ hc rfl

/-- The first part of `on_accept` holds no `ExecCtx::Run`. -/
theorem on_accept_delivery_no_run (s : grpc_tcp_server) (sp : grpc_tcp_listener)
    (os : AcceptOS) (c : Nat) : Event.ExecCtx_Run c ∉ on_accept_delivery s sp os := by
  unfold on_accept_delivery
  cases os.getpeername <;> split_ifs <;> simp

/-- The only caller-supplied closure an operation hands to `ExecCtx::Run` (event
`ExecCtx_Run`) is the shutdown-complete closure of the server, which no
operation changes. -/
theorem step_runs_shutdown_complete (s s1 : grpc_tcp_server) (op : Op) (tr1 : List Event)
    (h : step s op = ⟨tr1, some s1⟩) :
    s1.shutdown_complete = s.shutdown_complete ∧
    ∀ c, Event.ExecCtx_Run c ∈ tr1 → c = s.shutdown_complete ∧ c ≠ 0 := by
  cases op with
  | add_port addr os =>
    obtain ⟨err, port, h1⟩ := step_add_port s s1 addr os tr1 h
    have hq : quiet tr1 := by
      have := tcp_server_add_port_quiet s addr os
      rw [h1] at this; exact this
    refine ⟨?_, fun c hc => absurd hc (quiet_no_run tr1 hq c)⟩
    rcases tcp_server_add_port_state s addr os err port s1 (by rw [h1]) with h2 | ⟨_, _, _, h2, _⟩
    · rw [h2]
    · rw [h2]
  | start cb arg os =>
    simp only [step] at h
    rcases tcp_server_start_cases s cb arg os with ⟨_, hv⟩ | ⟨_, tr2, hst, hq⟩
    · rw [h] at hv; simp at hv
    · rw [hst] at h
      simp only [Run.mk.injEq, Option.some.injEq] at h
      obtain ⟨htr, hs1⟩ := h
      subst htr hs1
      exact ⟨rfl, fun c hc => absurd hc (quiet_no_run _ hq c)⟩
  | on_accept i error os =>
    cases hi : s.listeners[i]? with
    | none =>
      simp [step, hi, Run.pure_eq] at h
      obtain ⟨h1, h2⟩ := h
      subst h1 h2
      exact ⟨rfl, fun c hc => by simp at hc⟩
    | some sp =>
      obtain ⟨s2, sp1, h1, h2⟩ := step_on_accept s s1 i sp error os tr1 hi h
      have hfr := (on_accept_frame s s2 sp sp1 error os tr1 h1).1
      refine ⟨by rw [h2, hfr], ?_⟩
      cases error with
      | some e =>
        rw [on_accept_error] at h1
        simp only [Run.mk.injEq] at h1
        intro c hc; rw [← h1.1] at hc; simp at hc
      | none =>
        have h1' : TcpServerWindows.on_accept s sp GRPC_ERROR_NONE os = ⟨tr1, some (s2, sp1)⟩ := h1
        rw [on_accept_eq] at h1'
        simp only [Run.mk.injEq] at h1'
        obtain ⟨htr, hv⟩ := h1'
        intro c hc
        rw [← htr, List.mem_append] at hc
        rcases hc with hc | hc
        · exact absurd hc (on_accept_delivery_no_run s sp os c)
        · rcases on_accept_finish_cases s sp os with ⟨_, hn⟩ | ⟨_, tr0, hq0, hfin⟩
          · rw [hn] at hv; simp at hv
          · rw [hfin, decrement_active_ports_and_notify_locked_eq] at hc
            have hno := quiet_no_run tr0 hq0 c
            by_cases hz : (armed sp os.rearm).outstanding_calls - 1 = 0 <;>
            by_cases hap : 0 < s.active_ports <;>
            by_cases hz2 : s.active_ports - 1 = 0 <;>
            by_cases hsc : s.shutdown_complete = 0 <;>
            simp [hz, hap, hz2, hsc, hno] at hc
            exact ⟨hc, by rw [hc]; exact hsc⟩
  | ref =>
    simp [step, Run.pure_eq, tcp_server_ref] at h
    obtain ⟨h1, h2⟩ := h
    subst h1 h2
    exact ⟨rfl, fun c hc => by simp at hc⟩
  | unref =>
    simp only [step] at h
    by_cases hr : s.refs = 1
    · rw [tcp_server_unref_last s hr] at h
      by_cases h0 : s.active_ports = 0
      · rw [if_pos h0] at h
        simp only [Run.mk.injEq, Option.some.injEq] at h
        obtain ⟨h1, h2⟩ := h
        subst h1 h2
        refine ⟨rfl, fun c hc => ?_⟩
        by_cases hsc : s.shutdown_complete = 0
        · simp [hsc] at hc
        · simp [hsc] at hc
          exact ⟨hc, by rw [hc]; exact hsc⟩
      · rw [if_neg h0] at h
        simp only [Run.mk.injEq, Option.some.injEq] at h
        obtain ⟨h1, h2⟩ := h
        subst h1 h2
        exact ⟨rfl, fun c hc => by simp at hc⟩
    · rw [tcp_server_unref_not_last s hr] at h
      simp at h
      obtain ⟨h1, h2⟩ := h
      subst h1 h2
      exact ⟨rfl, fun c hc => by simp at hc⟩
  | shutdown_starting_add c =>
    simp [step, Run.pure_eq, tcp_server_shutdown_starting_add] at h
    obtain ⟨h1, h2⟩ := h
    subst h1 h2
    exact ⟨rfl, fun c hc => by simp at hc⟩
  | shutdown_listeners =>
    simp [step, Run.pure_eq, tcp_server_shutdown_listeners] at h
    obtain ⟨h1, h2⟩ := h
    subst h1 h2
    exact ⟨rfl, fun c hc => by simp at hc⟩

/-- In every execution, each event `ExecCtx_Run`, the call of `ExecCtx::Run` on
`s->shutdown_complete` in `finish_shutdown_locked`, carries the shutdown-complete
closure the server was created with, and that closure is not null. (The
closure that `finish_shutdown_locked` creates for `destroy_server` and hands to
`ExecCtx::Run` next is the event `ExecCtx_Run_destroy_server`.) -/
theorem Execution.runs_shutdown_complete {ops : List Op} {tr : List Event}
    {s : grpc_tcp_server} (hex : Execution ops tr s) :
    ∀ c, Event.ExecCtx_Run c ∈ tr → c = s.shutdown_complete ∧ c ≠ 0 := by
  induction hex with
  | create sc args factory self => intro c hc; simp at hc
  | step op tr1 s1 _ _ hstep ih =>
    obtain ⟨h1, h2⟩ := step_runs_shutdown_complete _ s1 op tr1 hstep
    intro c hc
    rw [List.mem_append] at hc
    rcases hc with hc | hc
    · rw [h1]; exact ih c hc
    · rw [h1]; exact h2 c hc

/-- The execution that registers one port, starts, and releases the only
reference. -/
theorem ex_execution_release : Execution ex_ops_release ex_trace_release ex_server_released :=
  Execution.step (Op.unref)
    [.ExecCtx_RunList [], .grpc_slice_allocator_factory_destroy 2,
     .grpc_winsocket_shutdown (grpc_winsocket_create 3 "listener")]
    ex_server_released
    (Execution.step (Op.start 77 78 (fun _ => ex_arm_ok))
      [.grpc_socket_notify_on_read (grpc_winsocket_create 3 "listener")] ex_server_armed
      (Execution.step (Op.add_port (.in4 0 0) ex_add_port_first) [] ex_server_one_port
        (Execution.create 55 1 2 100) (by unfold Op.enabled; decide) (by decide))
      (by unfold Op.enabled; decide) (by decide))
    (by unfold Op.enabled; decide) (by decide)

/-- C8. In every execution, the release that brings the reference count to zero
hands the registered closures, all of them and in one `ExecCtx::RunList`, to
the `ExecCtx` as its first effect: nothing was handed to the `ExecCtx` before
(no shutdown-complete run, no scheduled destruction), and what the release does
after it holds no second `RunList`. This needs no listener to have been
started. A release that leaves references behind has no effect but the
decrement, and over the whole execution the list is handed over exactly once,
by the last release. -/
theorem tcp_server_unref_runs_shutdown_starting (ops : List Op) (tr : List Event)
    (s : grpc_tcp_server) (hex : Execution ops tr s) :
    (s.refs = 1 → quiet tr ∧ ∃ rest s1,
      tcp_server_unref s
        = ⟨Event.ExecCtx_RunList (registered_closures ops) :: rest, some s1⟩ ∧
      run_lists rest = 0) ∧
    (s.refs ≠ 1 → tcp_server_unref s = ⟨[], some { s with refs := s.refs - 1 }⟩) ∧
    run_lists tr = (if s.refs = 0 then 1 else 0) := by
  have inv := hex.inv
  refine ⟨?_, tcp_server_unref_not_last s, ?_⟩
  · intro hr
    obtain ⟨l1, _, l3, _, _⟩ := inv.live (by omega)
    refine ⟨l1, ?_⟩
    rw [tcp_server_unref_last s hr, l3]
    by_cases h0 : s.active_ports = 0
    · rw [if_pos h0]
      refine ⟨_, _, rfl, ?_⟩
      by_cases hsc : s.shutdown_complete = 0 <;>
      simp [run_lists, hsc, Event.is_ExecCtx_RunList]
    · rw [if_neg h0]
      refine ⟨_, _, rfl, ?_⟩
      simp [run_lists, Event.is_ExecCtx_RunList]
  · by_cases hr : 0 < s.refs
    · rw [(quiet_counts tr (inv.live hr).1).2.2, if_neg (by omega)]
    · have hr0 : s.refs = 0 := by have := inv.refs_nonneg; omega
      rw [(inv.released hr0).2.2, if_pos hr0]

theorem tcp_server_unref_runs_shutdown_starting_witness :
    ∃ rest s1,
      tcp_server_unref (tcp_server_shutdown_starting_add ex_server_fresh 9)
        = ⟨Event.ExecCtx_RunList [9] :: rest, some s1⟩ ∧
      run_lists rest = 0 :=
  ((tcp_server_unref_runs_shutdown_starting ([] ++ [Op.shutdown_starting_add 9]) ([] ++ [])
    (tcp_server_shutdown_starting_add ex_server_fresh 9)
    (Execution.step (Op.shutdown_starting_add 9) []
      (tcp_server_shutdown_starting_add ex_server_fresh 9)
      (Execution.create 55 1 2 100) (by unfold Op.enabled; decide) rfl)).1 (by decide)).2

/-- C14. A completion delivered to `on_accept` with an infrastructure error
returns the server and the listener as they were (so `outstanding_calls`,
`active_ports`, `shutting_down` and `new_socket` are unchanged); its only effect
is one log line: no read notification is registered, the connection callback is
not invoked and nothing is handed to the `ExecCtx`. -/
theorem on_accept_infrastructure_error (s : grpc_tcp_server) (sp : grpc_tcp_listener)
    (error : grpc_error_handle) (os : AcceptOS) (herr : error ≠ GRPC_ERROR_NONE) :
    (on_accept s sp error os).value = some (s, sp) ∧
    (on_accept s sp error os).trace = [Event.gpr_log "INFO" "Skipping on_accept due to error"] ∧
    (on_accept s sp error os).trace.filter Event.is_grpc_socket_notify_on_read = [] ∧
    (on_accept s sp error os).trace.filter Event.is_on_accept_cb = [] ∧
    quiet (on_accept s sp error os).trace := by
  cases error with
  | none => exact absurd rfl herr
  | some e =>
    rw [on_accept_error]
    simp [quiet, Event.is_grpc_socket_notify_on_read, Event.is_on_accept_cb, Event.is_ExecCtx]

theorem on_accept_infrastructure_error_witness :
    (on_accept ex_server_released ex_listener_shutting_down (some ex_infrastructure_error)
        ex_accept_ok).value = some (ex_server_released, ex_listener_shutting_down) ∧
    (on_accept ex_server_released ex_listener_shutting_down (some ex_infrastructure_error)
        ex_accept_ok).trace = [Event.gpr_log "INFO" "Skipping on_accept due to error"] :=
  ⟨(on_accept_infrastructure_error ex_server_released ex_listener_shutting_down
      (some ex_infrastructure_error) ex_accept_ok (by decide)).1,
   (on_accept_infrastructure_error ex_server_released ex_listener_shutting_down
      (some ex_infrastructure_error) ex_accept_ok (by decide)).2.1⟩

/-- C15. On a listener that is shutting down `start_accept_locked` returns
`GRPC_ERROR_NONE` with the listener unchanged and without any effect, whatever
the environment would answer. On a listener that is not shutting down the
outcome follows the answers of the environment. When `WSASocket` returns a
socket, `grpc_tcp_prepare_socket` succeeds and `AcceptEx` succeeds or fails with
`ERROR_IO_PENDING`, it returns `GRPC_ERROR_NONE`, has registered the read
notification, and the listener has the fresh socket in `new_socket` and one more
outstanding call. When `WSASocket` fails it returns the error of `WSASocket`
with the listener unchanged and no effect (there is no socket to close). When
`grpc_tcp_prepare_socket` fails, or `AcceptEx` fails with another code, it
returns that error with the listener unchanged, and its only effect is closing
the fresh socket. So it always returns, and an answer without error is an
armed listener exactly when every call of the environment succeeded. -/
theorem start_accept_locked_effect (port : grpc_tcp_listener) (os : ArmOS) :
    (port.shutting_down ≠ 0 → start_accept_locked port os = ⟨[], some (GRPC_ERROR_NONE, port)⟩) ∧
    (port.shutting_down = 0 → os.WSASocket ≠ INVALID_SOCKET →
      os.grpc_tcp_prepare_socket = GRPC_ERROR_NONE →
      (os.AcceptEx = true ∨ os.WSAGetLastError = ERROR_IO_PENDING) →
      start_accept_locked port os
        = ⟨[Event.grpc_socket_notify_on_read port.socket],
           some (GRPC_ERROR_NONE,
             { port with new_socket := os.WSASocket,
                         outstanding_calls := port.outstanding_calls + 1 })⟩) ∧
    (port.shutting_down = 0 → os.WSASocket = INVALID_SOCKET →
      start_accept_locked port os
        = ⟨[], some (some (GRPC_WSA_ERROR os.WSAGetLastError "WSASocket"), port)⟩) ∧
    (port.shutting_down = 0 → os.WSASocket ≠ INVALID_SOCKET →
      ∀ e, os.grpc_tcp_prepare_socket = some e →
      start_accept_locked port os
        = ⟨[Event.closesocket os.WSASocket], some (some e, port)⟩) ∧
    (port.shutting_down = 0 → os.WSASocket ≠ INVALID_SOCKET →
      os.grpc_tcp_prepare_socket = GRPC_ERROR_NONE →
      os.AcceptEx = false → os.WSAGetLastError ≠ ERROR_IO_PENDING →
      start_accept_locked port os
        = ⟨[Event.closesocket os.WSASocket],
           some (some (GRPC_WSA_ERROR os.WSAGetLastError "AcceptEx"), port)⟩) ∧
    (port.shutting_down = 0 →
      ((start_accept_locked port os).value.map Prod.fst = some GRPC_ERROR_NONE ↔
        (os.WSASocket ≠ INVALID_SOCKET ∧ os.grpc_tcp_prepare_socket = GRPC_ERROR_NONE ∧
          (os.AcceptEx = true ∨ os.WSAGetLastError = ERROR_IO_PENDING)))) := by
  have hfail : ∀ (e : grpc_error) (tr : List Event),
      ((⟨tr, some (some e, port)⟩ : Run (grpc_error_handle × grpc_tcp_listener)).value.map
        Prod.fst = some GRPC_ERROR_NONE) ↔ False := by
    intro e tr; simp [GRPC_ERROR_NONE]
  have harm : ∀ (hsd : port.shutting_down = 0) (hs : os.WSASocket ≠ INVALID_SOCKET)
      (hp : os.grpc_tcp_prepare_socket = GRPC_ERROR_NONE)
      (ha : os.AcceptEx = true ∨ os.WSAGetLastError = ERROR_IO_PENDING),
      start_accept_locked port os
        = ⟨[Event.grpc_socket_notify_on_read port.socket],
           some (GRPC_ERROR_NONE,
             { port with new_socket := os.WSASocket,
                         outstanding_calls := port.outstanding_calls + 1 })⟩ := by
    intro hsd hs hp ha
    unfold start_accept_locked
    have h3 : (!os.AcceptEx && os.WSAGetLastError != ERROR_IO_PENDING) = false := by
      rcases ha with ha | ha <;> simp [ha]
    simp only [GRPC_ERROR_NONE] at hp
    simp [hsd, hs, hp, h3, Run.bind_eq, Run.bind, Run.pure_eq, emit, GRPC_ERROR_NONE]
  have hnosock : ∀ (hsd : port.shutting_down = 0) (hs : os.WSASocket = INVALID_SOCKET),
      start_accept_locked port os
        = ⟨[], some (some (GRPC_WSA_ERROR os.WSAGetLastError "WSASocket"), port)⟩ := by
    intro hsd hs
    unfold start_accept_locked
    simp [start_accept_locked_failure_eq, hsd, hs]
  have hprep : ∀ (hsd : port.shutting_down = 0) (hs : os.WSASocket ≠ INVALID_SOCKET)
      (e : grpc_error) (hp : os.grpc_tcp_prepare_socket = some e),
      start_accept_locked port os
        = ⟨[Event.closesocket os.WSASocket], some (some e, port)⟩ := by
    intro hsd hs e hp
    unfold start_accept_locked
    simp [start_accept_locked_failure_eq, hsd, hs, hp]
  have hacc : ∀ (hsd : port.shutting_down = 0) (hs : os.WSASocket ≠ INVALID_SOCKET)
      (hp : os.grpc_tcp_prepare_socket = GRPC_ERROR_NONE)
      (ha : os.AcceptEx = false) (hl : os.WSAGetLastError ≠ ERROR_IO_PENDING),
      start_accept_locked port os
        = ⟨[Event.closesocket os.WSASocket],
           some (some (GRPC_WSA_ERROR os.WSAGetLastError "AcceptEx"), port)⟩ := by
    intro hsd hs hp ha hl
    unfold start_accept_locked
    simp only [GRPC_ERROR_NONE] at hp
    simp [start_accept_locked_failure_eq, hsd, hs, hp, ha, hl]
  refine ⟨?_, harm, hnosock, hprep, hacc, ?_⟩
  · intro h
    simp [start_accept_locked, h, Run.pure_eq]
  · intro hsd
    by_cases hs : os.WSASocket = INVALID_SOCKET
    · rw [hnosock hsd hs, hfail]
      simp [hs]
    cases hp : os.grpc_tcp_prepare_socket with
    | some e =>
      rw [hprep hsd hs e hp, hfail]
      simp [GRPC_ERROR_NONE]
    | none =>
      by_cases ha : os.AcceptEx = true ∨ os.WSAGetLastError = ERROR_IO_PENDING
      · rw [harm hsd hs hp ha]
        simp [hs, ha, GRPC_ERROR_NONE]
      · have ha1 : os.AcceptEx = false := by
          cases h : os.AcceptEx
          · rfl
          · exact absurd (Or.inl h) ha
        have hl : os.WSAGetLastError ≠ ERROR_IO_PENDING := fun h => ha (Or.inr h)
        rw [hacc hsd hs hp ha1 hl, hfail]
        simp [hs, ha, GRPC_ERROR_NONE]

theorem start_accept_locked_effect_witness :
    start_accept_locked ex_listener_shutting_down ex_arm_ok
      = ⟨[], some (GRPC_ERROR_NONE, ex_listener_shutting_down)⟩ ∧
    start_accept_locked ex_listener ex_arm_ok
      = ⟨[Event.grpc_socket_notify_on_read ex_listener.socket],
         some (GRPC_ERROR_NONE,
           { ex_listener with new_socket := 8, outstanding_calls := 2 })⟩ ∧
    start_accept_locked ex_listener ex_arm_no_socket
      = ⟨[], some (some (GRPC_WSA_ERROR 10024 "WSASocket"), ex_listener)⟩ ∧
    start_accept_locked ex_listener
        { ex_arm_ok with grpc_tcp_prepare_socket := some ex_infrastructure_error }
      = ⟨[Event.closesocket 8], some (some ex_infrastructure_error, ex_listener)⟩ ∧
    start_accept_locked ex_listener
        { ex_arm_ok with AcceptEx := false, WSAGetLastError := 10055 }
      = ⟨[Event.closesocket 8], some (some (GRPC_WSA_ERROR 10055 "AcceptEx"), ex_listener)⟩ ∧
    ((start_accept_locked ex_listener ex_arm_ok).value.map Prod.fst = some GRPC_ERROR_NONE ↔
      (ex_arm_ok.WSASocket ≠ INVALID_SOCKET ∧
        ex_arm_ok.grpc_tcp_prepare_socket = GRPC_ERROR_NONE ∧
        (ex_arm_ok.AcceptEx = true ∨ ex_arm_ok.WSAGetLastError = ERROR_IO_PENDING))) :=
  ⟨(start_accept_locked_effect ex_listener_shutting_down ex_arm_ok).1 (by decide),
   (start_accept_locked_effect ex_listener ex_arm_ok).2.1 (by decide) (by decide) (by decide)
     (by decide),
   (start_accept_locked_effect ex_listener ex_arm_no_socket).2.2.1 (by decide) (by decide),
   (start_accept_locked_effect ex_listener
     { ex_arm_ok with grpc_tcp_prepare_socket := some ex_infrastructure_error }).2.2.2.1
     (by decide) (by decide) ex_infrastructure_error rfl,
   (start_accept_locked_effect ex_listener
     { ex_arm_ok with AcceptEx := false, WSAGetLastError := 10055 }).2.2.2.2.1
     (by decide) (by decide) (by decide) (by decide) (by decide),
   (start_accept_locked_effect ex_listener ex_arm_ok).2.2.2.2.2 (by decide)⟩

/-- C13, amended. For a completion without infrastructure error on a listener
that is not shutting down, a failure of the re-arm is logged and then ends the
process: the `GPR_ASSERT` around `GRPC_LOG_IF_ERROR("start_accept", ...)` fails
and `on_accept` does not return. When the re-arm succeeds on a listener with an
accept outstanding, `on_accept` returns normally with the server unchanged and
the fresh socket pending on the listener. -/
theorem on_accept_rearm_failure_aborts (s : grpc_tcp_server) (sp : grpc_tcp_listener)
    (os : AcceptOS) (hsd : sp.shutting_down = 0) :
    (arm_fails sp os.rearm →
      (on_accept s sp GRPC_ERROR_NONE os).value = none ∧
      Event.gpr_log "ERROR" "start_accept" ∈ (on_accept s sp GRPC_ERROR_NONE os).trace) ∧
    (¬ arm_fails sp os.rearm → 0 < sp.outstanding_calls →
      (on_accept s sp GRPC_ERROR_NONE os).value
        = some (s, { sp with new_socket := os.rearm.WSASocket })) := by
  rw [on_accept_eq]
  constructor
  · intro hf
    rcases start_accept_locked_cases sp os.rearm with ⟨_, tr0, e, hst, _⟩ | ⟨hno, _⟩
    · have hfin : on_accept_finish s sp os
          = ⟨tr0 ++ [Event.gpr_log "ERROR" "start_accept"], none⟩ := by
        simp [on_accept_finish, hst, Run.bind, Run.bind_eq, GRPC_LOG_IF_ERROR, GPR_ASSERT]
      rw [hfin]
      simp
    · exact absurd hf hno
  · intro hno hpos
    rcases on_accept_finish_cases s sp os with ⟨hf, _⟩ | ⟨_, tr0, _, hfin⟩
    · exact absurd hf hno
    · have hne : ¬ (armed sp os.rearm).outstanding_calls - 1 = 0 := by
        simp [armed, hsd]; omega
      rw [hfin, if_neg hne]
      simp [armed, hsd]

theorem on_accept_rearm_failure_aborts_witness :
    ((on_accept ex_server_started ex_listener GRPC_ERROR_NONE ex_accept_rearm_fails).value
        = none ∧
      Event.gpr_log "ERROR" "start_accept"
        ∈ (on_accept ex_server_started ex_listener GRPC_ERROR_NONE ex_accept_rearm_fails).trace) ∧
    (on_accept ex_server_started ex_listener GRPC_ERROR_NONE ex_accept_ok).value
      = some (ex_server_started, { ex_listener with new_socket := ex_accept_ok.rearm.WSASocket }) :=
  ⟨(on_accept_rearm_failure_aborts ex_server_started ex_listener ex_accept_rearm_fails
      (by decide)).1 (by unfold arm_fails; decide),
   (on_accept_rearm_failure_aborts ex_server_started ex_listener ex_accept_ok
      (by decide)).2 (by unfold arm_fails; decide) (by decide)⟩

/-- C13, as stated, fails: a successful completion on a listener that is not
shutting down delivers the connection, then the re-arm fails at `WSASocket`;
the failure is logged and `on_accept` ends in the assertion failure instead of
returning. -/
theorem on_accept_rearm_failure_counterexample :
    ex_listener.shutting_down = 0 ∧
    on_accept ex_server_started ex_listener GRPC_ERROR_NONE ex_accept_rearm_fails
      = ⟨[Event.on_accept_cb 77 78
            (accepted_endpoint ex_server_started ex_listener
              (grpc_sockaddr_to_uri (.in4 167772161 4242)))
            0 (accepted_acceptor ex_listener),
          Event.gpr_log "ERROR" "start_accept"], none⟩ := by
  refine ⟨rfl, ?_⟩
  rw [on_accept_eq]
  have h1 : on_accept_finish ex_server_started ex_listener ex_accept_rearm_fails
      = ⟨[Event.gpr_log "ERROR" "start_accept"], none⟩ := by decide
  rw [h1]
  simp [on_accept_delivery, ex_accept_rearm_fails, ex_accept_ok, ex_listener]
  exact ⟨rfl, rfl⟩

/-- The loop of `destroy_server` destroys the socket and frees the record of
every listener of the list. -/
theorem destroy_server_loop_mem (ls : List grpc_tcp_listener) (sp : grpc_tcp_listener)
    (h : sp ∈ ls) :
    Event.grpc_winsocket_destroy sp.socket ∈ destroy_server_loop ls ∧
    Event.gpr_free_listener sp ∈ destroy_server_loop ls := by
  induction ls with
  | nil => simp at h
  | cons x rest ih =>
    simp only [List.mem_cons] at h
    rcases h with h | h
    · subst h; simp [destroy_server_loop]
    · obtain ⟨h1, h2⟩ := ih h
      simp [destroy_server_loop, h1, h2]

/-- C11. When the last reference is released on a server whose `active_ports` is
zero, `tcp_server_destroy` hands the shutdown-complete closure to the `ExecCtx`
once if it is not null and schedules `destroy_server` right after it; over the
whole execution the closure has then run once, or never if it is null. The
scheduled `destroy_server` destroys the socket and frees the record of every
listener of the list, and frees the server. -/
theorem tcp_server_destroy_without_active_ports (ops : List Op) (tr : List Event)
    (s : grpc_tcp_server) (hex : Execution ops tr s) (h1 : s.refs = 1)
    (h0 : s.active_ports = 0) :
    tcp_server_destroy s
      = ⟨[Event.grpc_slice_allocator_factory_destroy s.slice_allocator_factory]
          ++ (if s.shutdown_complete ≠ 0 then [Event.ExecCtx_Run s.shutdown_complete] else [])
          ++ [Event.ExecCtx_Run_destroy_server s.self], some s⟩ ∧
    (∃ s1, tcp_server_unref s
        = ⟨Event.ExecCtx_RunList s.shutdown_starting :: (tcp_server_destroy s).trace, some s1⟩ ∧
      s1.listeners = s.listeners ∧ s1.self = s.self ∧
      shutdown_complete_runs (tr ++ (tcp_server_unref s).trace)
        = (if s.shutdown_complete ≠ 0 then 1 else 0) ∧
      (∀ sp ∈ s.listeners,
        Event.grpc_winsocket_destroy sp.socket ∈ (destroy_server s1).trace ∧
        Event.gpr_free_listener sp ∈ (destroy_server s1).trace) ∧
      Event.gpr_free_server s.self ∈ (destroy_server s1).trace ∧
      (destroy_server s1).value = some ()) := by
  have hd : tcp_server_destroy s
      = ⟨[Event.grpc_slice_allocator_factory_destroy s.slice_allocator_factory]
          ++ (if s.shutdown_complete ≠ 0 then [Event.ExecCtx_Run s.shutdown_complete] else [])
          ++ [Event.ExecCtx_Run_destroy_server s.self], some s⟩ := by
    by_cases hsc : s.shutdown_complete = 0 <;>
    simp [tcp_server_destroy, finish_shutdown_locked_eq, h0, hsc, Run.bind_eq, Run.bind,
      Run.pure_eq, emit]
  refine ⟨hd, { s with refs := 0, shutdown_starting := [] }, ?_, rfl, rfl, ?_, ?_, ?_, rfl⟩
  · rw [tcp_server_unref_last s h1, if_pos h0, hd]
    simp
  · have hq := (quiet_counts tr (hex.inv.live (by omega)).1).1
    rw [tcp_server_unref_last s h1, if_pos h0]
    unfold shutdown_complete_runs at hq ⊢
    by_cases hsc : s.shutdown_complete = 0 <;>
    simp [-List.countP_eq_zero, hsc, Event.is_ExecCtx_Run, hq]
  · intro sp hsp
    obtain ⟨m1, m2⟩ := destroy_server_loop_mem s.listeners sp hsp
    simp [destroy_server, m1, m2]
  · simp [destroy_server]

theorem tcp_server_destroy_without_active_ports_witness :
    tcp_server_destroy ex_server_one_port
      = ⟨[Event.grpc_slice_allocator_factory_destroy 2, Event.ExecCtx_Run 55,
          Event.ExecCtx_Run_destroy_server 100], some ex_server_one_port⟩ :=
  (tcp_server_destroy_without_active_ports ([] ++ [Op.add_port (.in4 0 0) ex_add_port_first])
    ([] ++ []) ex_server_one_port
    (Execution.step (Op.add_port (.in4 0 0) ex_add_port_first) [] ex_server_one_port
      (Execution.create 55 1 2 100) (by unfold Op.enabled; decide) (by decide))
    (by decide) (by decide)).1

/-- C19. With one port registered on 5000, a registration for port 0 in which the
`WSAIoctl` lookup of `AcceptEx` fails returns without error: the listener list
is the same list of one listener, the new socket is closed, and the reported
port 5000 is the port of the listener registered before. -/
theorem tcp_server_add_port_ioctl_failure_keeps_list :
    (tcp_server_add_port ex_server_one_port (.in6 0 0) ex_add_port_ioctl_fails).value
      = some (GRPC_ERROR_NONE, 5000, ex_server_one_port) ∧
    (tcp_server_add_port ex_server_one_port (.in6 0 0) ex_add_port_ioctl_fails).trace
      = [Event.gpr_log "ERROR" "on_connect error", Event.closesocket 5] ∧
    ex_server_one_port.listeners = [ex_listener_added] ∧
    ex_listener_added.port = 5000 := by
  decide

/-- C18. In every execution, `active_ports` is the number of listeners whose
`outstanding_calls` is greater than zero, hence not negative. Whenever a
completion is handled for a listener with an accept outstanding,
`active_ports` is positive, so the assertion in
`decrement_active_ports_and_notify_locked` holds: `on_accept` can only stop at
the assertion on the re-arm. -/
theorem active_ports_counts_armed (ops : List Op) (tr : List Event) (s : grpc_tcp_server)
    (hex : Execution ops tr s) :
    s.active_ports
      = (s.listeners.countP (fun sp => decide (0 < sp.outstanding_calls)) : Nat) ∧
    0 ≤ s.active_ports ∧
    (∀ (i : Nat) (sp : grpc_tcp_listener) (error : grpc_error_handle) (os : AcceptOS),
      s.listeners[i]? = some sp → 0 < sp.outstanding_calls →
      0 < s.active_ports ∧
      ((on_accept s sp error os).value = none →
        error = GRPC_ERROR_NONE ∧ arm_fails sp os.rearm)) := by
  have inv := hex.inv
  have hcount : s.listeners.countP (fun sp => decide (0 < sp.outstanding_calls))
      = armed_listeners s := by
    unfold armed_listeners
    apply List.countP_congr
    intro sp hsp
    rcases inv.outstanding sp hsp with h | h <;> simp [h]
  refine ⟨by rw [hcount]; exact inv.active_ports, by rw [inv.active_ports]; omega, ?_⟩
  intro i sp error os hi hpos
  have hsp : sp ∈ s.listeners := List.getElem?_mem hi
  have hone : sp.outstanding_calls = 1 := by
    rcases inv.outstanding sp hsp with h | h
    · omega
    · exact h
  have hap : 0 < s.active_ports := by
    rw [inv.active_ports]
    have : 0 < armed_listeners s :=
      List.countP_pos_iff.mpr ⟨sp, hsp, by simpa using hone⟩
    omega
  refine ⟨hap, ?_⟩
  intro hnone
  cases error with
  | some e => rw [on_accept_error] at hnone; simp at hnone
  | none =>
    refine ⟨rfl, ?_⟩
    have hnone' : (TcpServerWindows.on_accept s sp GRPC_ERROR_NONE os).value = none := hnone
    rw [on_accept_eq] at hnone'
    simp only at hnone'
    rcases on_accept_finish_cases s sp os with ⟨hf, _⟩ | ⟨_, tr0, _, hfin⟩
    · exact hf
    · exfalso
      rw [hfin, decrement_active_ports_and_notify_locked_eq, if_pos hap] at hnone'
      by_cases hsd : sp.shutting_down = 0
      · simp [armed, hsd, hone] at hnone'
      · simp [armed, hsd, hone] at hnone'

theorem active_ports_counts_armed_witness :
    ex_server_released.active_ports
      = (ex_server_released.listeners.countP
          (fun sp => decide (0 < sp.outstanding_calls)) : Nat) ∧
    0 ≤ ex_server_released.active_ports :=
  ⟨(active_ports_counts_armed ex_ops_release ex_trace_release ex_server_released
      ex_execution_release).1,
   (active_ports_counts_armed ex_ops_release ex_trace_release ex_server_released
      ex_execution_release).2.1⟩

/-- Writing back the element that is already at a position changes nothing. -/
theorem set_same {α : Type} (l : List α) (i : Nat) (a : α) (h : l[i]? = some a) :
    l.set i a = l := by
  induction l generalizing i with
  | nil => rfl
  | cons x rest ih =>
    cases i with
    | zero => simp at h; simp [h]
    | succ j => simp at h; simp [ih j h]

/-- After the last release the only operation is a completion for a listener
that is shutting down with its accept outstanding: with an infrastructure error
it changes nothing, otherwise it drains that listener. -/
theorem released_step {ops : List Op} {tr : List Event} {s : grpc_tcp_server}
    (hex : Execution ops tr s) (hr0 : s.refs = 0) (op : Op) (tr1 : List Event)
    (s1 : grpc_tcp_server) (hen : op.enabled s) (h : step s op = ⟨tr1, some s1⟩) :
    ∃ (i : Nat) (error : grpc_error_handle) (os : AcceptOS) (sp : grpc_tcp_listener),
      op = Op.on_accept i error os ∧ s.listeners[i]? = some sp ∧
      sp.outstanding_calls = 1 ∧ sp.shutting_down ≠ 0 ∧
      ((error ≠ none ∧ s1 = s) ∨
       (error = none ∧
        s1 = { s with
          active_ports := s.active_ports - 1,
          listeners := s.listeners.set i
            { sp with shutting_down := 0, outstanding_calls := 0 } })) := by
  have inv := hex.inv
  cases op with
  | on_accept i error os =>
    obtain ⟨sp, hi, hpos⟩ := hen
    obtain ⟨s2, sp1, hacc, hs1⟩ := step_on_accept s s1 i sp error os tr1 hi h
    have hsp : sp ∈ s.listeners := List.getElem?_mem hi
    have hone : sp.outstanding_calls = 1 := by
      rcases inv.outstanding sp hsp with h0 | h1
      · omega
      · exact h1
    have hsd := (inv.released hr0).1 sp hsp hone
    refine ⟨i, error, os, sp, rfl, hi, hone, hsd, ?_⟩
    cases error with
    | some e =>
      left
      rw [on_accept_error] at hacc
      simp only [Run.mk.injEq, Option.some.injEq, Prod.mk.injEq] at hacc
      obtain ⟨_, hs2, hsp1⟩ := hacc
      subst hs2 hsp1
      refine ⟨by simp, ?_⟩
      rw [hs1, set_same s.listeners i sp hi]
    | none =>
      right
      have hacc' : TcpServerWindows.on_accept s sp GRPC_ERROR_NONE os
          = ⟨tr1, some (s2, sp1)⟩ := hacc
      rw [on_accept_drain s sp os hsd hone] at hacc'
      have hap : 0 < s.active_ports := by
        rw [inv.active_ports]
        have : 0 < armed_listeners s :=
          List.countP_pos_iff.mpr ⟨sp, hsp, by simpa using hone⟩
        omega
      rw [if_pos hap] at hacc'
      simp only [Run.mk.injEq, Option.some.injEq, Prod.mk.injEq] at hacc'
      obtain ⟨_, hs2, hsp1⟩ := hacc'
      subst hs2 hsp1
      exact ⟨rfl, hs1⟩
  | add_port addr os => simp [Op.enabled] at hen; omega
  | start cb arg os => simp [Op.enabled] at hen; omega
  | ref => simp [Op.enabled] at hen; omega
  | unref => simp [Op.enabled] at hen; omega
  | shutdown_starting_add c => simp [Op.enabled] at hen; omega
  | shutdown_listeners => simp [Op.enabled] at hen; omega

/-- C12, amended. In every execution, take a listener whose `shutting_down`
flag is set and any operation that can follow. If the operation is the
completion without infrastructure error for that listener, the listener had its
one accept outstanding and is drained: `decrement_active_ports_and_notify_locked`
resets `shutting_down` to 0 together with `outstanding_calls` reaching 0, and
nothing else of the listener changes. Every other operation leaves the
listener as it is, flag included. -/
theorem shutting_down_cleared_only_by_drain (ops : List Op) (tr : List Event)
    (s : grpc_tcp_server) (hex : Execution ops tr s) (op : Op) (tr1 : List Event)
    (s1 : grpc_tcp_server) (hen : op.enabled s) (hstep : step s op = ⟨tr1, some s1⟩)
    (i : Nat) (sp : grpc_tcp_listener) (hi : s.listeners[i]? = some sp)
    (hsd : sp.shutting_down ≠ 0) :
    ((∃ os, op = Op.on_accept i none os) →
      sp.outstanding_calls = 1 ∧
      s1.listeners[i]? = some { sp with shutting_down := 0, outstanding_calls := 0 }) ∧
    ((¬ ∃ os, op = Op.on_accept i none os) → s1.listeners[i]? = some sp) := by
  have inv := hex.inv
  have hr0 : s.refs = 0 := by
    by_contra hne
    have hpos : 0 < s.refs := by have := inv.refs_nonneg; omega
    exact hsd ((inv.live hpos).2.1 sp (List.getElem?_mem hi))
  obtain ⟨j, error, os, spj, hop, hj, hone, _, hcase⟩ :=
    released_step hex hr0 op tr1 s1 hen hstep
  rcases hcase with ⟨herr, hs1⟩ | ⟨herr, hs1⟩
  · constructor
    · rintro ⟨os1, hop1⟩
      rw [hop] at hop1
      exact absurd (Op.on_accept.inj hop1).2.1 herr
    · intro _
      rw [hs1]; exact hi
  · by_cases hij : j = i
    · subst hij
      have hsame : spj = sp := by rw [hj] at hi; exact Option.some.inj hi
      subst hsame
      have hlt : j < s.listeners.length := (List.getElem?_eq_some_iff.mp hj).1
      constructor
      · intro _
        refine ⟨hone, ?_⟩
        rw [hs1]; simp [hlt]
      · intro hno
        exact absurd ⟨os, by rw [hop, herr]⟩ hno
    · constructor
      · rintro ⟨os1, hop1⟩
        rw [hop] at hop1
        exact absurd (Op.on_accept.inj hop1).1 hij
      · intro _
        rw [hs1]
        simp [List.getElem?_set_ne hij, hi]

theorem shutting_down_cleared_only_by_drain_witness :
    (ex_server_released.listeners[0]?
        = some { ex_listener_added with new_socket := 8, outstanding_calls := 1,
                                        shutting_down := 1 } ∧
      ex_server_drained.listeners[0]?
        = some { ex_listener_added with new_socket := 8, outstanding_calls := 0,
                                        shutting_down := 0 }) ∧
    ex_server_released.listeners[0]?
      = some { ex_listener_added with new_socket := 8, outstanding_calls := 1,
                                      shutting_down := 1 } :=
  ⟨⟨rfl,
    ((shutting_down_cleared_only_by_drain ex_ops_release ex_trace_release ex_server_released
      ex_execution_release (Op.on_accept 0 none ex_accept_ok)
      [.closesocket 8, .ExecCtx_Run 55, .ExecCtx_Run_destroy_server 100] ex_server_drained
      ⟨_, rfl, by decide⟩ (by decide) 0 _ rfl (by decide)).1 ⟨ex_accept_ok, rfl⟩).2⟩,
   (shutting_down_cleared_only_by_drain ex_ops_release ex_trace_release ex_server_released
      ex_execution_release (Op.on_accept 0 (some ex_infrastructure_error) ex_accept_ok)
      [.gpr_log "INFO" "Skipping on_accept due to error"] ex_server_released
      ⟨_, rfl, by decide⟩ (by decide) 0 _ rfl (by decide)).2
        (by rintro ⟨os, h⟩; exact absurd (Op.on_accept.inj h).2.1 (by decide))⟩

/-- C12, as stated, fails: after the last release the listener is marked
shutting down; the completion of its accept drains it, and the listener is left
with `shutting_down` 0. -/
theorem shutting_down_cleared_counterexample :
    Execution ex_ops_release ex_trace_release ex_server_released ∧
    ex_server_released.listeners.map (fun sp => sp.shutting_down) = [1] ∧
    step ex_server_released (Op.on_accept 0 none ex_accept_ok)
      = ⟨[.closesocket 8, .ExecCtx_Run 55, .ExecCtx_Run_destroy_server 100],
         some ex_server_drained⟩ ∧
    ex_server_drained.listeners.map (fun sp => sp.shutting_down) = [0] :=
  ⟨ex_execution_release, by decide, by decide, by decide⟩

/-- Only `tcp_server_ref` and `tcp_server_unref` change the reference count. -/
theorem step_refs (s s1 : grpc_tcp_server) (op : Op) (tr : List Event)
    (h : step s op = ⟨tr, some s1⟩) :
    s1.refs = s.refs ∨ (op = Op.ref ∧ s1.refs = s.refs + 1) ∨
      (op = Op.unref ∧ s1.refs = s.refs - 1) := by
  cases op with
  | add_port addr os =>
    obtain ⟨err, port, h1⟩ := step_add_port s s1 addr os tr h
    rcases tcp_server_add_port_state s addr os err port s1 (by rw [h1]) with h2 | ⟨_, _, _, h2, _⟩
    · rw [h2]; exact Or.inl rfl
    · rw [h2]; exact Or.inl rfl
  | start cb arg os =>
    simp only [step] at h
    rcases tcp_server_start_cases s cb arg os with ⟨_, hv⟩ | ⟨_, tr2, hst, _⟩
    · rw [h] at hv; simp at hv
    · rw [hst] at h
      simp only [Run.mk.injEq, Option.some.injEq] at h
      rw [← h.2]; exact Or.inl rfl
  | on_accept i error os =>
    cases hi : s.listeners[i]? with
    | none =>
      simp [step, hi, Run.pure_eq] at h
      rw [← h.2]; exact Or.inl rfl
    | some sp =>
      obtain ⟨s2, sp1, h1, h2⟩ := step_on_accept s s1 i sp error os tr hi h
      have hfr := (on_accept_frame s s2 sp sp1 error os tr h1).1
      rw [h2, hfr]; exact Or.inl rfl
  | ref =>
    simp [step, Run.pure_eq, tcp_server_ref] at h
    rw [← h.2]; exact Or.inr (Or.inl ⟨rfl, rfl⟩)
  | unref =>
    simp only [step] at h
    refine Or.inr (Or.inr ⟨rfl, ?_⟩)
    by_cases hr : s.refs = 1
    · rw [tcp_server_unref_last s hr] at h
      by_cases h0 : s.active_ports = 0
      · simp [h0] at h; rw [← h.2]; simp [hr]
      · simp [h0] at h; rw [← h.2]; simp [hr]
    · rw [tcp_server_unref_not_last s hr] at h
      simp at h; rw [← h.2]
  | shutdown_starting_add c =>
    simp [step, Run.pure_eq, tcp_server_shutdown_starting_add] at h
    rw [← h.2]; exact Or.inl rfl
  | shutdown_listeners =>
    simp [step, Run.pure_eq, tcp_server_shutdown_listeners] at h
    rw [← h.2]; exact Or.inl rfl

/-- After the last release, a listener that is marked shutting down still has
its accept outstanding. -/
theorem Execution.marked_armed {ops : List Op} {tr : List Event} {s : grpc_tcp_server}
    (hex : Execution ops tr s) (hr0 : s.refs = 0) :
    ∀ sp ∈ s.listeners, sp.shutting_down ≠ 0 → sp.outstanding_calls = 1 := by
  induction hex with
  | create sc args factory self => simp [tcp_server_create] at hr0
  | @step ops0 tr0 s0 op tr1 s1 hprev hen hstep ih =>
    have inv := hprev.inv
    by_cases hp : s0.refs = 0
    · obtain ⟨i, error, os, spi, _, hi, _, _, hcase⟩ :=
        released_step hprev hp op tr1 s1 hen hstep
      rcases hcase with ⟨_, hs1⟩ | ⟨_, hs1⟩
      · rw [hs1]; exact ih hp
      · intro x hx hsd
        rw [hs1] at hx
        rcases List.mem_or_eq_of_mem_set hx with hx1 | hx1
        · exact ih hp x hx1 hsd
        · rw [hx1] at hsd; simp at hsd
    · have hpos : 0 < s0.refs := by have := inv.refs_nonneg; omega
      obtain ⟨_, l2, _, l4, l5⟩ := inv.live hpos
      rcases step_refs s0 s1 op tr1 hstep with h1 | ⟨_, h1⟩ | ⟨hop, h1⟩
      · omega
      · omega
      · subst hop
        have hone : s0.refs = 1 := by omega
        simp only [TcpServerWindows.step] at hstep
        rw [tcp_server_unref_last s0 hone] at hstep
        by_cases h0 : s0.active_ports = 0
        · rw [if_pos h0] at hstep
          simp only [Run.mk.injEq, Option.some.injEq] at hstep
          intro x hx hsd
          rw [← hstep.2] at hx
          exact absurd (l2 x hx) hsd
        · rw [if_neg h0] at hstep
          simp only [Run.mk.injEq, Option.some.injEq] at hstep
          have hcb : s0.on_accept_cb ≠ 0 := by
            intro hc
            apply h0
            rw [inv.active_ports]
            have : armed_listeners s0 = 0 := by
              unfold armed_listeners
              rw [List.countP_eq_zero]
              intro y hy; simp [l4 hc y hy]
            omega
          intro x hx _
          rw [← hstep.2] at hx
          simp only [List.mem_map] at hx
          obtain ⟨y, hy, rfl⟩ := hx
          exact l5 hcb y hy

/-- C16, amended. In every execution, every listener has `outstanding_calls` 0 or
1. While a reference is held, every listener of a started server is not
shutting down and has `outstanding_calls` exactly 1. After the last release a
listener has `outstanding_calls` 1 exactly while it is marked shutting down; a
listener whose flag is 0 then has `outstanding_calls` 0 (it was drained, or the
server was never started). -/
theorem outstanding_calls_zero_or_one (ops : List Op) (tr : List Event)
    (s : grpc_tcp_server) (hex : Execution ops tr s) :
    (∀ sp ∈ s.listeners, sp.outstanding_calls = 0 ∨ sp.outstanding_calls = 1) ∧
    (0 < s.refs → s.on_accept_cb ≠ 0 →
      ∀ sp ∈ s.listeners, sp.shutting_down = 0 ∧ sp.outstanding_calls = 1) ∧
    (s.refs = 0 →
      ∀ sp ∈ s.listeners,
        (sp.shutting_down ≠ 0 → sp.outstanding_calls = 1) ∧
        (sp.shutting_down = 0 → sp.outstanding_calls = 0)) := by
  have inv := hex.inv
  refine ⟨inv.outstanding, ?_, ?_⟩
  · intro hr hcb sp hsp
    obtain ⟨_, l2, _, _, l5⟩ := inv.live hr
    exact ⟨l2 sp hsp, l5 hcb sp hsp⟩
  · intro hr0 sp hsp
    refine ⟨hex.marked_armed hr0 sp hsp, ?_⟩
    intro hsd
    rcases inv.outstanding sp hsp with h | h
    · exact h
    · exact absurd hsd ((inv.released hr0).1 sp hsp h)

theorem outstanding_calls_zero_or_one_witness :
    (∀ sp ∈ ex_server_released.listeners,
      sp.outstanding_calls = 0 ∨ sp.outstanding_calls = 1) ∧
    (∀ sp ∈ ex_server_released.listeners,
      (sp.shutting_down ≠ 0 → sp.outstanding_calls = 1) ∧
      (sp.shutting_down = 0 → sp.outstanding_calls = 0)) :=
  ⟨(outstanding_calls_zero_or_one ex_ops_release ex_trace_release ex_server_released
      ex_execution_release).1,
   (outstanding_calls_zero_or_one ex_ops_release ex_trace_release ex_server_released
      ex_execution_release).2.2 (by decide)⟩

/-- C16, as stated, fails: after the last release and the completion of its
accept, the listener of the started server is not shutting down (its flag was
reset to 0) and has `outstanding_calls` 0, not 1. -/
theorem outstanding_calls_counterexample :
    Execution (ex_ops_release ++ [.on_accept 0 none ex_accept_ok])
      (ex_trace_release ++ [.closesocket 8, .ExecCtx_Run 55, .ExecCtx_Run_destroy_server 100])
      ex_server_drained ∧
    ex_server_drained.on_accept_cb ≠ 0 ∧
    ex_server_drained.listeners.map (fun sp => (sp.shutting_down, sp.outstanding_calls))
      = [(0, 0)] :=
  ⟨Execution.step (Op.on_accept 0 none ex_accept_ok)
      [.closesocket 8, .ExecCtx_Run 55, .ExecCtx_Run_destroy_server 100] ex_server_drained
      ex_execution_release ⟨_, rfl, by decide⟩ (by decide),
   by decide, by decide⟩

/-- Replacing a listener by one with the same port index keeps the port indices. -/
theorem set_same_port_index (l : List grpc_tcp_listener) (i : Nat)
    (a b : grpc_tcp_listener) (h : l[i]? = some a) (hf : b.port_index = a.port_index) :
    (l.set i b).map (fun sp => sp.port_index) = l.map (fun sp => sp.port_index) := by
  induction l generalizing i with
  | nil => rfl
  | cons x rest ih =>
    cases i with
    | zero => simp at h; simp [h, hf]
    | succ j => simp at h; simp [ih j h]

/-- Arming keeps the port indices. -/
theorem armed_list_port_index (os : Nat → ArmOS) (ls : List grpc_tcp_listener) (n : Nat) :
    (armed_list os n ls).map (fun sp => sp.port_index) = ls.map (fun sp => sp.port_index) := by
  induction ls generalizing n with
  | nil => rfl
  | cons sp rest ih =>
    simp only [armed_list, List.map_cons, ih]
    congr 1
    unfold armed; split_ifs <;> rfl

/-- An operation keeps the port indices of the listeners in place, or it is a
registration that appends one listener with the next port index. -/
theorem step_port_index (s s1 : grpc_tcp_server) (op : Op) (tr : List Event)
    (h : step s op = ⟨tr, some s1⟩) :
    s1.listeners.map (fun sp => sp.port_index) = s.listeners.map (fun sp => sp.port_index) ∨
    s1.listeners.map (fun sp => sp.port_index)
      = s.listeners.map (fun sp => sp.port_index) ++ [next_port_index s] := by
  cases op with
  | add_port addr os =>
    obtain ⟨err, port, h1⟩ := step_add_port s s1 addr os tr h
    rcases tcp_server_add_port_state s addr os err port s1 (by rw [h1]) with h2 | ⟨_, _, _, h2, _⟩
    · rw [h2]; exact Or.inl rfl
    · rw [h2]; right; simp [added_listener]
  | start cb arg os =>
    simp only [step] at h
    rcases tcp_server_start_cases s cb arg os with ⟨_, hv⟩ | ⟨_, tr2, hst, _⟩
    · rw [h] at hv; simp at hv
    · rw [hst] at h
      simp only [Run.mk.injEq, Option.some.injEq] at h
      rw [← h.2]; left
      exact armed_list_port_index os s.listeners 0
  | on_accept i error os =>
    cases hi : s.listeners[i]? with
    | none =>
      simp [step, hi, Run.pure_eq] at h
      rw [← h.2]; exact Or.inl rfl
    | some sp =>
      obtain ⟨s2, sp1, h1, h2⟩ := step_on_accept s s1 i sp error os tr hi h
      obtain ⟨hfr, hfl⟩ := on_accept_frame s s2 sp sp1 error os tr h1
      left
      rw [h2, hfr]
      exact set_same_port_index s.listeners i sp sp1 hi (by rw [hfl])
  | ref =>
    simp [step, Run.pure_eq, tcp_server_ref] at h
    rw [← h.2]; exact Or.inl rfl
  | unref =>
    simp only [step] at h
    left
    by_cases hr : s.refs = 1
    · rw [tcp_server_unref_last s hr] at h
      by_cases h0 : s.active_ports = 0
      · simp [h0] at h; rw [← h.2]
      · simp [h0] at h; rw [← h.2]; simp [Function.comp_def]
    · rw [tcp_server_unref_not_last s hr] at h
      simp at h; rw [← h.2]
  | shutdown_starting_add c =>
    simp [step, Run.pure_eq, tcp_server_shutdown_starting_add] at h
    rw [← h.2]; exact Or.inl rfl
  | shutdown_listeners =>
    simp [step, Run.pure_eq, tcp_server_shutdown_listeners] at h
    rw [← h.2]; exact Or.inl rfl

/-- In every execution the port indices of the listeners are their positions,
reduced modulo `2 ^ 32`. -/
theorem Execution.port_indices {ops : List Op} {tr : List Event} {s : grpc_tcp_server}
    (hex : Execution ops tr s) :
    ∀ (k : Nat) (x : Nat), (s.listeners.map (fun sp => sp.port_index))[k]? = some x →
      x = k % 2 ^ 32 := by
  induction hex with
  | create sc args factory self => intro k x h; simp [tcp_server_create] at h
  | @step ops0 tr0 s0 op tr1 s1 hprev hen hstep ih =>
    rcases step_port_index s0 s1 op tr1 hstep with h1 | h1
    · rw [h1]; exact ih
    · intro k x hk
      rw [h1] at hk
      by_cases hlt : k < (s0.listeners.map (fun sp => sp.port_index)).length
      · rw [List.getElem?_append_left hlt] at hk
        exact ih k x hk
      · have hlen : (s0.listeners.map (fun sp => sp.port_index)).length = s0.listeners.length := by
          simp
        rw [List.getElem?_append_right (by omega)] at hk
        have hk0 : k = s0.listeners.length := by
          by_contra hne
          have : k - (s0.listeners.map (fun sp => sp.port_index)).length ≥ 1 := by omega
          rw [List.getElem?_eq_none (by simpa using this)] at hk
          simp at hk
        rw [hk0, hlen] at hk
        simp at hk
        rw [← hk, hk0]
        unfold next_port_index
        rw [List.getLast?_eq_getElem?]
        cases hl : s0.listeners[s0.listeners.length - 1]? with
        | none =>
          have := List.getElem?_eq_none_iff.mp hl
          have h0 : s0.listeners.length = 0 := by omega
          simp [h0]
        | some last =>
          have hpos : 0 < s0.listeners.length := by
            have := (List.getElem?_eq_some_iff.mp hl).1
            omega
          have := ih (s0.listeners.length - 1) last.port_index (by simp [hl])
          simp only [this]
          omega

/-- In every execution the next port index is the number of listeners, reduced
modulo `2 ^ 32`. -/
theorem Execution.next_port_index {ops : List Op} {tr : List Event} {s : grpc_tcp_server}
    (hex : Execution ops tr s) :
    TcpServerWindows.next_port_index s = s.listeners.length % 2 ^ 32 := by
  unfold TcpServerWindows.next_port_index
  rw [List.getLast?_eq_getElem?]
  cases hl : s.listeners[s.listeners.length - 1]? with
  | none =>
    have := List.getElem?_eq_none_iff.mp hl
    have h0 : s.listeners.length = 0 := by omega
    simp [h0]
  | some last =>
    have hpos : 0 < s.listeners.length := by
      have := (List.getElem?_eq_some_iff.mp hl).1
      omega
    have := hex.port_indices (s.listeners.length - 1) last.port_index (by simp [hl])
    simp only [this]
    omega

/-- C17. In every execution the listener at position `k` of the list has port
index `k` (reduced modulo `2 ^ 32`, the port index being `unsigned`). A call of
`tcp_server_add_port` that returns leaves the server as it was, or it returned
without error and appended at the tail one listener, whose port index is the
number of listeners registered before and whose port is the reported one; a
call that returns an error leaves the server as it was, so it consumes no port
index. -/
theorem port_index_is_position (ops : List Op) (tr : List Event) (s : grpc_tcp_server)
    (hex : Execution ops tr s) :
    (∀ (k : Nat) (sp : grpc_tcp_listener), s.listeners[k]? = some sp →
      sp.port_index = k % 2 ^ 32 ∧ (k < 2 ^ 32 → sp.port_index = k)) ∧
    (∀ addr os err port s1,
      (tcp_server_add_port s addr os).value = some (err, port, s1) →
      s1 = s ∨
      (err = GRPC_ERROR_NONE ∧ ∃ sp, s1.listeners = s.listeners ++ [sp] ∧
        sp.port_index = s.listeners.length % 2 ^ 32 ∧ sp.port = port)) ∧
    (∀ addr os e port s1,
      (tcp_server_add_port s addr os).value = some (some e, port, s1) → s1 = s) := by
  have hstate : ∀ addr os err port s1,
      (tcp_server_add_port s addr os).value = some (err, port, s1) →
      s1 = s ∨
      (err = GRPC_ERROR_NONE ∧ ∃ sp, s1.listeners = s.listeners ++ [sp] ∧
        sp.port_index = s.listeners.length % 2 ^ 32 ∧ sp.port = port) := by
    intro addr os err port s1 h
    rcases tcp_server_add_port_state s addr os err port s1 h with h1 | ⟨_, he, _, h1, _⟩
    · exact Or.inl h1
    · refine Or.inr ⟨he, added_listener s os port, by rw [h1], ?_, rfl⟩
      simp only [added_listener]
      exact hex.next_port_index
  refine ⟨?_, hstate, ?_⟩
  · intro k sp hk
    have h := hex.port_indices k sp.port_index (by simp [hk])
    refine ⟨h, fun hlt => ?_⟩
    rw [h]; exact Nat.mod_eq_of_lt hlt
  · intro addr os e port s1 h
    rcases hstate addr os (some e) port s1 h with h1 | ⟨he, _⟩
    · exact h1
    · simp [GRPC_ERROR_NONE] at he

theorem port_index_is_position_witness :
    (∀ (k : Nat) (sp : grpc_tcp_listener), ex_server_one_port.listeners[k]? = some sp →
      sp.port_index = k % 2 ^ 32 ∧ (k < 2 ^ 32 → sp.port_index = k)) ∧
    ∃ sp, [ex_listener_added, { ex_listener_added with
              socket := grpc_winsocket_create 5 "listener", port_index := 1 }]
        = ex_server_one_port.listeners ++ [sp] ∧
      sp.port_index = ex_server_one_port.listeners.length % 2 ^ 32 ∧ sp.port = 5000 :=
  ⟨(port_index_is_position ([] ++ [Op.add_port (.in4 0 0) ex_add_port_first]) ([] ++ [])
      ex_server_one_port
      (Execution.step (Op.add_port (.in4 0 0) ex_add_port_first) [] ex_server_one_port
        (Execution.create 55 1 2 100) (by unfold Op.enabled; decide) (by decide))).1,
   ((port_index_is_position ([] ++ [Op.add_port (.in4 0 0) ex_add_port_first]) ([] ++ [])
      ex_server_one_port
      (Execution.step (Op.add_port (.in4 0 0) ex_add_port_first) [] ex_server_one_port
        (Execution.create 55 1 2 100) (by unfold Op.enabled; decide) (by decide))).2.1
      (.in6 0 0) ex_add_port_ok GRPC_ERROR_NONE 5000
      { ex_server_one_port with
        listeners := [ex_listener_added,
          { ex_listener_added with socket := grpc_winsocket_create 5 "listener",
                                   port_index := 1 }] }
      (by decide)).resolve_left (by decide) |>.2⟩

end TcpServerWindows
